import Mathlib

/-!
# Ui-designer: the project builder wizard and the design-prompt wizard

A shallow embedding of `src/frontend-ui-builder.js` (class `FrontendUIBuilder`)
and `src/ui-designer-cli.js` (class `UIDesignerCLI`), followed by theorems about
the package manifests, the emitted files and the recommendation lookups.

Conventions of the embedding:

* an object literal is the list of its own properties in insertion order; a property
  read on a lookup table also sees the members inherited from `Object.prototype`;
* a method that only calls `fs` and `execSync` is the list of calls it makes, in
  order, and `exec` runs such a list against the answers and faults of the outside
  world; a thrown file-system error stops the run, a failed installation does not;
* paths are POSIX paths, kept as lists of segments;
* in the trace of a run the bodies of the HTML, CSS and JavaScript templates are
  payloads named after the generator or local constant that holds them, and the
  JSON text of a manifest is computed; the generators `getReactAppComponent`,
  `getMainStyles` and `getVanillaIndexHtml` are embedded with their text as well;
* the manifest, component and style generators are also run as methods on a heap
  of objects, with property reads, object creation and property writes;
* a prompt method of the design-prompt wizard is run against the lines the user
  will type; the working directory, the clock and the banner are fields of
  `CliEnv`, the styling done by `chalk` is not represented, and the method
  `createFullWebsiteDesign` is a parameter of a turn of the menu.
-/

set_option autoImplicit false
set_option maxRecDepth 100000

namespace UiDesigner

/-! ## JavaScript objects with string keys -/

/-- Own properties of an object literal whose values are strings, in insertion order. -/
abbrev Props := List (String × String)

/-- Whether `k` is an own property of `o` (the `in` test restricted to own keys). -/
def hasKey (o : Props) (k : String) : Bool :=
  o.any (fun p => p.1 == k)

/-- The assignment `o[k] = v`: an existing key keeps its position and takes the new
value, a new key is appended. -/
def setProp : Props → String → String → Props
  | [], k, v => [(k, v)]
  | (k0, v0) :: rest, k, v =>
    if k0 == k then (k, v) :: rest else (k0, v0) :: setProp rest k v

/-- A value held by a top-level field of a manifest. -/
inductive Field where
  | str (s : String)
  | bool (b : Bool)
  | obj (props : Props)
deriving DecidableEq, Repr

/-- A package manifest: the top-level fields of the object, in insertion order. -/
abbrev Manifest := List (String × Field)

/-- The object stored under `field`; the empty object when the field is absent or
is not an object. -/
def getObj : Manifest → String → Props
  | [], _ => []
  | (k, v) :: rest, field =>
    if k == field then
      match v with
      | .obj p => p
      | _ => []
    else getObj rest field

/-- Whether the top-level field is present and holds an object. -/
def isObj : Manifest → String → Bool
  | [], _ => false
  | (k, v) :: rest, field =>
    if k == field then
      match v with
      | .obj _ => true
      | _ => false
    else isObj rest field

/-- The assignment `base[field] = value` on the manifest itself. -/
def setField : Manifest → String → Field → Manifest
  | [], k, v => [(k, v)]
  | (k0, v0) :: rest, k, v =>
    if k0 == k then (k, v) :: rest else (k0, v0) :: setField rest k v

/-- The assignment `base[field][k] = v` for a field that holds an object. -/
def setIn : Manifest → String → String → String → Manifest
  | [], _, _, _ => []
  | (k0, v0) :: rest, field, k, v =>
    if k0 == field then
      match v0 with
      | .obj p => (k0, .obj (setProp p k v)) :: rest
      | other => (k0, other) :: rest
    else (k0, v0) :: setIn rest field k v

/-- The `dependencies` object of a manifest. -/
def dependencies (m : Manifest) : Props := getObj m "dependencies"

/-- The `devDependencies` object of a manifest. -/
def devDependencies (m : Manifest) : Props := getObj m "devDependencies"

/-! ## The builder wizard: answer record -/

/-- The record resolved by `inquirer.prompt` in `collectUserPreferences`.  The six
questions without a `when` predicate always store a string; the three conditional
questions store a value only when they were asked. -/
structure Answers where
  uiType : String
  colorTheme : String
  designStyle : String
  frontendFramework : String
  cssFramework : String
  projectName : String
  includeRouter : Option Bool
  includeStateManagement : Option Bool
  stateManager : Option String
deriving DecidableEq, Repr

/-- JavaScript truthiness of a confirm answer that may be absent. -/
def truthy : Option Bool → Bool
  | some true => true
  | _ => false

/-! ## The question list of `collectUserPreferences` -/

/-- Values of the choices of the `uiType` question. -/
def uiTypeChoices : List String :=
  ["landing", "dashboard", "portfolio", "ecommerce", "blog", "custom"]

/-- Values of the choices of the `colorTheme` question. -/
def colorThemeChoices : List String :=
  ["light", "dark", "pastel", "neon", "custom"]

/-- Values of the choices of the `designStyle` question. -/
def designStyleChoices : List String :=
  ["minimal", "modern", "material", "glass", "brutalist"]

/-- Values of the choices of the `frontendFramework` question. -/
def frontendFrameworkChoices : List String :=
  ["react", "vue", "svelte", "vanilla"]

/-- Values of the choices of the `cssFramework` question. -/
def cssFrameworkChoices : List String :=
  ["tailwind", "bootstrap", "mui", "chakra", "plain"]

/-- The characters `String.prototype.trim` removes: white space and line
terminators. -/
def isJsWhitespace (c : Char) : Bool :=
  let n := c.toNat
  n = 9 || n = 10 || n = 11 || n = 12 || n = 13 || n = 32 || n = 160 || n = 5760 ||
  (8192 ≤ n && n ≤ 8202) || n = 8232 || n = 8233 || n = 8239 || n = 8287 ||
  n = 12288 || n = 65279

/-- Embedding of `String.prototype.trim`. -/
def jsTrim (s : String) : String :=
  String.mk ((s.toList.dropWhile isJsWhitespace).reverse.dropWhile isJsWhitespace).reverse

/-- The character class of the project-name pattern: letters, digits, hyphen and
underscore. -/
def isNameChar (c : Char) : Bool :=
  ('a' ≤ c && c ≤ 'z') || ('A' ≤ c && c ≤ 'Z') || ('0' ≤ c && c ≤ '9') ||
  c = '-' || c = '_'

/-- The result of an inquirer `validate` function: `true`, or a message. -/
inductive Validation where
  | accepted
  | rejected (message : String)
deriving DecidableEq, Repr

/-- Embedding of the `validate` function of the `projectName` question. -/
def validateProjectName (input : String) : Validation :=
  if (jsTrim input).isEmpty then .rejected "Project name cannot be empty"
  else if !(!input.toList.isEmpty && input.toList.all isNameChar) then
    .rejected "Project name can only contain letters, numbers, hyphens, and underscores"
  else .accepted

/-- A record made of enumerated choices and an accepted project name. -/
def isValidAnswers (a : Answers) : Bool :=
  uiTypeChoices.contains a.uiType && colorThemeChoices.contains a.colorTheme &&
  designStyleChoices.contains a.designStyle &&
  frontendFrameworkChoices.contains a.frontendFramework &&
  cssFrameworkChoices.contains a.cssFramework &&
  validateProjectName a.projectName = .accepted

/-! ## Package.json generators -/

/-- The object literal `base` that `getReactPackageJson` starts from. -/
def reactBase (a : Answers) : Manifest :=
  [ ("name", .str a.projectName),
    ("version", .str "0.1.0"),
    ("private", .bool true),
    ("scripts", .obj
      [ ("start", "react-scripts start"),
        ("build", "react-scripts build"),
        ("test", "react-scripts test"),
        ("eject", "react-scripts eject") ]),
    ("dependencies", .obj
      [ ("react", "^18.2.0"),
        ("react-dom", "^18.2.0"),
        ("react-scripts", "5.0.1") ]) ]

/-- The block `// Add CSS framework dependencies` of `getReactPackageJson`. -/
def reactCssFramework (a : Answers) (base : Manifest) : Manifest :=
  if a.cssFramework == "tailwind" then
    setField (setIn base "dependencies" "tailwindcss" "^3.3.0") "devDependencies"
      (.obj [("autoprefixer", "^10.4.14"), ("postcss", "^8.4.24")])
  else if a.cssFramework == "bootstrap" then
    setIn base "dependencies" "bootstrap" "^5.3.0"
  else if a.cssFramework == "mui" then
    setIn (setIn (setIn base "dependencies" "@mui/material" "^5.13.0")
      "dependencies" "@emotion/react" "^11.11.0")
      "dependencies" "@emotion/styled" "^11.11.0"
  else if a.cssFramework == "chakra" then
    setIn (setIn (setIn (setIn base "dependencies" "@chakra-ui/react" "^2.7.0")
      "dependencies" "@emotion/react" "^11.11.0")
      "dependencies" "@emotion/styled" "^11.11.0")
      "dependencies" "framer-motion" "^10.12.0"
  else base

/-- The block `// Add routing` of `getReactPackageJson`. -/
def reactRouting (a : Answers) (base : Manifest) : Manifest :=
  if truthy a.includeRouter then
    setIn base "dependencies" "react-router-dom" "^6.11.0"
  else base

/-- The block `// Add state management` of `getReactPackageJson`. -/
def reactStateManagement (a : Answers) (base : Manifest) : Manifest :=
  if truthy a.includeStateManagement then
    if a.stateManager == some "redux" then
      setIn (setIn base "dependencies" "@reduxjs/toolkit" "^1.9.0")
        "dependencies" "react-redux" "^8.1.0"
    else if a.stateManager == some "zustand" then
      setIn base "dependencies" "zustand" "^4.3.0"
    else if a.stateManager == some "recoil" then
      setIn base "dependencies" "recoil" "^0.7.0"
    else base
  else base

/-- Embedding of `getReactPackageJson`: the base literal, then the three blocks
in source order. -/
def getReactPackageJson (a : Answers) : Manifest :=
  reactStateManagement a (reactRouting a (reactCssFramework a (reactBase a)))

/-- The object literal `base` that `getVuePackageJson` starts from. -/
def vueBase (a : Answers) : Manifest :=
  [ ("name", .str a.projectName),
    ("version", .str "0.0.0"),
    ("private", .bool true),
    ("scripts", .obj
      [ ("dev", "vite"),
        ("build", "vite build"),
        ("preview", "vite preview") ]),
    ("dependencies", .obj [("vue", "^3.3.0")]),
    ("devDependencies", .obj
      [ ("@vitejs/plugin-vue", "^4.2.0"),
        ("vite", "^4.3.0") ]) ]

/-- The block `// Add CSS framework dependencies` of `getVuePackageJson`. -/
def vueCssFramework (a : Answers) (base : Manifest) : Manifest :=
  if a.cssFramework == "tailwind" then
    setIn (setIn (setIn base "devDependencies" "tailwindcss" "^3.3.0")
      "devDependencies" "autoprefixer" "^10.4.14")
      "devDependencies" "postcss" "^8.4.24"
  else if a.cssFramework == "bootstrap" then
    setIn base "dependencies" "bootstrap" "^5.3.0"
  else base

/-- The block `// Add routing` of `getVuePackageJson`. -/
def vueRouting (a : Answers) (base : Manifest) : Manifest :=
  if truthy a.includeRouter then
    setIn base "dependencies" "vue-router" "^4.2.0"
  else base

/-- The block `// Add state management` of `getVuePackageJson`. -/
def vueStateManagement (a : Answers) (base : Manifest) : Manifest :=
  if truthy a.includeStateManagement then
    setIn base "dependencies" "pinia" "^2.1.0"
  else base

/-- Embedding of `getVuePackageJson`: the base literal, then the three blocks in
source order. -/
def getVuePackageJson (a : Answers) : Manifest :=
  vueStateManagement a (vueRouting a (vueCssFramework a (vueBase a)))

/-- Embedding of `getSveltePackageJson`. -/
def getSveltePackageJson (a : Answers) : Manifest :=
  [ ("name", .str a.projectName),
    ("version", .str "0.0.1"),
    ("private", .bool true),
    ("scripts", .obj
      [ ("build", "vite build"),
        ("dev", "vite dev"),
        ("preview", "vite preview") ]),
    ("devDependencies", .obj
      [ ("@sveltejs/adapter-auto", "^2.0.0"),
        ("@sveltejs/kit", "^1.20.4"),
        ("svelte", "^4.0.5"),
        ("vite", "^4.4.2") ]),
    ("dependencies",
      if a.cssFramework == "tailwind" then
        .obj
          [ ("tailwindcss", "^3.3.0"),
            ("autoprefixer", "^10.4.14"),
            ("postcss", "^8.4.24") ]
      else .obj []) ]

/-- Whether the manifest lists package `k` in `dependencies` or `devDependencies`. -/
def manifestHasDependency (m : Manifest) (k : String) : Bool :=
  hasKey (dependencies m) k || hasKey (devDependencies m) k

/-- Package names that count as a state-management dependency: the keys written by
the `// Add state management` blocks of the manifest generators, and the libraries
the `stateManager` question names. -/
def stateManagementPackages : List String :=
  ["@reduxjs/toolkit", "react-redux", "redux", "zustand", "recoil", "pinia", "vuex"]

/-- The entries of a dependency object that are state-management packages. -/
def stateManagementEntries (deps : Props) : Props :=
  deps.filter (fun p => stateManagementPackages.contains p.1)

/-- Whether the manifest lists some state-management package. -/
def hasStateManagementDependency (m : Manifest) : Bool :=
  stateManagementPackages.any (fun k => manifestHasDependency m k)

/-- The state-management keys that `getReactPackageJson` assigns for the record. -/
def reactStateKeys (a : Answers) : List String :=
  if truthy a.includeStateManagement then
    if a.stateManager == some "redux" then ["@reduxjs/toolkit", "react-redux"]
    else if a.stateManager == some "zustand" then ["zustand"]
    else if a.stateManager == some "recoil" then ["recoil"]
    else []
  else []

/-! ## Paths

`path.join` on a POSIX host.  A path is kept as its list of segments below the
file-system root, already normalised. -/

/-- A normalised absolute path: its segments, outermost first. -/
abbrev Path := List String

/-- Split a character sequence at every occurrence of `sep`. -/
def splitOnChar (sep : Char) : List Char → List (List Char)
  | [] => [[]]
  | c :: cs =>
    if c = sep then [] :: splitOnChar sep cs
    else
      match splitOnChar sep cs with
      | [] => [[c]]
      | seg :: rest => (c :: seg) :: rest

/-- One segment of normalisation: empty and `.` segments vanish, `..` removes the
last segment (and is dropped at the root), anything else is appended. -/
def pathStep (stack : Path) (seg : String) : Path :=
  if seg == "" || seg == "." then stack
  else if seg == ".." then stack.dropLast
  else stack ++ [seg]

/-- Embedding of `path.join(base, rel)` for a normalised absolute `base`. -/
def pathJoin (base : Path) (rel : String) : Path :=
  ((splitOnChar '/' rel.toList).map String.mk).foldl pathStep base

/-! ## JSON text of a manifest -/

/-- Hexadecimal digit of a number below sixteen. -/
def hexDigit (n : Nat) : Char :=
  if n < 10 then Char.ofNat (48 + n) else Char.ofNat (87 + n)

/-- The escape `JSON.stringify` writes for one character of a string. -/
def jsonEscapeChar (c : Char) : String :=
  if c = '"' then "\\\""
  else if c = '\\' then "\\\\"
  else if c.toNat = 8 then "\\b"
  else if c.toNat = 12 then "\\f"
  else if c = '\n' then "\\n"
  else if c = '\r' then "\\r"
  else if c = '\t' then "\\t"
  else if c.toNat < 32 then
    "\\u00" ++ String.mk [hexDigit (c.toNat / 16), hexDigit (c.toNat % 16)]
  else String.singleton c

/-- A string as a quoted JSON string. -/
def jsonQuote (s : String) : String :=
  "\"" ++ String.join (s.toList.map jsonEscapeChar) ++ "\""

/-- The members of an object, one per line, separated by commas. -/
def jsonMembers (indent : String) (members : List (String × String)) : String :=
  String.intercalate ",\n" (members.map (fun p => indent ++ jsonQuote p.1 ++ ": " ++ p.2))

/-- JSON text of a nested string-valued object at two-space indentation. -/
def jsonProps (o : Props) : String :=
  if o.isEmpty then "\x7b\x7d"
  else "\x7b\n" ++ jsonMembers "    " (o.map (fun p => (p.1, jsonQuote p.2))) ++ "\n  \x7d"

/-- JSON text of one field value. -/
def jsonField : Field → String
  | .str s => jsonQuote s
  | .bool b => if b then "true" else "false"
  | .obj o => jsonProps o

/-- Embedding of `JSON.stringify(packageJson, null, 2)`. -/
def jsonStringify (m : Manifest) : String :=
  if m.isEmpty then "\x7b\x7d"
  else "\x7b\n" ++ jsonMembers "  " (m.map (fun p => (p.1, jsonField p.2))) ++ "\n\x7d"

/-! ## Project generation: file-system calls -/

/-- The text handed to `fs.writeFileSync`. -/
inductive Content where
  /-- The JSON text of a package manifest. -/
  | json (m : Manifest)
  /-- The text produced by the named template generator or held by the named
  local template literal; template bodies are payloads that are not interpreted. -/
  | template (source : String)
deriving DecidableEq, Repr

/-- The text written, as far as it is determined: the JSON text of a manifest is
computed, a template payload is not. -/
def Content.text? : Content → Option String
  | .json m => some (jsonStringify m)
  | .template _ => none

/-- A call that `generateProject` makes on the outside world. -/
inductive Cmd where
  /-- Call `fs.rmSync(path, recursive, force)`. -/
  | rmSync (path : Path)
  /-- Call `fs.mkdirSync(path, recursive)`. -/
  | mkdirSync (path : Path)
  /-- Call `fs.writeFileSync(path, content)`. -/
  | writeFileSync (path : Path) (content : Content)
  /-- The `try` block around `execSync` of npm install with the given `cwd`. -/
  | npmInstall (cwd : Path)
deriving DecidableEq, Repr

/-- What an observer sees of a run. -/
inductive Event where
  /-- The call returned normally. -/
  | did (c : Cmd)
  /-- The warning printed by the `catch` block around the installation. -/
  | installWarning
  /-- The notice `Project generation cancelled.` -/
  | cancelledNotice
  /-- The output of `showSuccessMessage`. -/
  | successMessage
  /-- The error report printed by the `catch` block of `run`. -/
  | errorReport
deriving DecidableEq, Repr

/-- The answers and faults the outside world supplies to one run. -/
structure Env where
  /-- The value of `process.cwd()`. -/
  cwd : Path
  /-- Answer to `Proceed with project generation?`. -/
  proceed : Bool
  /-- Result of `fs.existsSync(projectPath)`. -/
  destinationExists : Bool
  /-- Answer to the overwrite confirmation. -/
  overwrite : Bool
  /-- Whether `execSync` of npm install throws. -/
  installFails : Bool
  /-- The number of file-system calls that return before one throws; `none` when
  none throws. -/
  fsFailure : Option Nat
deriving DecidableEq, Repr

/-- Run the calls in order.  `n` counts the file-system calls made so far.  The
result holds the events and whether a file-system call threw. -/
def exec (env : Env) : List Cmd → Nat → List Event × Bool
  | [], _ => ([], false)
  | .npmInstall cwd :: rest, n =>
    let r := exec env rest n
    if env.installFails then (.installWarning :: r.1, r.2)
    else (.did (.npmInstall cwd) :: r.1, r.2)
  | .rmSync p :: rest, n =>
    if env.fsFailure = some n then ([], true)
    else
      let r := exec env rest (n + 1)
      (.did (.rmSync p) :: r.1, r.2)
  | .mkdirSync p :: rest, n =>
    if env.fsFailure = some n then ([], true)
    else
      let r := exec env rest (n + 1)
      (.did (.mkdirSync p) :: r.1, r.2)
  | .writeFileSync p c :: rest, n =>
    if env.fsFailure = some n then ([], true)
    else
      let r := exec env rest (n + 1)
      (.did (.writeFileSync p c) :: r.1, r.2)

/-- The `dirs.forEach` loop: one recursive `mkdirSync` per directory. -/
def mkdirs (projectPath : Path) (dirs : List String) : List Cmd :=
  dirs.map (fun dir => .mkdirSync (pathJoin projectPath dir))

/-- Embedding of `generateReactComponents`. -/
def generateReactComponents (projectPath : Path) : List Cmd :=
  let componentDir := pathJoin projectPath "src/components"
  [.writeFileSync (pathJoin componentDir "Header.js") (.template "headerComponent")]

/-- Embedding of `generateVueComponents`. -/
def generateVueComponents (projectPath : Path) : List Cmd :=
  let componentDir := pathJoin projectPath "src/components"
  [.writeFileSync (pathJoin componentDir "Header.vue") (.template "headerComponent")]

/-- Embedding of `generateSvelteComponents`. -/
def generateSvelteComponents (projectPath : Path) : List Cmd :=
  let componentDir := pathJoin projectPath "src/components"
  [.writeFileSync (pathJoin componentDir "Header.svelte") (.template "headerComponent")]

/-- Embedding of `generateReactStyles`. -/
def generateReactStyles (projectPath : Path) : List Cmd :=
  [ .writeFileSync (pathJoin projectPath "src/App.css") (.template "getMainStyles"),
    .writeFileSync (pathJoin projectPath "src/index.css") (.template "indexCss") ]

/-- Embedding of `generateVueStyles`. -/
def generateVueStyles (projectPath : Path) : List Cmd :=
  [.writeFileSync (pathJoin projectPath "src/style.css") (.template "getMainStyles")]

/-- Embedding of `generateSvelteStyles`. -/
def generateSvelteStyles (projectPath : Path) : List Cmd :=
  [.writeFileSync (pathJoin projectPath "src/app.css") (.template "getMainStyles")]

/-- Embedding of `generateReactFiles`. -/
def generateReactFiles (projectPath : Path) : List Cmd :=
  [ .writeFileSync (pathJoin projectPath "src/App.js") (.template "getReactAppComponent"),
    .writeFileSync (pathJoin projectPath "src/index.js") (.template "getReactIndexFile") ]
  ++ generateReactComponents projectPath
  ++ generateReactStyles projectPath
  ++ [.writeFileSync (pathJoin projectPath "public/index.html") (.template "getReactIndexHtml")]

/-- Embedding of `generateVueFiles`. -/
def generateVueFiles (projectPath : Path) : List Cmd :=
  [ .writeFileSync (pathJoin projectPath "src/App.vue") (.template "getVueAppComponent"),
    .writeFileSync (pathJoin projectPath "src/main.js") (.template "getVueMainFile") ]
  ++ generateVueComponents projectPath
  ++ generateVueStyles projectPath
  ++ [ .writeFileSync (pathJoin projectPath "public/index.html") (.template "getVueIndexHtml"),
       .writeFileSync (pathJoin projectPath "vite.config.js") (.template "getViteConfig") ]

/-- Embedding of `generateSvelteFiles`. -/
def generateSvelteFiles (projectPath : Path) : List Cmd :=
  [ .writeFileSync (pathJoin projectPath "src/App.svelte") (.template "getSvelteAppComponent"),
    .writeFileSync (pathJoin projectPath "src/main.js") (.template "getSvelteMainFile") ]
  ++ generateSvelteComponents projectPath
  ++ generateSvelteStyles projectPath
  ++ [ .writeFileSync (pathJoin projectPath "src/app.html") (.template "getSvelteIndexHtml"),
       .writeFileSync (pathJoin projectPath "vite.config.js")
         (.template "getSvelteViteConfig") ]

/-- Embedding of `generateVanillaPages`. -/
def generateVanillaPages (a : Answers) (projectPath : Path) : List Cmd :=
  if a.uiType == "landing" then
    [.writeFileSync (pathJoin projectPath "about.html") (.template "aboutHtml")]
  else []

/-- Embedding of `generateVanillaFiles`. -/
def generateVanillaFiles (a : Answers) (projectPath : Path) : List Cmd :=
  [ .writeFileSync (pathJoin projectPath "index.html") (.template "getVanillaIndexHtml"),
    .writeFileSync (pathJoin projectPath "css/main.css") (.template "getVanillaMainCss"),
    .writeFileSync (pathJoin projectPath "js/main.js") (.template "getVanillaMainJs") ]
  ++ generateVanillaPages a projectPath

/-- Embedding of `generateReactProject`. -/
def generateReactProject (a : Answers) (projectPath : Path) : List Cmd :=
  [.writeFileSync (pathJoin projectPath "package.json") (.json (getReactPackageJson a))]
  ++ mkdirs projectPath
      ["src", "src/components", "src/pages", "src/styles", "src/assets", "public"]
  ++ generateReactFiles projectPath
  ++ [.npmInstall projectPath]

/-- Embedding of `generateVueProject`. -/
def generateVueProject (a : Answers) (projectPath : Path) : List Cmd :=
  [.writeFileSync (pathJoin projectPath "package.json") (.json (getVuePackageJson a))]
  ++ mkdirs projectPath
      ["src", "src/components", "src/views", "src/assets", "src/styles", "public"]
  ++ generateVueFiles projectPath
  ++ [.npmInstall projectPath]

/-- Embedding of `generateSvelteProject`. -/
def generateSvelteProject (a : Answers) (projectPath : Path) : List Cmd :=
  [.writeFileSync (pathJoin projectPath "package.json") (.json (getSveltePackageJson a))]
  ++ mkdirs projectPath ["src", "src/components", "src/routes", "src/lib", "static"]
  ++ generateSvelteFiles projectPath
  ++ [.npmInstall projectPath]

/-- Embedding of `generateVanillaProject`. -/
def generateVanillaProject (a : Answers) (projectPath : Path) : List Cmd :=
  mkdirs projectPath ["css", "js", "images", "assets"]
  ++ generateVanillaFiles a projectPath

/-- Embedding of `generateReadme`. -/
def generateReadme (projectPath : Path) : List Cmd :=
  [.writeFileSync (pathJoin projectPath "README.md") (.template "readme")]

/-- Embedding of `generateGitignore`. -/
def generateGitignore (projectPath : Path) : List Cmd :=
  [.writeFileSync (pathJoin projectPath ".gitignore") (.template "gitignore")]

/-- The `switch` of `generateProject` on the framework choice; no case matches
another value. -/
def generateFramework (a : Answers) (projectPath : Path) : List Cmd :=
  if a.frontendFramework == "react" then generateReactProject a projectPath
  else if a.frontendFramework == "vue" then generateVueProject a projectPath
  else if a.frontendFramework == "svelte" then generateSvelteProject a projectPath
  else if a.frontendFramework == "vanilla" then generateVanillaProject a projectPath
  else []

/-- The entry-point files of the bundle of each framework, relative to the project
directory: the markup page and the script that starts the application. -/
def entryPoints (framework : String) : List String :=
  if framework == "react" then ["public/index.html", "src/index.js"]
  else if framework == "vue" then ["public/index.html", "src/main.js"]
  else if framework == "svelte" then ["src/app.html", "src/main.js"]
  else if framework == "vanilla" then ["index.html", "js/main.js"]
  else []

/-- How a call of `generateProject` ends. -/
inductive GenResult where
  /-- The method returned. -/
  | returned
  /-- The method called `process.exit(0)` after the cancellation notice. -/
  | exitedZero
  /-- A file-system call threw. -/
  | threw
deriving DecidableEq, Repr

/-- The value assigned to `this.projectPath`. -/
def projectPathOf (env : Env) (a : Answers) : Path :=
  pathJoin env.cwd a.projectName

/-- The calls `generateProject` makes once it is past the overwrite question. -/
def generateProjectCmds (env : Env) (a : Answers) : List Cmd :=
  let projectPath := projectPathOf env a
  (if env.destinationExists then [.rmSync projectPath] else [])
  ++ [.mkdirSync projectPath]
  ++ generateFramework a projectPath
  ++ generateReadme projectPath
  ++ generateGitignore projectPath

/-- Embedding of `generateProject`. -/
def generateProject (env : Env) (a : Answers) : List Event × GenResult :=
  if env.destinationExists && !env.overwrite then
    ([.cancelledNotice], .exitedZero)
  else
    let r := exec env (generateProjectCmds env a) 0
    (r.1, if r.2 then .threw else .returned)

/-- How a run of the wizard ends. -/
inductive Ending where
  | success
  | cancelled
  | failure
deriving DecidableEq, Repr

/-- The exit status of the process: `process.exit(1)` in the `catch` of `run`,
`process.exit(0)` on cancellation, zero on normal completion. -/
def exitStatus : Ending → Nat
  | .success => 0
  | .cancelled => 0
  | .failure => 1

/-- Embedding of `run` from the point where the questions have been answered: the
proceed confirmation of `collectUserPreferences`, then `generateProject`, then
`showSuccessMessage`, inside the `try`/`catch`. -/
def run (env : Env) (a : Answers) : List Event × Ending :=
  if !env.proceed then ([.cancelledNotice], .cancelled)
  else
    match generateProject env a with
    | (es, .returned) => (es ++ [.successMessage], .success)
    | (es, .exitedZero) => (es, .cancelled)
    | (es, .threw) => (es ++ [.errorReport], .failure)

/-- Whether the event is a file-system mutation (removal, directory creation or
file write). -/
def Event.isFsMutation : Event → Bool
  | .did (.rmSync _) => true
  | .did (.mkdirSync _) => true
  | .did (.writeFileSync _ _) => true
  | _ => false

/-- The paths of the files written during the run, in order. -/
def writtenPaths : List Event → List Path
  | [] => []
  | .did (.writeFileSync p _) :: rest => p :: writtenPaths rest
  | _ :: rest => writtenPaths rest

/-- The contents written to `path` during the run, in order. -/
def writtenTo (path : Path) : List Event → List Content
  | [] => []
  | .did (.writeFileSync p c) :: rest =>
    if p = path then c :: writtenTo path rest else writtenTo path rest
  | _ :: rest => writtenTo path rest

/-! ## The design-prompt wizard: property lookup on object literals -/

/-- The record `projectData` of `UIDesignerCLI`; it starts empty and a key is absent
until its question has been answered. -/
structure ProjectData where
  interfaceType : Option String := none
  purpose : Option String := none
  targetUsers : Option String := none
  screenCount : Option String := none
  features : Option String := none
  designStyle : Option String := none
  colorPreference : Option String := none
  additionalReqs : Option String := none
deriving DecidableEq, Repr

/-- The property key a value is converted to inside `table[value]`; an absent value
is the key `undefined`. -/
def propertyKey : Option String → String
  | some s => s
  | none => "undefined"

/-- The property names every object literal inherits from `Object.prototype`. -/
def objectPrototypeKeys : List String :=
  [ "constructor", "__defineGetter__", "__defineSetter__", "hasOwnProperty",
    "__lookupGetter__", "__lookupSetter__", "isPrototypeOf", "propertyIsEnumerable",
    "toString", "valueOf", "__proto__", "toLocaleString" ]

/-- The result of reading `table[key]` on an object literal. -/
inductive Lookup (α : Type) where
  /-- An own property, with its value. -/
  | own (value : α)
  /-- A member inherited from `Object.prototype`: a built-in function, or the
  prototype object itself for `__proto__`; truthy, and neither a string nor an
  array. -/
  | inherited (name : String)
  /-- No such property: the value `undefined`. -/
  | undefined
deriving DecidableEq, Repr

/-- Embedding of the property read `table[key]` on an object literal. -/
def lookupProperty {α : Type} (table : List (String × α)) (key : String) : Lookup α :=
  match table.lookup key with
  | some v => .own v
  | none => if objectPrototypeKeys.contains key then .inherited key else .undefined

/-- Embedding of `lines.join` with a line break as separator. -/
def joinLines (lines : List String) : String :=
  String.intercalate "\n" lines

/-! ## The design-prompt wizard: recommendation tables -/

/-- The table `recommendations` of `getDesignRecommendations`. -/
def recommendationsTable : List (String × List String) :=
  [ ("Web Application",
      [ "• Use responsive grid layout (12-column system)",
        "• Implement consistent navigation patterns",
        "• Focus on accessibility (WCAG guidelines)",
        "• Optimize for both desktop and mobile views" ]),
    ("Mobile Application",
      [ "• Follow platform-specific guidelines (Material Design/Human Interface)",
        "• Use thumb-friendly touch targets (minimum 44px)",
        "• Implement intuitive gesture controls",
        "• Consider offline functionality" ]),
    ("Desktop Software",
      [ "• Utilize available screen space effectively",
        "• Implement keyboard shortcuts",
        "• Use familiar desktop UI patterns",
        "• Consider multi-window workflows" ]),
    ("Command Line Tool",
      [ "• Design clear command structure",
        "• Provide helpful error messages",
        "• Include comprehensive help documentation",
        "• Use consistent parameter naming" ]),
    ("Smartwatch App",
      [ "• Keep interactions minimal and quick",
        "• Use large, easily tappable elements",
        "• Leverage voice commands and haptic feedback",
        "• Design for glanceable information" ]) ]

/-- The array after `||` in `getDesignRecommendations`. -/
def recommendationsFallback : List String :=
  [ "• Focus on user experience and usability",
    "• Maintain consistency throughout the interface",
    "• Test with real users early and often",
    "• Keep the design simple and intuitive" ]

/-- The table `suggestions` of `getImplementationSuggestions`. -/
def suggestionsTable : List (String × List String) :=
  [ ("Web Application",
      [ "• Framework: React, Vue.js, or Angular",
        "• CSS Framework: Tailwind CSS, Bootstrap, or Material-UI",
        "• Tools: Figma for design, Storybook for components" ]),
    ("Mobile Application",
      [ "• Native: Swift (iOS), Kotlin (Android)",
        "• Cross-platform: React Native, Flutter, or Xamarin",
        "• Design Tools: Sketch, Figma, or Adobe XD" ]),
    ("Desktop Software",
      [ "• Framework: Electron, .NET, or Qt",
        "• Design Tools: Figma, Sketch, or Adobe XD",
        "• Consider platform-specific guidelines" ]),
    ("Command Line Tool",
      [ "• Language: Python (Click), Node.js (Commander), or Go (Cobra)",
        "• Focus on clear documentation and help text",
        "• Consider auto-completion features" ]),
    ("Smartwatch App",
      [ "• Platform: WatchOS (Swift), Wear OS (Kotlin/Java)",
        "• Focus on quick interactions and notifications",
        "• Test on actual devices for accuracy" ]) ]

/-- The array after `||` in `getImplementationSuggestions`. -/
def suggestionsFallback : List String :=
  [ "• Choose appropriate technology stack",
    "• Plan for scalability and maintenance",
    "• Document design decisions and rationale" ]

/-- A horizontal rule of `n` box-drawing characters. -/
def bar (n : Nat) : String :=
  String.mk (List.replicate n '─')

/-- Lines of the `Web Application` template literal; the literal opens with a line break. -/
def webTemplateLines : List String :=
  [ "",
    "┌" ++ bar 23 ++ " HEADER " ++ bar 23 ++ "┐",
    "│  Logo    Navigation Menu              User Profile   │",
    "├" ++ bar 55 ++ "┤",
    "│                                                       │",
    "│  ┌" ++ bar 13 ++ "┐  ┌" ++ bar 33 ++ "┐ │",
    "│  │   Sidebar   │  │         Main Content            │ │",
    "│  │             │  │                                 │ │",
    "│  │  • Feature1 │  │  ┌" ++ bar 29 ++ "┐ │ │",
    "│  │  • Feature2 │  │  │        Content Area         │ │ │",
    "│  │  • Feature3 │  │  │                             │ │ │",
    "│  │             │  │  └" ++ bar 29 ++ "┘ │ │",
    "│  └" ++ bar 13 ++ "┘  └" ++ bar 33 ++ "┘ │",
    "│                                                       │",
    "├" ++ bar 55 ++ "┤",
    "│                     FOOTER                            │",
    "└" ++ bar 55 ++ "┘" ]

/-- Lines of the `Mobile Application` template literal; the literal opens with a line break. -/
def mobileTemplateLines : List String :=
  [ "",
    "┌" ++ bar 17 ++ "┐",
    "│   Status Bar    │",
    "├" ++ bar 17 ++ "┤",
    "│ ← Title    ≡    │",
    "├" ++ bar 17 ++ "┤",
    "│                 │",
    "│   Main Content  │",
    "│                 │",
    "│  ┌" ++ bar 13 ++ "┐ │",
    "│  │   Feature   │ │",
    "│  └" ++ bar 13 ++ "┘ │",
    "│                 │",
    "│  ┌" ++ bar 13 ++ "┐ │",
    "│  │   Feature   │ │",
    "│  └" ++ bar 13 ++ "┘ │",
    "│                 │",
    "├" ++ bar 17 ++ "┤",
    "│ Tab Navigation  │",
    "│ [⌂] [📋] [⚙] [👤] │",
    "└" ++ bar 17 ++ "┘" ]

/-- Lines of the `Desktop Software` template literal; the literal opens with a line break. -/
def desktopTemplateLines : List String :=
  [ "",
    "┌── File  Edit  View  Tools  Help " ++ bar 22 ++ " □ ─ ✕ ┐",
    "├" ++ bar 61 ++ "┤",
    "│ 🔧 Toolbar: [New] [Open] [Save] [Cut] [Copy] [Paste]       │",
    "├" ++ bar 61 ++ "┤",
    "│                                                             │",
    "│ ┌" ++ bar 13 ++ "┐  ┌" ++ bar 41 ++ "┐ │",
    "│ │   Project   │  │            Workspace                   │ │",
    "│ │   Explorer  │  │                                        │ │",
    "│ │             │  │  Main editing/working area             │ │",
    "│ │ • Folder1   │  │                                        │ │",
    "│ │ • Folder2   │  │                                        │ │",
    "│ │   • File1   │  │                                        │ │",
    "│ │   • File2   │  │                                        │ │",
    "│ └" ++ bar 13 ++ "┘  └" ++ bar 41 ++ "┘ │",
    "│                                                             │",
    "├" ++ bar 61 ++ "┤",
    "│ Status Bar: Ready | Line 1, Col 1 | 100% | UTF-8         │",
    "└" ++ bar 61 ++ "┘" ]

/-- Lines of the template literal after `||` in `generateWireframeTemplate`. -/
def genericTemplateLines : List String :=
  [ "",
    "┌" ++ bar 37 ++ "┐",
    "│              Header                 │",
    "├" ++ bar 37 ++ "┤",
    "│                                     │",
    "│           Main Content              │",
    "│                                     │",
    "├" ++ bar 37 ++ "┤",
    "│              Footer                 │",
    "└" ++ bar 37 ++ "┘" ]

/-- The table `templates` of `generateWireframeTemplate`. -/
def templatesTable : List (String × String) :=
  [ ("Web Application", joinLines webTemplateLines),
    ("Mobile Application", joinLines mobileTemplateLines),
    ("Desktop Software", joinLines desktopTemplateLines) ]

/-- Embedding of `getDesignRecommendations`.  An array is truthy, so an own entry
is joined; an inherited member is truthy as well and has no `join`, so the call
throws a `TypeError`. -/
def getDesignRecommendations (d : ProjectData) : Except String String :=
  match lookupProperty recommendationsTable (propertyKey d.interfaceType) with
  | .own lines => .ok (joinLines lines)
  | .inherited _ => .error "TypeError: typeRecommendations.join is not a function"
  | .undefined => .ok (joinLines recommendationsFallback)

/-- Embedding of `getImplementationSuggestions`, which has the shape of
`getDesignRecommendations`. -/
def getImplementationSuggestions (d : ProjectData) : Except String String :=
  match lookupProperty suggestionsTable (propertyKey d.interfaceType) with
  | .own lines => .ok (joinLines lines)
  | .inherited _ => .error "TypeError: typeSuggestions.join is not a function"
  | .undefined => .ok (joinLines suggestionsFallback)

/-- A value returned by `generateWireframeTemplate`. -/
inductive Wireframe where
  /-- A diagram string. -/
  | diagram (text : String)
  /-- The member of `Object.prototype` with this name, which is not a string. -/
  | prototypeMember (name : String)
deriving DecidableEq, Repr

/-- Embedding of `generateWireframeTemplate`: the value of
`templates[interfaceType]` when it is truthy, the generic diagram otherwise. -/
def generateWireframeTemplate (d : ProjectData) : Wireframe :=
  match lookupProperty templatesTable (propertyKey d.interfaceType) with
  | .own text => if text.isEmpty then .diagram (joinLines genericTemplateLines)
                 else .diagram text
  | .inherited name => .prototypeMember name
  | .undefined => .diagram (joinLines genericTemplateLines)

/-- The lines of a text: its pieces between line breaks. -/
def textLines (s : String) : List String :=
  (splitOnChar '\n' s.toList).map String.mk

/-- Whether `needle` occurs in `s` as a substring. -/
def containsText (s needle : String) : Bool :=
  s.toList.tails.any (fun t => needle.toList.isPrefixOf t)

/-! ## Records used as concrete inputs -/

/-- A Svelte record in which routing was requested. -/
def svelteWithRouter : Answers :=
  { uiType := "landing", colorTheme := "dark", designStyle := "modern",
    frontendFramework := "svelte", cssFramework := "plain", projectName := "demo",
    includeRouter := some true, includeStateManagement := none, stateManager := none }

/-- A React record in which state management was requested with the `vuex` choice. -/
def reactWithVuex : Answers :=
  { uiType := "dashboard", colorTheme := "light", designStyle := "modern",
    frontendFramework := "react", cssFramework := "plain", projectName := "demo",
    includeRouter := some false, includeStateManagement := some true,
    stateManager := some "vuex" }

/-- A React record in which state management was requested with the `redux` choice. -/
def reactWithRedux : Answers :=
  { uiType := "dashboard", colorTheme := "light", designStyle := "modern",
    frontendFramework := "react", cssFramework := "tailwind", projectName := "demo",
    includeRouter := some true, includeStateManagement := some true,
    stateManager := some "redux" }

/-- A record whose interface type is the name of a member of `Object.prototype`. -/
def constructorTagged : ProjectData :=
  { interfaceType := some "constructor" }

/-- The record of Scenario B. -/
def mobileData : ProjectData :=
  { interfaceType := some "Mobile Application" }

/-- The record of Scenario A. -/
def vanillaDemo : Answers :=
  { uiType := "landing", colorTheme := "dark", designStyle := "minimal",
    frontendFramework := "vanilla", cssFramework := "plain", projectName := "demo",
    includeRouter := none, includeStateManagement := none, stateManager := none }

/-- A run in which nothing exists yet and nothing fails. -/
def freshEnv : Env :=
  { cwd := ["home", "user"], proceed := true, destinationExists := false,
    overwrite := false, installFails := false, fsFailure := none }

/-- A run in which the destination exists and the overwrite is declined. -/
def declinedEnv : Env :=
  { cwd := ["home", "user"], proceed := true, destinationExists := true,
    overwrite := false, installFails := false, fsFailure := none }

/-- The event a call leaves when it does not throw. -/
def eventOf (env : Env) : Cmd → Event
  | .npmInstall cwd => if env.installFails then .installWarning else .did (.npmInstall cwd)
  | c => .did c

/-- The paths of the `writeFileSync` calls among the given calls. -/
def cmdWritePaths : List Cmd → List Path
  | [] => []
  | .writeFileSync p _ :: rest => p :: cmdWritePaths rest
  | _ :: rest => cmdWritePaths rest

/-- The contents of the `writeFileSync` calls on `path` among the given calls. -/
def cmdWritesTo (path : Path) : List Cmd → List Content
  | [] => []
  | .writeFileSync p c :: rest =>
    if p = path then c :: cmdWritesTo path rest else cmdWritesTo path rest
  | _ :: rest => cmdWritesTo path rest

/-! ## Order of the file-system calls in a trace -/

/-- Whether no directory is created after a file has been written; `written`
tells whether a write has been seen so far. -/
def dirsBeforeWrites : Bool → List Event → Bool
  | _, [] => true
  | written, .did (.mkdirSync _) :: rest => !written && dirsBeforeWrites written rest
  | _, .did (.writeFileSync _ _) :: rest => dirsBeforeWrites true rest
  | written, _ :: rest => dirsBeforeWrites written rest

/-- Whether every file is written into a directory that an earlier call of the
trace created; `created` lists the directories created so far, and a removal
forgets the directories at or below the removed path. -/
def writesFollowDirs : List Path → List Event → Bool
  | _, [] => true
  | created, .did (.rmSync p) :: rest =>
    writesFollowDirs (created.filter (fun d => !p.isPrefixOf d)) rest
  | created, .did (.mkdirSync p) :: rest => writesFollowDirs (p :: created) rest
  | created, .did (.writeFileSync p _) :: rest =>
    created.contains p.dropLast && writesFollowDirs created rest
  | created, _ :: rest => writesFollowDirs created rest

/-- The trace without the writes to `path`. -/
def withoutWritesTo (path : Path) : List Event → List Event
  | [] => []
  | .did (.writeFileSync p c) :: rest =>
    if p = path then withoutWritesTo path rest
    else .did (.writeFileSync p c) :: withoutWritesTo path rest
  | e :: rest => e :: withoutWritesTo path rest

/-- Whether the event is a removal. -/
def Event.isRemoval : Event → Bool
  | .did (.rmSync _) => true
  | _ => false

/-- A run in which the destination exists and the overwrite is confirmed. -/
def overwriteEnv : Env :=
  { cwd := ["home", "user"], proceed := true, destinationExists := true,
    overwrite := true, installFails := false, fsFailure := none }

/-! ## The design-prompt wizard: prompts

A prompt method is run against the lines the user will type.  It returns the
session it leaves, the lines it has not read, and how its promise settled. -/

/-- The value of a digit character: `0` to `9`, then the letters from ten upward. -/
def digitValue (c : Char) : Option Nat :=
  if '0' ≤ c && c ≤ '9' then some (c.toNat - 48)
  else if 'a' ≤ c && c ≤ 'z' then some (c.toNat - 87)
  else if 'A' ≤ c && c ≤ 'Z' then some (c.toNat - 55)
  else none

/-- Whether the character is a digit of the base. -/
def isDigitOf (radix : Nat) (c : Char) : Bool :=
  match digitValue c with
  | some d => d < radix
  | none => false

/-- The value of a run of digits of the base. -/
def digitsValue (radix : Nat) (cs : List Char) : Nat :=
  cs.foldl (fun acc c => acc * radix + (digitValue c).getD 0) 0

/-- The sign read by `parseInt` and the characters after it. -/
def splitSign : List Char → Bool × List Char
  | '-' :: rest => (true, rest)
  | '+' :: rest => (false, rest)
  | cs => (false, cs)

/-- The base selected by a `0x` or `0X` prefix and the characters after it. -/
def splitRadix : List Char → Nat × List Char
  | '0' :: 'x' :: rest => (16, rest)
  | '0' :: 'X' :: rest => (16, rest)
  | cs => (10, cs)

/-- Embedding of `parseInt(answer)` without a radix; `none` is `NaN`.  Leading
white space is skipped, a sign is read, a `0x` or `0X` prefix selects base
sixteen, and the longest run of digits of the base is the value; the value is
kept as an exact integer. -/
def parseInt (answer : String) : Option Int :=
  let signed := splitSign (answer.toList.dropWhile isJsWhitespace)
  let based := splitRadix signed.2
  let digits := based.2.takeWhile (isDigitOf based.1)
  if digits.isEmpty then none
  else if signed.1 then some (-(digitsValue based.1 digits : Int))
  else some (digitsValue based.1 digits : Int)

/-- The test `choice >= 1 && choice <= n`, which is false for `NaN`. -/
def choiceInRange (n : Int) : Option Int → Bool
  | some c => decide (1 ≤ c) && decide (c ≤ n)
  | none => false

/-- The array `options` of `selectInterfaceType`. -/
def interfaceTypeOptions : List String :=
  [ "1. 🌐 Web Application",
    "2. 📱 Mobile Application",
    "3. 🖥️  Desktop Software",
    "4. ⌨️  Command Line Tool",
    "5. ⌚ Smartwatch App",
    "6. 🔌 Other" ]

/-- The array `styles` of `selectDesignStyle`. -/
def designStyleOptions : List String :=
  [ "1. 🔵 Minimal & Clean",
    "2. 🌈 Modern & Vibrant",
    "3. 🎪 Playful & Fun",
    "4. 💼 Professional & Corporate",
    "5. 🌙 Dark & Sleek",
    "6. 🌿 Nature & Organic",
    "7. 🚀 Futuristic & Tech",
    "8. 📰 Classic & Traditional" ]

/-- The array `colorSchemes` of `selectWebsiteColorScheme`. -/
def colorSchemeOptions : List String :=
  [ "1. 🔵 Corporate Blue & White",
    "2. 🌿 Nature Green & Earth Tones",
    "3. 🔴 Bold Red & Black",
    "4. 🟣 Modern Purple & Gray",
    "5. 🟡 Warm Orange & Yellow",
    "6. ⚫ Monochrome Black & White",
    "7. 🌈 Custom Color Palette" ]

/-- The table `types` of `getInterfaceTypeFromChoice`. -/
def interfaceTypes : List (Int × String) :=
  [ (1, "Web Application"),
    (2, "Mobile Application"),
    (3, "Desktop Software"),
    (4, "Command Line Tool"),
    (5, "Smartwatch App"),
    (6, "Other") ]

/-- The table `styles` of `getDesignStyleFromChoice`. -/
def designStyles : List (Int × String) :=
  [ (1, "Minimal & Clean"),
    (2, "Modern & Vibrant"),
    (3, "Playful & Fun"),
    (4, "Professional & Corporate"),
    (5, "Dark & Sleek"),
    (6, "Nature & Organic"),
    (7, "Futuristic & Tech"),
    (8, "Classic & Traditional") ]

/-- The table `schemes` of `getColorSchemeFromChoice`. -/
def colorSchemes : List (Int × String) :=
  [ (1, "Corporate Blue & White"),
    (2, "Nature Green & Earth Tones"),
    (3, "Bold Red & Black"),
    (4, "Modern Purple & Gray"),
    (5, "Warm Orange & Yellow"),
    (6, "Monochrome Black & White"),
    (7, "Custom Color Palette") ]

/-- The read `table[choice]` for a numeric `choice`: the own entry with that
number, `undefined` otherwise. -/
def lookupChoice (table : List (Int × String)) (choice : Int) : Option String :=
  table.lookup choice

/-- Embedding of `getInterfaceTypeFromChoice`. -/
def getInterfaceTypeFromChoice (choice : Int) : Option String :=
  lookupChoice interfaceTypes choice

/-- Embedding of `getDesignStyleFromChoice`. -/
def getDesignStyleFromChoice (choice : Int) : Option String :=
  lookupChoice designStyles choice

/-- Embedding of `getColorSchemeFromChoice`. -/
def getColorSchemeFromChoice (choice : Int) : Option String :=
  lookupChoice colorSchemes choice

/-- What the terminal shows. -/
inductive CliEvent where
  /-- A line written by `console.log`. -/
  | printed (text : String)
  /-- A prompt written by `rl.question`. -/
  | asked (prompt : String)
deriving DecidableEq, Repr

/-- A record whose keys may hold `undefined`, in insertion order. -/
abbrev JsRecord := List (String × Option String)

/-- The assignment `record[k] = v`. -/
def JsRecord.set : JsRecord → String → Option String → JsRecord
  | [], k, v => [(k, v)]
  | (k0, v0) :: rest, k, v =>
    if k0 == k then (k, v) :: rest else (k0, v0) :: JsRecord.set rest k v

/-- The read `record[k]` of a data record; an absent key reads as `undefined`. -/
def JsRecord.get (r : JsRecord) (k : String) : Option String :=
  (r.lookup k).join

/-- The fields of a `UIDesignerCLI` instance and what it has shown so far.
`websiteData` is `undefined` until `createFullWebsiteDesign` assigns it. -/
structure Session where
  projectData : ProjectData := {}
  websiteData : Option JsRecord := none
  output : List CliEvent := []
deriving DecidableEq, Repr

/-- How the promise of a prompt method settled. -/
inductive Settled (α : Type) where
  /-- The promise resolved with the value. -/
  | resolved (value : α)
  /-- The input ran out: the promise is still waiting for a line. -/
  | waiting
  /-- The callback threw. -/
  | threw (message : String)
deriving DecidableEq, Repr

/-- Result of running a prompt method. -/
structure Step (α : Type) where
  session : Session
  rest : List String
  settled : Settled α
deriving DecidableEq, Repr

/-- The session after showing the events. -/
def Session.display (s : Session) (events : List CliEvent) : Session :=
  { s with output := s.output ++ events }

/-- Embedding of `askQuestion`: one line is read and resolved trimmed. -/
def askQuestion (question : String) (s : Session) : List String → Step String
  | [] => ⟨s.display [.asked question], [], .waiting⟩
  | answer :: rest => ⟨s.display [.asked question], rest, .resolved (jsTrim answer)⟩

/-- What one call of `selectInterfaceType` shows before it reads a line. -/
def interfaceTypeMenu : List CliEvent :=
  [.printed "📱 What type of interface would you like to design?\n"]
  ++ interfaceTypeOptions.map .printed
  ++ [.asked "\nEnter your choice (1-6): "]

/-- Embedding of `selectInterfaceType`; the one-second timer before the next call
is not represented. -/
def selectInterfaceType (s : Session) : List String → Step Unit
  | [] => ⟨s.display interfaceTypeMenu, [], .waiting⟩
  | answer :: rest =>
    if choiceInRange 6 (parseInt answer) then
      ⟨{ s.display interfaceTypeMenu with
          projectData :=
            { s.projectData with
              interfaceType := getInterfaceTypeFromChoice ((parseInt answer).getD 0) } },
        rest, .resolved ()⟩
    else
      selectInterfaceType
        ((s.display interfaceTypeMenu).display [.printed "Invalid choice. Please select 1-6."]) rest

/-- What one call of `selectDesignStyle` shows before it reads a line. -/
def designStyleMenu : List CliEvent :=
  [.printed "\n🎨 Select your preferred design style:\n"]
  ++ designStyleOptions.map .printed
  ++ [.asked "\nEnter your choice (1-8): "]

/-- Embedding of `selectDesignStyle`; the one-second timer before the next call is
not represented. -/
def selectDesignStyle (s : Session) : List String → Step Unit
  | [] => ⟨s.display designStyleMenu, [], .waiting⟩
  | answer :: rest =>
    if choiceInRange 8 (parseInt answer) then
      ⟨{ s.display designStyleMenu with
          projectData :=
            { s.projectData with
              designStyle := getDesignStyleFromChoice ((parseInt answer).getD 0) } },
        rest, .resolved ()⟩
    else
      selectDesignStyle
        ((s.display designStyleMenu).display [.printed "Invalid choice. Please select 1-8."]) rest

/-- What one call of `selectWebsiteColorScheme` shows before it reads a line. -/
def colorSchemeMenu : List CliEvent :=
  [.printed "🌈 Select your website color scheme:\n"]
  ++ colorSchemeOptions.map .printed
  ++ [.asked "\nEnter your choice (1-7): "]

/-- Embedding of `selectWebsiteColorScheme`; the one-second timer before the next
call is not represented.  The assignment to `websiteData.colorScheme` throws when
`websiteData` is `undefined`. -/
def selectWebsiteColorScheme (s : Session) : List String → Step Unit
  | [] => ⟨s.display colorSchemeMenu, [], .waiting⟩
  | answer :: rest =>
    if choiceInRange 7 (parseInt answer) then
      match s.websiteData with
      | some data =>
        ⟨{ s.display colorSchemeMenu with
            websiteData :=
              some (data.set "colorScheme"
                (getColorSchemeFromChoice ((parseInt answer).getD 0))) },
          rest, .resolved ()⟩
      | none =>
        ⟨s.display colorSchemeMenu, rest,
          .threw "TypeError: Cannot set properties of undefined"⟩
    else
      selectWebsiteColorScheme
        ((s.display colorSchemeMenu).display [.printed "Invalid choice. Please select 1-7."]) rest

/-- Whether the text starts with a white-space character. -/
def startsWithWhitespace (s : String) : Bool :=
  match s.toList.head? with
  | some c => isJsWhitespace c
  | none => false

/-- Whether the text ends with a white-space character. -/
def endsWithWhitespace (s : String) : Bool :=
  match s.toList.getLast? with
  | some c => isJsWhitespace c
  | none => false

/-- A session in which nothing has been answered or shown yet. -/
def freshSession : Session := {}

/-! ## Colour variables of the generated stylesheet -/

/-- The table `themes` of `getColorVariables`. -/
def colorThemes : List (String × String) :=
  [ ("light",
      "\n  \x2d\x2dprimary-color: #3b82f6;" ++
      "\n  \x2d\x2dsecondary-color: #64748b;" ++
      "\n  \x2d\x2dbackground-color: #ffffff;" ++
      "\n  \x2d\x2dtext-color: #1f2937;" ++
      "\n  \x2d\x2dborder-color: #e5e7eb;"),
    ("dark",
      "\n  \x2d\x2dprimary-color: #60a5fa;" ++
      "\n  \x2d\x2dsecondary-color: #94a3b8;" ++
      "\n  \x2d\x2dbackground-color: #111827;" ++
      "\n  \x2d\x2dtext-color: #f9fafb;" ++
      "\n  \x2d\x2dborder-color: #374151;"),
    ("pastel",
      "\n  \x2d\x2dprimary-color: #fbbf24;" ++
      "\n  \x2d\x2dsecondary-color: #f472b6;" ++
      "\n  \x2d\x2dbackground-color: #fef3c7;" ++
      "\n  \x2d\x2dtext-color: #374151;" ++
      "\n  \x2d\x2dborder-color: #fde68a;"),
    ("neon",
      "\n  \x2d\x2dprimary-color: #10b981;" ++
      "\n  \x2d\x2dsecondary-color: #8b5cf6;" ++
      "\n  \x2d\x2dbackground-color: #000000;" ++
      "\n  \x2d\x2dtext-color: #00ff88;" ++
      "\n  \x2d\x2dborder-color: #00ff88;"),
    ("custom",
      "\n  \x2d\x2dprimary-color: #4f46e5;" ++
      "\n  \x2d\x2dsecondary-color: #7c3aed;" ++
      "\n  \x2d\x2dbackground-color: #ffffff;" ++
      "\n  \x2d\x2dtext-color: #1f2937;" ++
      "\n  \x2d\x2dborder-color: #d1d5db;") ]

/-- The text of a member of `Object.prototype` when it is converted to a string:
the source text of a built-in function, or the tag of the prototype object for
`__proto__`. -/
def prototypeMemberText (name : String) : String :=
  if name == "__proto__" then "[object Object]"
  else if name == "constructor" then "function Object() \x7b [native code] \x7d"
  else "function " ++ name ++ "() \x7b [native code] \x7d"

/-- The text a template literal inserts for the result of a table read. -/
def interpolate : Lookup String → String
  | .own text => text
  | .inherited name => prototypeMemberText name
  | .undefined => "undefined"

/-- The body of `getColorVariables` for the value of `this.answers.colorTheme`,
which may be absent: the fragment read from the table is inserted as it is, and
there is no alternative after the read. -/
def colorVariablesOf (colorTheme : Option String) : String :=
  ":root \x7b" ++ interpolate (lookupProperty colorThemes (propertyKey colorTheme)) ++ "\n\x7d"

/-- Embedding of `getColorVariables`. -/
def getColorVariables (a : Answers) : String :=
  colorVariablesOf (some a.colorTheme)

/-- Embedding of `getColorThemeLabel`, the sibling read of the colour theme, which
has an alternative after the read. -/
def getColorThemeLabel (theme : Option String) : String :=
  match lookupProperty
      [ ("light", "Light Theme"), ("dark", "Dark Theme"), ("pastel", "Pastel Colors"),
        ("neon", "Neon/Vibrant"), ("custom", "Custom Colors") ]
      (propertyKey theme) with
  | .own label => if label.isEmpty then "Default" else label
  | .inherited name => prototypeMemberText name
  | .undefined => "Default"

/-- A record whose colour theme is not in the theme table. -/
def solarizedAnswers : Answers :=
  { uiType := "landing", colorTheme := "solarized", designStyle := "minimal",
    frontendFramework := "vanilla", cssFramework := "plain", projectName := "demo",
    includeRouter := none, includeStateManagement := none, stateManager := none }

/-! ## The question list of the builder wizard and `inquirer.prompt`

`inquirer.prompt` visits the questions in their declared order.  A question whose
`when` function returns a falsy value for the answers gathered so far is skipped
and stores nothing; every other question is asked and its answer is stored under
the name of the question. -/

/-- A value stored in the answers hash: a string for `list` and `input` questions,
a boolean for `confirm` questions. -/
inductive Answer where
  | str (s : String)
  | bool (b : Bool)
deriving DecidableEq, Repr

/-- JavaScript truthiness of a stored value. -/
def Answer.truthy : Answer → Bool
  | .str s => !s.isEmpty
  | .bool b => b

/-- The answers hash, in insertion order. -/
abbrev Hash := List (String × Answer)

/-- The read `answers[name]`; `none` is `undefined`. -/
def Hash.get (h : Hash) (name : String) : Option Answer :=
  h.lookup name

/-- The assignment `answers[name] = value`. -/
def Hash.set : Hash → String → Answer → Hash
  | [], k, v => [(k, v)]
  | (k0, v0) :: rest, k, v =>
    if k0 == k then (k, v) :: rest else (k0, v0) :: Hash.set rest k v

/-- The kind of a question. -/
inductive QuestionType where
  | list (choices : List String)
  | input
  | confirm
deriving DecidableEq, Repr

/-- A question of the list handed to `inquirer.prompt`. -/
structure Question where
  type : QuestionType
  name : String
  when : Option (Hash → Bool)

/-- The `when` function of the `includeRouter` question. -/
def whenIncludeRouter (answers : Hash) : Bool :=
  answers.get "frontendFramework" != some (.str "vanilla")

/-- The `when` function of the `includeStateManagement` question. -/
def whenIncludeStateManagement (answers : Hash) : Bool :=
  [some (Answer.str "react"), some (Answer.str "vue")].contains
    (answers.get "frontendFramework")

/-- The `when` function of the `stateManager` question. -/
def whenStateManager (answers : Hash) : Bool :=
  match answers.get "includeStateManagement" with
  | some v => v.truthy
  | none => false

/-- Values of the choices of the `stateManager` question. -/
def stateManagerChoices : List String :=
  ["redux", "zustand", "recoil", "vuex"]

/-- The question list of `collectUserPreferences`. -/
def questions : List Question :=
  [ { type := .list uiTypeChoices, name := "uiType", when := none },
    { type := .list colorThemeChoices, name := "colorTheme", when := none },
    { type := .list designStyleChoices, name := "designStyle", when := none },
    { type := .list frontendFrameworkChoices, name := "frontendFramework", when := none },
    { type := .list cssFrameworkChoices, name := "cssFramework", when := none },
    { type := .input, name := "projectName", when := none },
    { type := .confirm, name := "includeRouter", when := some whenIncludeRouter },
    { type := .confirm, name := "includeStateManagement",
      when := some whenIncludeStateManagement },
    { type := .list stateManagerChoices, name := "stateManager",
      when := some whenStateManager } ]

/-- What the user answers to each question of the builder wizard when it is asked:
the selected value of a list, the text that passed the validator, the reply to a
confirmation. -/
structure Replies where
  uiType : String
  colorTheme : String
  designStyle : String
  frontendFramework : String
  cssFramework : String
  projectName : String
  includeRouter : Bool
  includeStateManagement : Bool
  stateManager : String
deriving DecidableEq, Repr

/-- The answer of the user to the question with the given name. -/
def Replies.answerTo (u : Replies) (name : String) : Answer :=
  if name == "uiType" then .str u.uiType
  else if name == "colorTheme" then .str u.colorTheme
  else if name == "designStyle" then .str u.designStyle
  else if name == "frontendFramework" then .str u.frontendFramework
  else if name == "cssFramework" then .str u.cssFramework
  else if name == "projectName" then .str u.projectName
  else if name == "includeRouter" then .bool u.includeRouter
  else if name == "includeStateManagement" then .bool u.includeStateManagement
  else .str u.stateManager

/-- Embedding of `inquirer.prompt(questions)`, started from the answers gathered
so far. -/
def prompt (u : Replies) : List Question → Hash → Hash
  | [], answers => answers
  | q :: rest, answers =>
    match q.when with
    | some visible =>
      if visible answers then prompt u rest (answers.set q.name (u.answerTo q.name))
      else prompt u rest answers
    | none => prompt u rest (answers.set q.name (u.answerTo q.name))

/-- The string stored under a key of the hash; the empty string stands for a value
that is not a string. -/
def Hash.str (h : Hash) (name : String) : String :=
  match h.get name with
  | some (.str s) => s
  | _ => ""

/-- The string stored under a key of the hash, if the key is present. -/
def Hash.str? (h : Hash) (name : String) : Option String :=
  match h.get name with
  | some (.str s) => some s
  | _ => none

/-- The boolean stored under a key of the hash, if the key is present. -/
def Hash.bool? (h : Hash) (name : String) : Option Bool :=
  match h.get name with
  | some (.bool b) => some b
  | _ => none

/-- The answer record read off the hash. -/
def Hash.toAnswers (h : Hash) : Answers :=
  { uiType := h.str "uiType", colorTheme := h.str "colorTheme",
    designStyle := h.str "designStyle", frontendFramework := h.str "frontendFramework",
    cssFramework := h.str "cssFramework", projectName := h.str "projectName",
    includeRouter := h.bool? "includeRouter",
    includeStateManagement := h.bool? "includeStateManagement",
    stateManager := h.str? "stateManager" }

/-- The record assigned to `this.answers` by `collectUserPreferences`. -/
def collectAnswers (u : Replies) : Answers :=
  (prompt u questions []).toAnswers

/-- Replies of a user who picks React with Redux. -/
def reduxReplies : Replies :=
  { uiType := "dashboard", colorTheme := "light", designStyle := "modern",
    frontendFramework := "react", cssFramework := "tailwind", projectName := "demo",
    includeRouter := true, includeStateManagement := true, stateManager := "redux" }

/-- Replies of a user who picks plain HTML; the last three replies are never asked
for. -/
def vanillaReplies : Replies :=
  { uiType := "landing", colorTheme := "dark", designStyle := "minimal",
    frontendFramework := "vanilla", cssFramework := "plain", projectName := "demo",
    includeRouter := true, includeStateManagement := true, stateManager := "redux" }

/-- Replies of a user who picks Svelte and accepts the routing question; the last
two replies are never asked for. -/
def svelteRouterReplies : Replies :=
  { uiType := "landing", colorTheme := "dark", designStyle := "modern",
    frontendFramework := "svelte", cssFramework := "plain", projectName := "demo",
    includeRouter := true, includeStateManagement := false, stateManager := "redux" }

/-- Replies of a user who picks React and, for state management, the choice
`Vuex/Pinia`. -/
def reactVuexReplies : Replies :=
  { uiType := "dashboard", colorTheme := "light", designStyle := "modern",
    frontendFramework := "react", cssFramework := "plain", projectName := "demo",
    includeRouter := false, includeStateManagement := true, stateManager := "vuex" }

/-- Whether two hashes hold the same answers to the questions declared before
position `i` of the question list. -/
def agreeBefore (i : Nat) (h1 h2 : Hash) : Bool :=
  (questions.take i).all (fun q => h1.get q.name == h2.get q.name)

/-! ## Reading a manifest and a trace -/

/-- The string stored under a top-level field of a manifest, if the field holds a
string. -/
def getStr : Manifest → String → Option String
  | [], _ => none
  | (k, v) :: rest, field =>
    if k == field then
      match v with
      | .str s => some s
      | _ => none
    else getStr rest field

/-- Whether the event comes from the installation step: the installation itself or
the warning of its `catch` block. -/
def Event.isInstall : Event → Bool
  | .did (.npmInstall _) => true
  | .installWarning => true
  | _ => false

/-- A run in which nothing exists yet and the installation fails. -/
def failedInstallEnv : Env :=
  { cwd := ["home", "user"], proceed := true, destinationExists := false,
    overwrite := false, installFails := true, fsFailure := none }

/-- A run in which the final confirmation is declined. -/
def declinedProceedEnv : Env :=
  { cwd := ["home", "user"], proceed := false, destinationExists := true,
    overwrite := true, installFails := false, fsFailure := none }

/-! ## Repeated prompts -/

/-- The events shown by `n` rounds of the same block. -/
def repeatEvents : Nat → List CliEvent → List CliEvent
  | 0, _ => []
  | n + 1, block => block ++ repeatEvents n block

/-- The number of error lines `Invalid choice. Please select 1-6.` among the
events. -/
def invalidChoiceLines (events : List CliEvent) : Nat :=
  events.count (.printed "Invalid choice. Please select 1-6.")

/-- The number of prompts among the events. -/
def askedCount (events : List CliEvent) : Nat :=
  events.countP (fun e => match e with
    | .asked _ => true
    | .printed _ => false)

/-! ## Component generators of the builder wizard -/

/-- Embedding of `getReactImports`. -/
def getReactImports (a : Answers) : String :=
  let imports := "import React from \x27react\x27;\nimport \x27./App.css\x27;"
  let imports :=
    if truthy a.includeRouter then
      imports ++
        "\nimport \x7b BrowserRouter as Router, Routes, Route \x7d from \x27react-router-dom\x27;"
    else imports
  let imports :=
    if a.cssFramework == "mui" then
      imports ++
        "\nimport \x7b ThemeProvider, createTheme, CssBaseline \x7d from \x27@mui/material\x27;"
    else if a.cssFramework == "chakra" then
      imports ++ "\nimport \x7b ChakraProvider \x7d from \x27@chakra-ui/react\x27;"
    else imports
  imports


/-- The React record of `reactWithRedux` with the routing question left unanswered. -/
def reactWithoutRouterFlag : Answers :=
  { reactWithRedux with includeRouter := none }

/-! ## The design-prompt wizard: the session after the first prompt

What the wizard reads from its surroundings is kept in a record: the working
directory, the clock, and whether a write fails.  Colour and weight given to a
text by `chalk` are not represented: a styled text is its text. -/

/-- The surroundings of a run of `UIDesignerCLI`. -/
structure CliEnv where
  /-- The value of `process.cwd()`. -/
  cwd : Path
  /-- The value of `Date.now()` when a file name is built. -/
  now : Nat
  /-- The text of `new Date().toLocaleString()` when a report is rendered. -/
  localeTime : String
  /-- The text returned by `figlet.textSync` for the banner. -/
  banner : String
  /-- Whether `fs.writeFileSync` throws. -/
  writeFails : Bool
deriving DecidableEq, Repr

/-- The text a template literal inserts for a field of a record; an absent field
reads as `undefined`. -/
def interpolateField : Option String → String
  | some text => text
  | none => "undefined"

/-- Whether the value of a field is truthy: the field is present and its text is
not empty. -/
def isTruthyField : Option String → Bool
  | some text => !text.isEmpty
  | none => false

/-- Embedding of the `replace` call that puts a hyphen for every bullet. -/
def replaceBullets (text : String) : String :=
  String.mk (text.toList.map (fun c => if c = '•' then '-' else c))

/-- Embedding of `repeat(n)` on the equals sign. -/
def rule (n : Nat) : String :=
  String.mk (List.replicate n '=')

/-- The text a template literal inserts for the value of
`generateWireframeTemplate`. -/
def Wireframe.text : Wireframe → String
  | .diagram text => text
  | .prototypeMember name => prototypeMemberText name

/-- The piece of a report template that shows a labelled field when the field is
truthy and nothing otherwise. -/
def optionalField (label : String) (field : Option String) (ending : String) : String :=
  if isTruthyField field then label ++ interpolateField field ++ ending else ""

/-- Embedding of `generatePlainTextPrompt`: the template literal, piece by piece.
The interpolations are evaluated from left to right, so a generator that throws
ends the call before anything is returned. -/
def generatePlainTextPrompt (generatedOn : String) (d : ProjectData) : Except String String :=
  match getDesignRecommendations d with
  | .error e => .error e
  | .ok recommendations =>
    match getImplementationSuggestions d with
    | .error e => .error e
    | .ok suggestions =>
      .ok ("UI/UX DESIGN PROMPT\n" ++ rule 50 ++ "\n\n"
        ++ "Project Type: " ++ interpolateField d.interfaceType ++ "\n"
        ++ "Purpose: " ++ interpolateField d.purpose ++ "\n"
        ++ "Target Users: " ++ interpolateField d.targetUsers ++ "\n"
        ++ optionalField "Screen Count: " d.screenCount "\n"
        ++ "Key Features: " ++ interpolateField d.features ++ "\n"
        ++ "Design Style: " ++ interpolateField d.designStyle ++ "\n"
        ++ optionalField "Color Preferences: " d.colorPreference "\n"
        ++ optionalField "Additional Requirements: " d.additionalReqs "\n"
        ++ "\n\nDESIGN RECOMMENDATIONS:\n" ++ replaceBullets recommendations
        ++ "\n\nIMPLEMENTATION SUGGESTIONS:\n" ++ replaceBullets suggestions
        ++ "\n\nWIREFRAME TEMPLATE:\n" ++ (generateWireframeTemplate d).text
        ++ "\n\nGenerated on: " ++ generatedOn ++ "\n")

/-- The text `prompt` built by `generateDesignPrompt`. -/
def designPromptText (d : ProjectData) : Except String String :=
  match getDesignRecommendations d with
  | .error e => .error e
  | .ok recommendations =>
    match getImplementationSuggestions d with
    | .error e => .error e
    | .ok suggestions =>
      .ok ("\n" ++ "🎨 UI/UX DESIGN PROMPT" ++ "\n" ++ "=" ++ rule 50 ++ "\n\n"
        ++ "Project Type: " ++ interpolateField d.interfaceType ++ "\n"
        ++ "Purpose: " ++ interpolateField d.purpose ++ "\n"
        ++ "Target Users: " ++ interpolateField d.targetUsers ++ "\n"
        ++ optionalField "Screen Count: " d.screenCount "" ++ "\n"
        ++ "Key Features: " ++ interpolateField d.features ++ "\n"
        ++ "Design Style: " ++ interpolateField d.designStyle ++ "\n"
        ++ optionalField "Color Preferences: " d.colorPreference "" ++ "\n"
        ++ optionalField "Additional Requirements: " d.additionalReqs "" ++ "\n"
        ++ "\n" ++ "🎯 DESIGN RECOMMENDATIONS:" ++ "\n" ++ recommendations
        ++ "\n\n" ++ "🛠️  IMPLEMENTATION SUGGESTIONS:" ++ "\n" ++ suggestions
        ++ "\n\n" ++ "🎨 WIREFRAME TEMPLATE:" ++ "\n" ++ (generateWireframeTemplate d).text
        ++ "\n        ")

/-- Embedding of `Step` sequencing: what follows an `await` runs when the promise
resolved, and a promise that waits or threw ends the method the same way. -/
def Step.bind {α β : Type} (r : Step α) (next : α → Session → List String → Step β) :
    Step β :=
  match r.settled with
  | .resolved value => next value r.session r.rest
  | .waiting => ⟨r.session, r.rest, .waiting⟩
  | .threw message => ⟨r.session, r.rest, .threw message⟩

/-- The session with another answer record. -/
def Session.withData (s : Session) (d : ProjectData) : Session :=
  { s with projectData := d }

/-- Embedding of `showWelcome`; clearing the screen is not represented. -/
def showWelcome (env : CliEnv) (s : Session) : Session :=
  s.display
    [ .printed env.banner,
      .printed "🎨 Welcome to UI Designer CLI",
      .printed "Generate UI/UX design prompts and templates for your projects\n" ]

/-- The part of `collectProjectDetails` under `// Number of screens`. -/
def askScreenCount (s : Session) (inputs : List String) : Step Unit :=
  if s.projectData.interfaceType != some "Command Line Tool" then
    (askQuestion "📄 How many screens/pages do you need? " s inputs).bind
      fun screenCount s inputs =>
        ⟨s.withData { s.projectData with screenCount := some screenCount }, inputs,
          .resolved ()⟩
  else ⟨s, inputs, .resolved ()⟩

/-- Embedding of `collectProjectDetails`. -/
def collectProjectDetails (s : Session) (inputs : List String) : Step Unit :=
  (askQuestion "🎪 What is the main purpose of your app? "
      (s.display
        [.printed ("\n🎯 Great! Let\x27s design your "
          ++ interpolateField s.projectData.interfaceType ++ "\n")])
      inputs).bind
    fun purpose s inputs =>
  (askQuestion "👥 Who are your target users? (e.g., teenagers, professionals, elderly) "
      (s.withData { s.projectData with purpose := some purpose }) inputs).bind
    fun targetUsers s inputs =>
  (askScreenCount (s.withData { s.projectData with targetUsers := some targetUsers })
      inputs).bind
    fun _ s inputs =>
  (askQuestion "⚙️  What are the key features? (separate with commas) " s inputs).bind
    fun features s inputs =>
  (selectDesignStyle (s.withData { s.projectData with features := some features })
      inputs).bind
    fun _ s inputs =>
  (askQuestion "🎨 Any color preferences? (optional) " s inputs).bind
    fun colorPreference s inputs =>
  (askQuestion "📝 Any additional requirements or constraints? (optional) "
      (s.withData { s.projectData with colorPreference := some colorPreference })
      inputs).bind
    fun additionalReqs s inputs =>
  ⟨s.withData { s.projectData with additionalReqs := some additionalReqs }, inputs,
    .resolved ()⟩

/-- Embedding of `generateDesignPrompt`: the announcement is shown, then the
prompt, unless a generator throws while the prompt is built. -/
def generateDesignPrompt (s : Session) (inputs : List String) : Step String :=
  match designPromptText s.projectData with
  | .ok prompt =>
    ⟨s.display [.printed "\n🎉 Generating your UI/UX design prompt...\n", .printed prompt], inputs,
      .resolved prompt⟩
  | .error e =>
    ⟨s.display [.printed "\n🎉 Generating your UI/UX design prompt...\n"], inputs, .threw e⟩

/-- Embedding of `toLowerCase` on the letters `A` to `Z`.  This decides the
comparisons of `saveResults`: no character outside `A` to `Z` lower-cases to
`y`, `e` or `s`. -/
def toLowerCase (text : String) : String :=
  String.mk (text.toList.map Char.toLower)

/-- The file name built by `saveResults` at the time value `now`. -/
def saveFileName (now : Nat) : String :=
  "ui-design-prompt-" ++ Nat.repr now ++ ".txt"

/-- What a method leaves behind: how it settled, and the files it wrote with
`fs.writeFileSync`, oldest first. -/
structure Outcome (α : Type) where
  step : Step α
  written : List (Path × String) := []
deriving DecidableEq, Repr

/-- Embedding of `saveResults`. -/
def saveResults (env : CliEnv) (s : Session) (inputs : List String) : Outcome Unit :=
  let asked := askQuestion "\n💾 Would you like to save this design prompt to a file? (y/n): " s inputs
  match asked.settled with
  | .resolved saveChoice =>
    if toLowerCase saveChoice == "y" || toLowerCase saveChoice == "yes" then
      match generatePlainTextPrompt env.localeTime asked.session.projectData with
      | .error e => ⟨⟨asked.session, asked.rest, .threw e⟩, []⟩
      | .ok content =>
        if env.writeFails then
          ⟨⟨asked.session, asked.rest, .threw "Error: writeFileSync failed"⟩, []⟩
        else
          ⟨⟨asked.session.display
                [.printed ("\n✅ Design prompt saved to: " ++ saveFileName env.now)],
              asked.rest, .resolved ()⟩,
            [(pathJoin env.cwd (saveFileName env.now), content)]⟩
    else ⟨⟨asked.session, asked.rest, .resolved ()⟩, []⟩
  | .waiting => ⟨⟨asked.session, asked.rest, .waiting⟩, []⟩
  | .threw message => ⟨⟨asked.session, asked.rest, .threw message⟩, []⟩

/-- The object literal `palettes` of `showColorPalettes`. -/
def palettesTable : List (String × List String) :=
  [ ("Minimal & Clean", ["#FFFFFF", "#F8F9FA", "#E9ECEF", "#6C757D", "#212529"]),
    ("Modern & Vibrant", ["#FF6B6B", "#4ECDC4", "#45B7D1", "#96CEB4", "#FFEAA7"]),
    ("Professional & Corporate", ["#2C3E50", "#34495E", "#3498DB", "#E74C3C", "#F39C12"]),
    ("Dark & Sleek", ["#1A1A1A", "#2D2D2D", "#404040", "#0066CC", "#00CC66"]),
    ("Nature & Organic", ["#2ECC71", "#27AE60", "#F1C40F", "#E67E22", "#8B4513"]) ]

/-- Embedding of `showColorPalettes`.  An inherited member is truthy and has no
`forEach`, so the call throws after the two headings. -/
def showColorPalettes (s : Session) (inputs : List String) : Step Unit :=
  let headed := s.display
    [ .printed "\n🎨 COLOR PALETTE SUGGESTIONS:\n",
      .printed ("For " ++ interpolateField s.projectData.designStyle ++ " style:") ]
  match lookupProperty palettesTable (propertyKey s.projectData.designStyle) with
  | .own colors =>
    ⟨headed.display (colors.map fun color => .printed ("██████ " ++ color)), inputs,
      .resolved ()⟩
  | .inherited _ =>
    ⟨headed, inputs, .threw "TypeError: selectedPalette.forEach is not a function"⟩
  | .undefined =>
    ⟨headed.display
        (((palettesTable.lookup "Minimal & Clean").getD []).map
          fun color => .printed ("██████ " ++ color)),
      inputs, .resolved ()⟩

/-- The array `guidelines` of `showMobileGuidelines`. -/
def mobileGuidelines : List String :=
  [ "• Minimum touch target size: 44px (iOS) / 48dp (Android)",
    "• Use native navigation patterns",
    "• Optimize for one-handed use",
    "• Consider thumb-friendly zones",
    "• Implement swipe gestures appropriately",
    "• Use system fonts when possible",
    "• Test on various screen sizes",
    "• Consider battery usage in design decisions" ]

/-- Embedding of `showMobileGuidelines`. -/
def showMobileGuidelines (s : Session) : Session :=
  s.display ([.printed "\n📱 MOBILE-SPECIFIC GUIDELINES:\n"] ++ mobileGuidelines.map .printed)

/-- The array `checklist` of `showAccessibilityChecklist`. -/
def accessibilityChecklist : List String :=
  [ "• Ensure sufficient color contrast (4.5:1 ratio)",
    "• Provide alternative text for images",
    "• Use semantic HTML elements",
    "• Ensure keyboard navigation support",
    "• Include focus indicators",
    "• Use descriptive link text",
    "• Provide captions for videos",
    "• Test with screen readers",
    "• Support browser zoom up to 200%",
    "• Use ARIA labels when necessary" ]

/-- Embedding of `showAccessibilityChecklist`. -/
def showAccessibilityChecklist (s : Session) : Session :=
  s.display
    ([.printed "\n♿ WEB ACCESSIBILITY CHECKLIST:\n"] ++ accessibilityChecklist.map .printed)

/-- The array `options` of `showOptionsMenu`. -/
def menuOptions : List String :=
  [ "1. 🔄 Create another design",
    "2. 💾 Save current prompt to file",
    "3. 🎨 Generate color palette suggestions",
    "4. 📱 View mobile-specific guidelines",
    "5. 🌐 View web accessibility checklist",
    "6. 🏗️  Create full website design",
    "7. 👋 Exit" ]

/-- What `showOptionsMenu` shows before it reads a line. -/
def optionsMenu : List CliEvent :=
  [.printed "\n🎯 What would you like to do next?\n"]
  ++ menuOptions.map .printed
  ++ [.asked "\nEnter your choice (1-7): "]

/-- Embedding of `showOptionsMenu`: the promise resolves with `parseInt(answer)`,
which is `NaN` for a line without a leading number. -/
def showOptionsMenu (s : Session) : List String → Step (Option Int)
  | [] => ⟨s.display optionsMenu, [], .waiting⟩
  | answer :: rest => ⟨s.display optionsMenu, rest, .resolved (parseInt answer)⟩

/-- The statements of `case 1` of the menu in `run`: the record is replaced by an
empty one, then the wizard runs as it did at the start. -/
def createAnotherDesign (env : CliEnv) (s : Session) (inputs : List String) : Step Unit :=
  (selectInterfaceType (showWelcome env (s.withData {})) inputs).bind
    fun _ s inputs =>
  (collectProjectDetails s inputs).bind
    fun _ s inputs =>
  (generateDesignPrompt s inputs).bind
    fun _ s inputs => ⟨s, inputs, .resolved ()⟩

/-- One turn of the `while` loop of `run`: the menu is shown and the `switch`
runs the chosen case.  The value is `continueApp` after the turn.  Case 6 runs
`createFullWebsiteDesign`; what that method does is the parameter
`websiteDesign`, so that every statement about a turn holds whatever it does. -/
def menuTurn (env : CliEnv) (websiteDesign : Session → List String → Outcome Unit)
    (s : Session) (inputs : List String) : Outcome Bool :=
  let menu := showOptionsMenu s inputs
  match menu.settled with
  | .waiting => ⟨⟨menu.session, menu.rest, .waiting⟩, []⟩
  | .threw message => ⟨⟨menu.session, menu.rest, .threw message⟩, []⟩
  | .resolved choice =>
    if choice = some 1 then
      ⟨(createAnotherDesign env menu.session menu.rest).bind
          fun _ s inputs => ⟨s, inputs, .resolved true⟩, []⟩
    else if choice = some 2 then
      let saved := saveResults env menu.session menu.rest
      ⟨saved.step.bind fun _ s inputs => ⟨s, inputs, .resolved true⟩, saved.written⟩
    else if choice = some 3 then
      ⟨(showColorPalettes menu.session menu.rest).bind
          fun _ s inputs => ⟨s, inputs, .resolved true⟩, []⟩
    else if choice = some 4 then
      ⟨⟨showMobileGuidelines menu.session, menu.rest, .resolved true⟩, []⟩
    else if choice = some 5 then
      ⟨⟨showAccessibilityChecklist menu.session, menu.rest, .resolved true⟩, []⟩
    else if choice = some 6 then
      let designed := websiteDesign menu.session menu.rest
      ⟨designed.step.bind fun _ s inputs => ⟨s, inputs, .resolved true⟩,
        designed.written⟩
    else if choice = some 7 then
      ⟨⟨menu.session, menu.rest, .resolved false⟩, []⟩
    else
      ⟨⟨menu.session.display [.printed "Invalid choice. Please try again."], menu.rest,
          .resolved true⟩, []⟩

/-- The surroundings used in the examples. -/
def demoCliEnv : CliEnv :=
  { cwd := ["home", "user"], now := 1700000000000, localeTime := "11/14/2023, 10:13:20 PM",
    banner := "UI Designer", writeFails := false }

/-- A record left by an earlier session for a web application. -/
def webData : ProjectData :=
  { interfaceType := some "Web Application", purpose := some "shop",
    targetUsers := some "adults", screenCount := some "5", features := some "cart",
    designStyle := some "Minimal & Clean", colorPreference := some "",
    additionalReqs := some "offline use" }

/-- The line a report holds for an optional field: the labelled answer when an
answer was given, nothing when the question was never asked or was left blank. -/
def optionalLine (label : String) : Option String → List String
  | some text => if text = "" then [] else [label ++ text]
  | none => []

/-- The texts that are `y` or `yes` when the case of their letters is ignored. -/
def confirmations : List String :=
  ["y", "Y", "yes", "yeS", "yEs", "yES", "Yes", "YeS", "YEs", "YES"]

/-! ## Predicates on sessions of the design-prompt wizard -/

/-- The two runs read the same lines, settled the same way and hold the same
answer record. -/
def SameData {α : Type} (r1 r2 : Step α) : Prop :=
  r1.session.projectData = r2.session.projectData ∧ r1.rest = r2.rest ∧
    r1.settled = r2.settled

/-- The record holds no screen count. -/
def NoScreenCount (s : Session) : Prop :=
  s.projectData.screenCount = none

/-- The record of a command line tool holds no screen count. -/
def ToolHasNoScreenCount (s : Session) : Prop :=
  s.projectData.interfaceType = some "Command Line Tool" → s.projectData.screenCount = none

/-- A value for the parameter `websiteDesign` of `menuTurn` in runs that are shown
as examples: the method returns at once. -/
def websiteDesignReturns (s : Session) (inputs : List String) : Outcome Unit :=
  ⟨⟨s, inputs, .resolved ()⟩, []⟩

/-! ## Content and style generators of the builder wizard

Each generator is given as the function of the record that the method computes;
the section on the heap below runs the methods statement by statement.  A template
is kept as its list of lines. -/

/-- The template `getLandingPageContent` returns for `react`. -/
def landingReactLines : List String :=
  [ "",
    "      <header className=\"hero\">",
    "        <nav className=\"navbar\">",
    "          <div className=\"nav-brand\">Your Brand</div>",
    "          <ul className=\"nav-links\">",
    "            <li><a href=\"#home\">Home</a></li>",
    "            <li><a href=\"#about\">About</a></li>",
    "            <li><a href=\"#services\">Services</a></li>",
    "            <li><a href=\"#contact\">Contact</a></li>",
    "          </ul>",
    "        </nav>",
    "        <div className=\"hero-content\">",
    "          <h1 className=\"hero-title\">Welcome to Your Landing Page</h1>",
    "          <p className=\"hero-subtitle\">Build something amazing with our tools</p>",
    "          <button className=\"cta-button\">Get Started</button>",
    "        </div>",
    "      </header>",
    "      ",
    "      <section className=\"features\">",
    "        <div className=\"container\">",
    "          <h2>Our Features</h2>",
    "          <div className=\"feature-grid\">",
    "            <div className=\"feature-card\">",
    "              <h3>Feature 1</h3>",
    "              <p>Description of your first feature</p>",
    "            </div>",
    "            <div className=\"feature-card\">",
    "              <h3>Feature 2</h3>",
    "              <p>Description of your second feature</p>",
    "            </div>",
    "            <div className=\"feature-card\">",
    "              <h3>Feature 3</h3>",
    "              <p>Description of your third feature</p>",
    "            </div>",
    "          </div>",
    "        </div>",
    "      </section>" ]

/-- The template `getLandingPageContent` returns for the other frameworks. -/
def landingPlainLines : List String :=
  [ "",
    "    <header class=\"hero\">",
    "      <nav class=\"navbar\">",
    "        <div class=\"nav-brand\">Your Brand</div>",
    "        <ul class=\"nav-links\">",
    "          <li><a href=\"#home\">Home</a></li>",
    "          <li><a href=\"#about\">About</a></li>",
    "          <li><a href=\"#services\">Services</a></li>",
    "          <li><a href=\"#contact\">Contact</a></li>",
    "        </ul>",
    "      </nav>",
    "      <div class=\"hero-content\">",
    "        <h1 class=\"hero-title\">Welcome to Your Landing Page</h1>",
    "        <p class=\"hero-subtitle\">Build something amazing with our tools</p>",
    "        <button class=\"cta-button\">Get Started</button>",
    "      </div>",
    "    </header>" ]

/-- Embedding of `getLandingPageContent`. -/
def getLandingPageContent (framework : String) : String :=
  if framework == "react" then joinLines landingReactLines
  else joinLines landingPlainLines

/-- The template `getDashboardContent` returns for `react`. -/
def dashboardReactLines : List String :=
  [ "",
    "      <div className=\"dashboard\">",
    "        <aside className=\"sidebar\">",
    "          <div className=\"sidebar-brand\">Dashboard</div>",
    "          <nav className=\"sidebar-nav\">",
    "            <ul>",
    "              <li><a href=\"#overview\">Overview</a></li>",
    "              <li><a href=\"#analytics\">Analytics</a></li>",
    "              <li><a href=\"#users\">Users</a></li>",
    "              <li><a href=\"#settings\">Settings</a></li>",
    "            </ul>",
    "          </nav>",
    "        </aside>",
    "        ",
    "        <main className=\"main-content\">",
    "          <header className=\"dashboard-header\">",
    "            <h1>Dashboard Overview</h1>",
    "            <div className=\"user-menu\">",
    "              <span>Welcome, User!</span>",
    "            </div>",
    "          </header>",
    "          ",
    "          <div className=\"dashboard-grid\">",
    "            <div className=\"metric-card\">",
    "              <h3>Total Users</h3>",
    "              <div className=\"metric-value\">1,234</div>",
    "            </div>",
    "            <div className=\"metric-card\">",
    "              <h3>Revenue</h3>",
    "              <div className=\"metric-value\">$12,345</div>",
    "            </div>",
    "            <div className=\"metric-card\">",
    "              <h3>Orders</h3>",
    "              <div className=\"metric-value\">567</div>",
    "            </div>",
    "            <div className=\"metric-card\">",
    "              <h3>Growth</h3>",
    "              <div className=\"metric-value\">+12%</div>",
    "            </div>",
    "          </div>",
    "        </main>",
    "      </div>" ]

/-- The template `getDashboardContent` returns for the other frameworks. -/
def dashboardPlainLines : List String :=
  [ "",
    "    <div class=\"dashboard\">",
    "      <aside class=\"sidebar\">",
    "        <div class=\"sidebar-brand\">Dashboard</div>",
    "        <nav class=\"sidebar-nav\">",
    "          <ul>",
    "            <li><a href=\"#overview\">Overview</a></li>",
    "            <li><a href=\"#analytics\">Analytics</a></li>",
    "            <li><a href=\"#users\">Users</a></li>",
    "            <li><a href=\"#settings\">Settings</a></li>",
    "          </ul>",
    "        </nav>",
    "      </aside>",
    "      ",
    "      <main class=\"main-content\">",
    "        <header class=\"dashboard-header\">",
    "          <h1>Dashboard Overview</h1>",
    "        </header>",
    "        ",
    "        <div class=\"dashboard-grid\">",
    "          <div class=\"metric-card\">",
    "            <h3>Total Users</h3>",
    "            <div class=\"metric-value\">1,234</div>",
    "          </div>",
    "          <div class=\"metric-card\">",
    "            <h3>Revenue</h3>",
    "            <div class=\"metric-value\">$12,345</div>",
    "          </div>",
    "        </div>",
    "      </main>",
    "    </div>" ]

/-- Embedding of `getDashboardContent`. -/
def getDashboardContent (framework : String) : String :=
  if framework == "react" then joinLines dashboardReactLines
  else joinLines dashboardPlainLines

/-- The template `getPortfolioContent` returns for `react`. -/
def portfolioReactLines : List String :=
  [ "",
    "      <div className=\"portfolio\">",
    "        <header className=\"portfolio-header\">",
    "          <div className=\"profile\">",
    "            <div className=\"profile-image\"></div>",
    "            <h1>Your Name</h1>",
    "            <p>Web Developer & Designer</p>",
    "          </div>",
    "        </header>",
    "        ",
    "        <section className=\"portfolio-projects\">",
    "          <h2>My Projects</h2>",
    "          <div className=\"project-grid\">",
    "            <div className=\"project-card\">",
    "              <div className=\"project-image\"></div>",
    "              <h3>Project 1</h3>",
    "              <p>Description of your project</p>",
    "            </div>",
    "            <div className=\"project-card\">",
    "              <div className=\"project-image\"></div>",
    "              <h3>Project 2</h3>",
    "              <p>Description of your project</p>",
    "            </div>",
    "          </div>",
    "        </section>",
    "      </div>" ]

/-- The template `getPortfolioContent` returns for the other frameworks. -/
def portfolioPlainLines : List String :=
  [ "",
    "    <div class=\"portfolio\">",
    "      <header class=\"portfolio-header\">",
    "        <div class=\"profile\">",
    "          <div class=\"profile-image\"></div>",
    "          <h1>Your Name</h1>",
    "          <p>Web Developer & Designer</p>",
    "        </div>",
    "      </header>",
    "      ",
    "      <section class=\"portfolio-projects\">",
    "        <h2>My Projects</h2>",
    "        <div class=\"project-grid\">",
    "          <div class=\"project-card\">",
    "            <div class=\"project-image\"></div>",
    "            <h3>Project 1</h3>",
    "          </div>",
    "        </div>",
    "      </section>",
    "    </div>" ]

/-- Embedding of `getPortfolioContent`. -/
def getPortfolioContent (framework : String) : String :=
  if framework == "react" then joinLines portfolioReactLines
  else joinLines portfolioPlainLines

/-- Embedding of `getEcommerceContent`, which does not read its argument. -/
def getEcommerceContent (_framework : String) : String :=
  "<div class=\"ecommerce-layout\">E-commerce interface coming soon...</div>"

/-- Embedding of `getBlogContent`, which does not read its argument. -/
def getBlogContent (_framework : String) : String :=
  "<div class=\"blog-layout\">Blog interface coming soon...</div>"

/-- Embedding of `getCustomContent`, which does not read its argument. -/
def getCustomContent (_framework : String) : String :=
  "<div class=\"custom-layout\">Your custom application structure</div>"

/-- The object literal `templates` of `getUIContent`. -/
def uiTemplates (framework : String) : List (String × String) :=
  [ ("landing", getLandingPageContent framework),
    ("dashboard", getDashboardContent framework),
    ("portfolio", getPortfolioContent framework),
    ("ecommerce", getEcommerceContent framework),
    ("blog", getBlogContent framework),
    ("custom", getCustomContent framework) ]

/-- Embedding of `getUIContent`: the value of `templates[uiType]` when it is
truthy, the custom template otherwise.  An inherited member of `Object.prototype`
is truthy, so it is returned as it is. -/
def getUIContent (a : Answers) (framework : String) : Lookup String :=
  match lookupProperty (uiTemplates framework) a.uiType with
  | .own text => if text.isEmpty then .own (getCustomContent framework) else .own text
  | .inherited name => .inherited name
  | .undefined => .own (getCustomContent framework)

/-- The template literal of `getReactAppComponent` around its two insertions. -/
def reactAppTemplate (imports content : String) : String :=
  imports
    ++ "\n\nfunction App() \x7b\n  return (\n    <div className=\"App\">\n      "
    ++ content
    ++ "\n    </div>\n  );\n\x7d\n\nexport default App;"

/-- Embedding of `getReactAppComponent`. -/
def getReactAppComponent (a : Answers) : String :=
  reactAppTemplate (getReactImports a) (interpolate (getUIContent a "react"))

/-- The template `getBaseStyles` returns. -/
def baseStyleLines : List String :=
  [ "",
    "* \x7b",
    "  margin: 0;",
    "  padding: 0;",
    "  box-sizing: border-box;",
    "\x7d",
    "",
    "body \x7b",
    "  font-family: -apple-system, BlinkMacSystemFont, \x27Segoe UI\x27, \x27Roboto\x27, sans-serif;",
    "  background-color: var(\x2d\x2dbackground-color);",
    "  color: var(\x2d\x2dtext-color);",
    "  line-height: 1.6;",
    "\x7d",
    "",
    ".container \x7b",
    "  max-width: 1200px;",
    "  margin: 0 auto;",
    "  padding: 0 1rem;",
    "\x7d" ]

/-- Embedding of `getBaseStyles`. -/
def getBaseStyles : String :=
  joinLines baseStyleLines

/-- The template `getComponentStyles` returns. -/
def componentStyleLines : List String :=
  [ "",
    "\x2f* Navigation *\x2f",
    ".navbar \x7b",
    "  display: flex;",
    "  justify-content: space-between;",
    "  align-items: center;",
    "  padding: 1rem 2rem;",
    "  background: var(\x2d\x2dbackground-color);",
    "  border-bottom: 1px solid var(\x2d\x2dborder-color);",
    "\x7d",
    "",
    ".nav-brand \x7b",
    "  font-weight: bold;",
    "  font-size: 1.5rem;",
    "  color: var(\x2d\x2dprimary-color);",
    "\x7d",
    "",
    ".nav-links \x7b",
    "  display: flex;",
    "  list-style: none;",
    "  gap: 2rem;",
    "\x7d",
    "",
    ".nav-links a \x7b",
    "  color: var(\x2d\x2dtext-color);",
    "  text-decoration: none;",
    "  transition: color 0.3s;",
    "\x7d",
    "",
    ".nav-links a:hover \x7b",
    "  color: var(\x2d\x2dprimary-color);",
    "\x7d",
    "",
    "\x2f* Buttons *\x2f",
    ".cta-button \x7b",
    "  background: var(\x2d\x2dprimary-color);",
    "  color: white;",
    "  border: none;",
    "  padding: 1rem 2rem;",
    "  border-radius: 0.5rem;",
    "  font-size: 1rem;",
    "  cursor: pointer;",
    "  transition: opacity 0.3s;",
    "\x7d",
    "",
    ".cta-button:hover \x7b",
    "  opacity: 0.9;",
    "\x7d",
    "",
    "\x2f* Cards *\x2f",
    ".card \x7b",
    "  background: var(\x2d\x2dbackground-color);",
    "  border: 1px solid var(\x2d\x2dborder-color);",
    "  border-radius: 0.5rem;",
    "  padding: 1.5rem;",
    "  box-shadow: 0 1px 3px rgba(0, 0, 0, 0.1);",
    "\x7d" ]

/-- Embedding of `getComponentStyles`. -/
def getComponentStyles : String :=
  joinLines componentStyleLines

/-- Embedding of `getMainStyles`. -/
def getMainStyles (a : Answers) : String :=
  getColorVariables a ++ "\n\n" ++ getBaseStyles ++ "\n\n" ++ getComponentStyles

/-- The template literal of `getVanillaIndexHtml` around its two insertions. -/
def vanillaIndexTemplate (projectName content : String) : String :=
  "<!DOCTYPE html>\n<html lang=\"en\">\n<head>\n    <meta charset=\"UTF-8\">\n    <meta name=\"viewport\" content=\"width=device-width, initial-scale=1.0\">\n    <title>"
    ++ projectName
    ++ "</title>\n    <link rel=\"stylesheet\" href=\"css/main.css\">\n</head>\n<body>\n    "
    ++ content
    ++ "\n    <script src=\"js/main.js\"></script>\n</body>\n</html>"

/-- Embedding of `getVanillaIndexHtml`. -/
def getVanillaIndexHtml (a : Answers) : String :=
  vanillaIndexTemplate a.projectName (interpolate (getUIContent a "vanilla"))

/-! ## The builder object on a heap

The generators once more, now as the methods they are: a method runs on a heap of
objects, reads `this.answers` through property reads, creates the objects of its
object literals and assigns to properties.  A run returns a value and the heap it
leaves, or throws. -/

/-- A value handled by the generators. -/
inductive Value where
  /-- A string. -/
  | str (text : String)
  /-- A boolean. -/
  | bool (b : Bool)
  /-- The object at this address of the heap. -/
  | ref (address : Nat)
  /-- The value `undefined`. -/
  | undefined
  /-- The member of `Object.prototype` with this name. -/
  | inherited (name : String)
deriving DecidableEq, Repr

/-- An object: its own properties in insertion order. -/
abbrev Obj := List (String × Value)

/-- The objects created so far; the address of an object is its position. -/
abbrev Heap := List Obj

/-- The property read `o[key]` on an object whose prototype is `Object.prototype`. -/
def Obj.read (o : Obj) (key : String) : Value :=
  match o.lookup key with
  | some v => v
  | none => if objectPrototypeKeys.contains key then .inherited key else .undefined

/-- The assignment `o[key] = v`: an existing key keeps its position, a new key is
appended. -/
def Obj.assign : Obj → String → Value → Obj
  | [], k, v => [(k, v)]
  | (k0, v0) :: rest, k, v =>
    if k0 == k then (k, v) :: rest else (k0, v0) :: Obj.assign rest k v

/-- Truthiness of a value. -/
def Value.truthy : Value → Bool
  | .str text => !text.isEmpty
  | .bool b => b
  | .ref _ => true
  | .undefined => false
  | .inherited _ => true

/-- The text of a value inside a template literal or as a property key. -/
def Value.text : Value → String
  | .str text => text
  | .bool true => "true"
  | .bool false => "false"
  | .ref _ => "[object Object]"
  | .undefined => "undefined"
  | .inherited name => prototypeMemberText name

/-- How a run ends: with a value and the heap it leaves, or with a thrown error. -/
abbrev Run (α : Type) := Except String (α × Heap)

/-- Sequencing of runs: the next step sees the value and the heap of the step
before, and a thrown error ends the run. -/
def Run.bind {α β : Type} (r : Run α) (next : α → Heap → Run β) : Run β :=
  match r with
  | .ok (value, heap) => next value heap
  | .error e => .error e

/-- An object literal: the object is created at the next free address. -/
def newObject (o : Obj) (heap : Heap) : Run Value :=
  .ok (.ref heap.length, heap ++ [o])

/-- The property read `target[key]`.  Reading a property of `undefined` throws;
a string, a boolean and a function have none of the properties read here. -/
def readProperty (target : Value) (key : String) (heap : Heap) : Run Value :=
  match target with
  | .ref address =>
    match heap[address]? with
    | some o => .ok (o.read key, heap)
    | none => .error "ReferenceError: no object at the address"
  | .undefined => .error "TypeError: Cannot read properties of undefined"
  | _ => .ok (.undefined, heap)

/-- The assignment `target[key] = value`.  The class body is strict code, so an
assignment to a property of a value that is not an object throws. -/
def writeProperty (target : Value) (key : String) (value : Value) (heap : Heap) : Run Unit :=
  match target with
  | .ref address =>
    match heap[address]? with
    | some o => .ok ((), heap.set address (o.assign key value))
    | none => .error "ReferenceError: no object at the address"
  | _ => .error "TypeError: Cannot create property on a value that is not an object"

/-- The expression `this.answers[field]`. -/
def readAnswer (this : Value) (field : String) (heap : Heap) : Run Value :=
  (readProperty this "answers" heap).bind fun answers heap => readProperty answers field heap

/-- The statement `base[field][key] = version`. -/
def assignIn (base : Value) (field key version : String) (heap : Heap) : Run Unit :=
  (readProperty base field heap).bind fun inner heap => writeProperty inner key (.str version) heap

/-- The object that `inquirer.prompt` resolves with for the record: the six
unconditional answers, then the conditional answers that were given. -/
def Answers.toObj (a : Answers) : Obj :=
  [ ("uiType", .str a.uiType), ("colorTheme", .str a.colorTheme),
    ("designStyle", .str a.designStyle), ("frontendFramework", .str a.frontendFramework),
    ("cssFramework", .str a.cssFramework), ("projectName", .str a.projectName) ]
  ++ (match a.includeRouter with
      | some b => [("includeRouter", .bool b)]
      | none => [])
  ++ (match a.includeStateManagement with
      | some b => [("includeStateManagement", .bool b)]
      | none => [])
  ++ (match a.stateManager with
      | some s => [("stateManager", .str s)]
      | none => [])

/-- The block `// Add CSS framework dependencies` of `getReactPackageJson`. -/
def OnHeap.reactCssFramework (this base : Value) (heap : Heap) : Run Unit :=
  (readAnswer this "cssFramework" heap).bind fun css heap =>
  if css = .str "tailwind" then
    (assignIn base "dependencies" "tailwindcss" "^3.3.0" heap).bind fun _ heap =>
    (newObject [("autoprefixer", .str "^10.4.14"), ("postcss", .str "^8.4.24")] heap).bind
      fun devDependencies heap =>
    writeProperty base "devDependencies" devDependencies heap
  else
  (readAnswer this "cssFramework" heap).bind fun css heap =>
  if css = .str "bootstrap" then
    assignIn base "dependencies" "bootstrap" "^5.3.0" heap
  else
  (readAnswer this "cssFramework" heap).bind fun css heap =>
  if css = .str "mui" then
    (assignIn base "dependencies" "@mui/material" "^5.13.0" heap).bind fun _ heap =>
    (assignIn base "dependencies" "@emotion/react" "^11.11.0" heap).bind fun _ heap =>
    assignIn base "dependencies" "@emotion/styled" "^11.11.0" heap
  else
  (readAnswer this "cssFramework" heap).bind fun css heap =>
  if css = .str "chakra" then
    (assignIn base "dependencies" "@chakra-ui/react" "^2.7.0" heap).bind fun _ heap =>
    (assignIn base "dependencies" "@emotion/react" "^11.11.0" heap).bind fun _ heap =>
    (assignIn base "dependencies" "@emotion/styled" "^11.11.0" heap).bind fun _ heap =>
    assignIn base "dependencies" "framer-motion" "^10.12.0" heap
  else .ok ((), heap)

/-- The block `// Add routing` of `getReactPackageJson`. -/
def OnHeap.reactRouting (this base : Value) (heap : Heap) : Run Unit :=
  (readAnswer this "includeRouter" heap).bind fun includeRouter heap =>
  if includeRouter.truthy then
    assignIn base "dependencies" "react-router-dom" "^6.11.0" heap
  else .ok ((), heap)

/-- The block `// Add state management` of `getReactPackageJson`. -/
def OnHeap.reactStateManagement (this base : Value) (heap : Heap) : Run Unit :=
  (readAnswer this "includeStateManagement" heap).bind fun includeStateManagement heap =>
  if includeStateManagement.truthy then
    (readAnswer this "stateManager" heap).bind fun stateManager heap =>
    if stateManager = .str "redux" then
      (assignIn base "dependencies" "@reduxjs/toolkit" "^1.9.0" heap).bind fun _ heap =>
      assignIn base "dependencies" "react-redux" "^8.1.0" heap
    else
    (readAnswer this "stateManager" heap).bind fun stateManager heap =>
    if stateManager = .str "zustand" then
      assignIn base "dependencies" "zustand" "^4.3.0" heap
    else
    (readAnswer this "stateManager" heap).bind fun stateManager heap =>
    if stateManager = .str "recoil" then
      assignIn base "dependencies" "recoil" "^0.7.0" heap
    else .ok ((), heap)
  else .ok ((), heap)

/-- The method `getReactPackageJson`, statement by statement. -/
def OnHeap.getReactPackageJson (this : Value) (heap : Heap) : Run Value :=
  (readAnswer this "projectName" heap).bind fun projectName heap =>
  (newObject
      [ ("start", .str "react-scripts start"), ("build", .str "react-scripts build"),
        ("test", .str "react-scripts test"), ("eject", .str "react-scripts eject") ]
      heap).bind fun scripts heap =>
  (newObject
      [ ("react", .str "^18.2.0"), ("react-dom", .str "^18.2.0"),
        ("react-scripts", .str "5.0.1") ]
      heap).bind fun dependencies heap =>
  (newObject
      [ ("name", projectName), ("version", .str "0.1.0"), ("private", .bool true),
        ("scripts", scripts), ("dependencies", dependencies) ]
      heap).bind fun base heap =>
  (OnHeap.reactCssFramework this base heap).bind fun _ heap =>
  (OnHeap.reactRouting this base heap).bind fun _ heap =>
  (OnHeap.reactStateManagement this base heap).bind fun _ heap =>
  .ok (base, heap)

/-- The properties of an object all of whose values are strings. -/
def readProps : Obj → Option Props
  | [] => some []
  | (key, .str text) :: rest => (readProps rest).map fun props => (key, text) :: props
  | _ :: _ => none

/-- The field a property of a manifest object holds: a string or a boolean as it
is, a nested object by its properties. -/
def readField (heap : Heap) : Value → Option Field
  | .str text => some (.str text)
  | .bool b => some (.bool b)
  | .ref inner =>
    match heap[inner]? with
    | some props => (readProps props).map Field.obj
    | none => none
  | _ => none

/-- The fields of a manifest object. -/
def readFields (heap : Heap) : Obj → Option Manifest
  | [] => some []
  | (key, value) :: rest =>
    match readField heap value, readFields heap rest with
    | some field, some fields => some ((key, field) :: fields)
    | _, _ => none

/-- The manifest held by the object a value refers to. -/
def readManifest (heap : Heap) (value : Value) : Option Manifest :=
  match value with
  | .ref address =>
    match heap[address]? with
    | some o => readFields heap o
    | none => none
  | _ => none

/-- The address of the object created as number `i` after the objects of `heap`. -/
def fresh (heap : Heap) (i : Nat) : Nat :=
  heap.length + i

/-- The builder is the object at `this`, its field `answers` refers to the object
at `record`, and that object holds the answers of `a`. -/
def HoldsRecord (heap : Heap) (this record : Nat) (a : Answers) : Prop :=
  (∃ builder, heap[this]? = some builder ∧ builder.read "answers" = .ref record) ∧
    heap[record]? = some a.toObj

/-- What a run of a manifest method has to deliver: the object it returns holds
the manifest, and the heap it leaves is the heap it found followed by the objects
it created. -/
def Delivers (heap : Heap) (manifest : Manifest) : Run Value → Prop
  | .ok (value, after) =>
    (∃ created, after = heap ++ created) ∧ readManifest after value = some manifest
  | .error _ => False


/-- The block `// Add CSS framework dependencies` of `getVuePackageJson`. -/
def OnHeap.vueCssFramework (this base : Value) (heap : Heap) : Run Unit :=
  (readAnswer this "cssFramework" heap).bind fun css heap =>
  if css = .str "tailwind" then
    (assignIn base "devDependencies" "tailwindcss" "^3.3.0" heap).bind fun _ heap =>
    (assignIn base "devDependencies" "autoprefixer" "^10.4.14" heap).bind fun _ heap =>
    assignIn base "devDependencies" "postcss" "^8.4.24" heap
  else
  (readAnswer this "cssFramework" heap).bind fun css heap =>
  if css = .str "bootstrap" then
    assignIn base "dependencies" "bootstrap" "^5.3.0" heap
  else .ok ((), heap)

/-- The block `// Add routing` of `getVuePackageJson`. -/
def OnHeap.vueRouting (this base : Value) (heap : Heap) : Run Unit :=
  (readAnswer this "includeRouter" heap).bind fun includeRouter heap =>
  if includeRouter.truthy then
    assignIn base "dependencies" "vue-router" "^4.2.0" heap
  else .ok ((), heap)

/-- The block `// Add state management` of `getVuePackageJson`. -/
def OnHeap.vueStateManagement (this base : Value) (heap : Heap) : Run Unit :=
  (readAnswer this "includeStateManagement" heap).bind fun includeStateManagement heap =>
  if includeStateManagement.truthy then
    assignIn base "dependencies" "pinia" "^2.1.0" heap
  else .ok ((), heap)

/-- The method `getVuePackageJson`, statement by statement. -/
def OnHeap.getVuePackageJson (this : Value) (heap : Heap) : Run Value :=
  (readAnswer this "projectName" heap).bind fun projectName heap =>
  (newObject
      [ ("dev", .str "vite"), ("build", .str "vite build"), ("preview", .str "vite preview") ]
      heap).bind fun scripts heap =>
  (newObject [("vue", .str "^3.3.0")] heap).bind fun dependencies heap =>
  (newObject [("@vitejs/plugin-vue", .str "^4.2.0"), ("vite", .str "^4.3.0")] heap).bind
    fun devDependencies heap =>
  (newObject
      [ ("name", projectName), ("version", .str "0.0.0"), ("private", .bool true),
        ("scripts", scripts), ("dependencies", dependencies),
        ("devDependencies", devDependencies) ]
      heap).bind fun base heap =>
  (OnHeap.vueCssFramework this base heap).bind fun _ heap =>
  (OnHeap.vueRouting this base heap).bind fun _ heap =>
  (OnHeap.vueStateManagement this base heap).bind fun _ heap =>
  .ok (base, heap)

/-- The method `getSveltePackageJson`: one object literal, whose `dependencies`
are one of two object literals. -/
def OnHeap.getSveltePackageJson (this : Value) (heap : Heap) : Run Value :=
  (readAnswer this "projectName" heap).bind fun projectName heap =>
  (newObject
      [ ("build", .str "vite build"), ("dev", .str "vite dev"),
        ("preview", .str "vite preview") ]
      heap).bind fun scripts heap =>
  (newObject
      [ ("@sveltejs/adapter-auto", .str "^2.0.0"), ("@sveltejs/kit", .str "^1.20.4"),
        ("svelte", .str "^4.0.5"), ("vite", .str "^4.4.2") ]
      heap).bind fun devDependencies heap =>
  (readAnswer this "cssFramework" heap).bind fun css heap =>
  (if css = .str "tailwind" then
      newObject
        [ ("tailwindcss", .str "^3.3.0"), ("autoprefixer", .str "^10.4.14"),
          ("postcss", .str "^8.4.24") ]
        heap
    else newObject [] heap).bind fun dependencies heap =>
  newObject
    [ ("name", projectName), ("version", .str "0.0.1"), ("private", .bool true),
      ("scripts", scripts), ("devDependencies", devDependencies),
      ("dependencies", dependencies) ]
    heap

/-- The method `getReactImports`; the local variable `imports` is a value of the
run, not an object of the heap. -/
def OnHeap.getReactImports (this : Value) (heap : Heap) : Run Value :=
  (readAnswer this "includeRouter" heap).bind fun includeRouter heap =>
  let imports :=
    if includeRouter.truthy then
      "import React from \x27react\x27;\nimport \x27./App.css\x27;" ++
        "\nimport \x7b BrowserRouter as Router, Routes, Route \x7d from \x27react-router-dom\x27;"
    else "import React from \x27react\x27;\nimport \x27./App.css\x27;"
  (readAnswer this "cssFramework" heap).bind fun css heap =>
  if css = .str "mui" then
    .ok (.str (imports ++
      "\nimport \x7b ThemeProvider, createTheme, CssBaseline \x7d from \x27@mui/material\x27;"),
      heap)
  else
  (readAnswer this "cssFramework" heap).bind fun css heap =>
  if css = .str "chakra" then
    .ok (.str (imports ++
      "\nimport \x7b ChakraProvider \x7d from \x27@chakra-ui/react\x27;"), heap)
  else .ok (.str imports, heap)

/-- An object literal all of whose properties are strings. -/
def textObject (table : List (String × String)) : Obj :=
  table.map fun p => (p.1, Value.str p.2)

/-- The method `getUIContent`: the object `templates` is created, then read under
the key `uiType`, and under `custom` when that value is falsy. -/
def OnHeap.getUIContent (this : Value) (framework : String) (heap : Heap) : Run Value :=
  (newObject (textObject (uiTemplates framework)) heap).bind fun templates heap =>
  (readAnswer this "uiType" heap).bind fun uiType heap =>
  (readProperty templates uiType.text heap).bind fun chosen heap =>
  if chosen.truthy then .ok (chosen, heap) else readProperty templates "custom" heap

/-- The method `getReactAppComponent`. -/
def OnHeap.getReactAppComponent (this : Value) (heap : Heap) : Run Value :=
  (OnHeap.getReactImports this heap).bind fun imports heap =>
  (OnHeap.getUIContent this "react" heap).bind fun content heap =>
  .ok (.str (reactAppTemplate imports.text content.text), heap)

/-- The method `getColorVariables`: the object `themes` is created and read under
the key `colorTheme`. -/
def OnHeap.getColorVariables (this : Value) (heap : Heap) : Run Value :=
  (newObject (textObject colorThemes) heap).bind fun themes heap =>
  (readAnswer this "colorTheme" heap).bind fun colorTheme heap =>
  (readProperty themes colorTheme.text heap).bind fun fragment heap =>
  .ok (.str (":root \x7b" ++ fragment.text ++ "\n\x7d"), heap)

/-- The method `getMainStyles`. -/
def OnHeap.getMainStyles (this : Value) (heap : Heap) : Run Value :=
  (OnHeap.getColorVariables this heap).bind fun colorVars heap =>
  .ok (.str (colorVars.text ++ "\n\n" ++ getBaseStyles ++ "\n\n" ++ getComponentStyles), heap)

/-- The method `getVanillaIndexHtml`. -/
def OnHeap.getVanillaIndexHtml (this : Value) (heap : Heap) : Run Value :=
  (OnHeap.getUIContent this "vanilla" heap).bind fun content heap =>
  (readAnswer this "projectName" heap).bind fun projectName heap =>
  .ok (.str (vanillaIndexTemplate projectName.text content.text), heap)

/-- What a run of a text method has to deliver: the text, and a heap that is the
heap it found followed by the objects it created. -/
def DeliversText (heap : Heap) (text : String) (run : Run Value) : Prop :=
  ∃ created, run = .ok (.str text, heap ++ created)

/-- Every object of the earlier heap is in the later heap, at its address and with
the properties it had. -/
def Keeps (before after : Heap) : Prop :=
  ∀ (address : Nat) (o : Obj), before[address]? = some o → after[address]? = some o

/-- Two calls in a row of a method that returns a manifest object: both return,
each keeps every object it found, and the returned objects hold the manifest, the
first one also after the second call. -/
def TwiceManifest (heap : Heap) (this : Value) (method : Value → Heap → Run Value)
    (manifest : Manifest) : Prop :=
  ∃ first after second last,
    method this heap = .ok (first, after) ∧ method this after = .ok (second, last) ∧
    Keeps heap after ∧ Keeps after last ∧
    readManifest after first = some manifest ∧
    readManifest last first = some manifest ∧
    readManifest last second = some manifest

/-- Two calls in a row of a method that returns a text: both return the text, and
each keeps every object it found. -/
def TwiceText (heap : Heap) (this : Value) (method : Value → Heap → Run Value)
    (text : String) : Prop :=
  ∃ after last,
    method this heap = .ok (.str text, after) ∧ method this after = .ok (.str text, last) ∧
    Keeps heap after ∧ Keeps after last

/-- A heap with a builder and the record of `reactWithRedux`. -/
def demoHeap : Heap :=
  [ [("answers", .ref 1), ("projectPath", .undefined)], reactWithRedux.toObj ]

/-! ## Package manifests -/

theorem hasKey_setProp (o : Props) (k v k' : String) :
    hasKey (setProp o k v) k' = (hasKey o k' || k == k') := by
  induction o with
  | nil => simp [setProp, hasKey]
  | cons p rest ih =>
    obtain ⟨k0, v0⟩ := p
    unfold setProp
    by_cases h : k0 = k
    · subst h
      simp [hasKey]
      by_cases h2 : k0 = k' <;> simp [h2]
    · have ih2 : (setProp rest k v).any (fun p => p.1 == k') = (rest.any (fun p => p.1 == k') || k == k') := ih
      simp [hasKey, h, ih2, Bool.or_assoc]

theorem getObj_setIn_same (m : Manifest) (f k v : String) :
    getObj (setIn m f k v) f = if isObj m f then setProp (getObj m f) k v else getObj m f := by
  induction m with
  | nil => simp [setIn, getObj, isObj]
  | cons p rest ih =>
    obtain ⟨k0, v0⟩ := p
    by_cases h : k0 = f
    · subst h
      cases v0 <;> simp [setIn, getObj, isObj]
    · simp [setIn, getObj, isObj, h, ih]

theorem getObj_setIn_other (m : Manifest) (f g k v : String) (h : f ≠ g) :
    getObj (setIn m f k v) g = getObj m g := by
  induction m with
  | nil => simp [setIn, getObj]
  | cons p rest ih =>
    obtain ⟨k0, v0⟩ := p
    by_cases h1 : k0 = f
    · subst h1
      cases v0 <;> simp [setIn, getObj, h]
    · by_cases h2 : k0 = g
      · subst h2
        simp [setIn, getObj, h1]
      · simp [setIn, getObj, h1, h2, ih]

theorem isObj_setIn (m : Manifest) (f g k v : String) :
    isObj (setIn m f k v) g = isObj m g := by
  induction m with
  | nil => simp [setIn, isObj]
  | cons p rest ih =>
    obtain ⟨k0, v0⟩ := p
    by_cases h1 : k0 = f
    · subst h1
      by_cases h2 : k0 = g <;> cases v0 <;> simp [setIn, isObj, h2]
    · by_cases h2 : k0 = g
      · subst h2
        simp [setIn, isObj, h1]
      · simp [setIn, isObj, h1, h2, ih]

theorem getObj_setField_other (m : Manifest) (f g : String) (x : Field) (h : f ≠ g) :
    getObj (setField m f x) g = getObj m g := by
  induction m with
  | nil => simp [setField, getObj, h]
  | cons p rest ih =>
    obtain ⟨k0, v0⟩ := p
    by_cases h1 : k0 = f
    · subst h1
      simp [setField, getObj, h]
    · by_cases h2 : k0 = g
      · subst h2
        simp [setField, getObj, h1]
      · simp [setField, getObj, h1, h2, ih]

theorem isObj_setField_other (m : Manifest) (f g : String) (x : Field) (h : f ≠ g) :
    isObj (setField m f x) g = isObj m g := by
  induction m with
  | nil => simp [setField, isObj, h]
  | cons p rest ih =>
    obtain ⟨k0, v0⟩ := p
    by_cases h1 : k0 = f
    · subst h1
      simp [setField, isObj, h]
    · by_cases h2 : k0 = g
      · subst h2
        simp [setField, isObj, h1]
      · simp [setField, isObj, h1, h2, ih]



theorem hasKey_nil (k : String) : hasKey [] k = false := rfl

theorem hasKey_cons (k0 v0 : String) (o : Props) (k : String) :
    hasKey ((k0, v0) :: o) k = (k0 == k || hasKey o k) := rfl

theorem beq_eq_decide_symm (s k : String) : (s == k) = decide (k = s) := by
  by_cases h : k = s
  · subst h; simp
  · have h2 : ¬ s = k := fun e => h e.symm
    simp [h, h2]

theorem dependencies_setIn (m : Manifest) (k v : String)
    (h : isObj m "dependencies" = true) :
    dependencies (setIn m "dependencies" k v) = setProp (dependencies m) k v := by
  simp [dependencies, getObj_setIn_same, h]

theorem devDependencies_setIn_dependencies (m : Manifest) (k v : String) :
    devDependencies (setIn m "dependencies" k v) = devDependencies m := by
  simp [devDependencies, getObj_setIn_other]

theorem isObj_reactCss (a : Answers) :
    isObj (reactCssFramework a (reactBase a)) "dependencies" = true := by
  unfold reactCssFramework
  split_ifs <;> simp [isObj_setIn, isObj_setField_other, reactBase, isObj]

theorem isObj_reactRouting (a : Answers) (m : Manifest) (f : String) :
    isObj (reactRouting a m) f = isObj m f := by
  unfold reactRouting
  split_ifs <;> simp [isObj_setIn]

theorem dependencies_reactRouting (a : Answers) (m : Manifest) (k : String)
    (h : isObj m "dependencies" = true) :
    hasKey (dependencies (reactRouting a m)) k =
      (hasKey (dependencies m) k || (truthy a.includeRouter && "react-router-dom" == k)) := by
  unfold reactRouting
  split_ifs with h1 <;> simp [dependencies_setIn, h, hasKey_setProp, h1]

theorem devDependencies_reactRouting (a : Answers) (m : Manifest) :
    devDependencies (reactRouting a m) = devDependencies m := by
  unfold reactRouting
  split_ifs <;> simp [devDependencies_setIn_dependencies]

theorem devDependencies_reactStateManagement (a : Answers) (m : Manifest) :
    devDependencies (reactStateManagement a m) = devDependencies m := by
  unfold reactStateManagement
  split_ifs <;> simp [devDependencies_setIn_dependencies]

theorem dependencies_reactStateManagement (a : Answers) (m : Manifest) (k : String)
    (h : isObj m "dependencies" = true) :
    hasKey (dependencies (reactStateManagement a m)) k =
      (hasKey (dependencies m) k || (reactStateKeys a).contains k) := by
  unfold reactStateManagement reactStateKeys
  split_ifs with h1 h2 h3 h4 <;>
    simp [dependencies_setIn, h, hasKey_setProp, isObj_setIn, Bool.or_assoc, beq_eq_decide_symm]

theorem reactCss_keys (a : Answers) (k : String)
    (hk : k ∉ ["react", "react-dom", "react-scripts", "tailwindcss", "bootstrap", "@mui/material",
      "@emotion/react", "@emotion/styled", "@chakra-ui/react", "framer-motion", "autoprefixer",
      "postcss"]) :
    manifestHasDependency (reactCssFramework a (reactBase a)) k = false := by
  simp at hk
  unfold reactCssFramework manifestHasDependency
  split_ifs <;>
    simp [dependencies, devDependencies, reactBase, setIn, setField, setProp, getObj,
      hasKey_cons, hasKey_nil, hk, beq_eq_decide_symm]

theorem isObj_vueCss (a : Answers) (f : String) :
    isObj (vueCssFramework a (vueBase a)) f = isObj (vueBase a) f := by
  unfold vueCssFramework
  split_ifs <;> simp [isObj_setIn]

theorem isObj_vueBase_dependencies (a : Answers) :
    isObj (vueBase a) "dependencies" = true := by
  simp [vueBase, isObj]

theorem vueCss_keys (a : Answers) (k : String)
    (hk : k ∉ ["vue", "tailwindcss", "bootstrap", "autoprefixer", "postcss",
      "@vitejs/plugin-vue", "vite"]) :
    manifestHasDependency (vueCssFramework a (vueBase a)) k = false := by
  simp at hk
  unfold vueCssFramework manifestHasDependency
  split_ifs <;>
    simp [dependencies, devDependencies, vueBase, setIn, setField, setProp, getObj,
      hasKey_cons, hasKey_nil, hk, beq_eq_decide_symm]

theorem isObj_vueRouting (a : Answers) (m : Manifest) (f : String) :
    isObj (vueRouting a m) f = isObj m f := by
  unfold vueRouting
  split_ifs <;> simp [isObj_setIn]

theorem dependencies_vueRouting (a : Answers) (m : Manifest) (k : String)
    (h : isObj m "dependencies" = true) :
    hasKey (dependencies (vueRouting a m)) k =
      (hasKey (dependencies m) k || (truthy a.includeRouter && "vue-router" == k)) := by
  unfold vueRouting
  split_ifs with h1 <;> simp [dependencies_setIn, h, hasKey_setProp, h1]

theorem devDependencies_vueRouting (a : Answers) (m : Manifest) :
    devDependencies (vueRouting a m) = devDependencies m := by
  unfold vueRouting
  split_ifs <;> simp [devDependencies_setIn_dependencies]

theorem dependencies_vueStateManagement (a : Answers) (m : Manifest) (k : String)
    (h : isObj m "dependencies" = true) :
    hasKey (dependencies (vueStateManagement a m)) k =
      (hasKey (dependencies m) k || (truthy a.includeStateManagement && "pinia" == k)) := by
  unfold vueStateManagement
  split_ifs with h1 <;> simp [dependencies_setIn, h, hasKey_setProp, h1]

theorem devDependencies_vueStateManagement (a : Answers) (m : Manifest) :
    devDependencies (vueStateManagement a m) = devDependencies m := by
  unfold vueStateManagement
  split_ifs <;> simp [devDependencies_setIn_dependencies]

/-- Closed form of the lookup of `k` in the React manifest. -/
theorem react_manifestHasDependency (a : Answers) (k : String) :
    manifestHasDependency (getReactPackageJson a) k =
      (manifestHasDependency (reactCssFramework a (reactBase a)) k ||
        (truthy a.includeRouter && "react-router-dom" == k) ||
        (reactStateKeys a).contains k) := by
  unfold manifestHasDependency getReactPackageJson
  rw [devDependencies_reactStateManagement, devDependencies_reactRouting,
    dependencies_reactStateManagement _ _ _ (by rw [isObj_reactRouting]; exact isObj_reactCss a),
    dependencies_reactRouting _ _ _ (isObj_reactCss a)]
  cases hasKey (dependencies (reactCssFramework a (reactBase a))) k <;>
  cases hasKey (devDependencies (reactCssFramework a (reactBase a))) k <;>
  cases (truthy a.includeRouter && "react-router-dom" == k) <;>
  cases (reactStateKeys a).contains k <;> rfl

/-- Closed form of the lookup of `k` in the Vue manifest. -/
theorem vue_manifestHasDependency (a : Answers) (k : String) :
    manifestHasDependency (getVuePackageJson a) k =
      (manifestHasDependency (vueCssFramework a (vueBase a)) k ||
        (truthy a.includeRouter && "vue-router" == k) ||
        (truthy a.includeStateManagement && "pinia" == k)) := by
  have h0 : isObj (vueCssFramework a (vueBase a)) "dependencies" = true := by
    rw [isObj_vueCss]; exact isObj_vueBase_dependencies a
  unfold manifestHasDependency getVuePackageJson
  rw [devDependencies_vueStateManagement, devDependencies_vueRouting,
    dependencies_vueStateManagement _ _ _ (by rw [isObj_vueRouting]; exact h0),
    dependencies_vueRouting _ _ _ h0]
  cases hasKey (dependencies (vueCssFramework a (vueBase a))) k <;>
  cases hasKey (devDependencies (vueCssFramework a (vueBase a))) k <;>
  cases (truthy a.includeRouter && "vue-router" == k) <;>
  cases (truthy a.includeStateManagement && "pinia" == k) <;> rfl

theorem truthy_eq_true_iff (b : Option Bool) : truthy b = true ↔ b = some true := by
  cases b with
  | none => simp [truthy]
  | some v => cases v <;> simp [truthy]

/-- The React manifest lists `react-router-dom` and the Vue manifest lists
`vue-router` exactly when `includeRouter` is true, and the Svelte manifest does
not depend on `includeRouter` at all. -/
theorem routing_dependency_iff_includeRouter (a : Answers) :
    (manifestHasDependency (getReactPackageJson a) "react-router-dom" = true ↔
        a.includeRouter = some true) ∧
    (manifestHasDependency (getVuePackageJson a) "vue-router" = true ↔
        a.includeRouter = some true) ∧
    (∀ b : Option Bool,
        getSveltePackageJson { a with includeRouter := b } = getSveltePackageJson a) := by
  refine ⟨?_, ?_, fun b => rfl⟩
  · have hs : (reactStateKeys a).contains "react-router-dom" = false := by
      unfold reactStateKeys
      split_ifs <;> simp
    rw [react_manifestHasDependency, reactCss_keys a _ (by decide), hs, ← truthy_eq_true_iff]
    simp
  · rw [vue_manifestHasDependency, vueCss_keys a _ (by decide), ← truthy_eq_true_iff]
    simp


/-- C1: the wizard puts the routing question to a user who picked Svelte and stores
the answer, and `getSveltePackageJson` never reads it.  The record the wizard
builds from such replies has `includeRouter` true, and its manifest has an empty
`dependencies` object and the four fixed development packages: the same manifest as
with `includeRouter` false, while the same replies with React or Vue as framework
give a manifest that lists the routing package.  For every record the Svelte
manifest is the same whatever `includeRouter` holds, its `devDependencies` are the
four fixed packages and its `dependencies` are empty or the three Tailwind
packages. -/
theorem svelte_manifest_has_no_routing_dependency :
    collectAnswers svelteRouterReplies = svelteWithRouter ∧
    svelteWithRouter.frontendFramework = "svelte" ∧
    svelteWithRouter.includeRouter = some true ∧
    dependencies (getSveltePackageJson svelteWithRouter) = [] ∧
    devDependencies (getSveltePackageJson svelteWithRouter) =
      [ ("@sveltejs/adapter-auto", "^2.0.0"), ("@sveltejs/kit", "^1.20.4"),
        ("svelte", "^4.0.5"), ("vite", "^4.4.2") ] ∧
    getSveltePackageJson svelteWithRouter =
      getSveltePackageJson { svelteWithRouter with includeRouter := some false } ∧
    manifestHasDependency
      (getReactPackageJson
        (collectAnswers { svelteRouterReplies with frontendFramework := "react" }))
      "react-router-dom" = true ∧
    manifestHasDependency
      (getVuePackageJson
        (collectAnswers { svelteRouterReplies with frontendFramework := "vue" }))
      "vue-router" = true ∧
    (∀ (a : Answers) (b : Option Bool),
      getSveltePackageJson { a with includeRouter := b } = getSveltePackageJson a ∧
      devDependencies (getSveltePackageJson a) =
        [ ("@sveltejs/adapter-auto", "^2.0.0"), ("@sveltejs/kit", "^1.20.4"),
          ("svelte", "^4.0.5"), ("vite", "^4.4.2") ] ∧
      (dependencies (getSveltePackageJson a) = [] ∨
        dependencies (getSveltePackageJson a) =
          [ ("tailwindcss", "^3.3.0"), ("autoprefixer", "^10.4.14"),
            ("postcss", "^8.4.24") ])) := by
  refine ⟨by decide, rfl, rfl, by decide, by decide, by decide, by decide, by decide, ?_⟩
  intro a b
  refine ⟨rfl, ?_, ?_⟩
  · simp [getSveltePackageJson, devDependencies, getObj]
  · unfold getSveltePackageJson
    split_ifs
    · right; simp [dependencies, getObj]
    · left; simp [dependencies, getObj]

theorem react_prestate_key (a : Answers) (k : String) (hk : k ∈ stateManagementPackages) :
    hasKey (dependencies (reactRouting a (reactCssFramework a (reactBase a)))) k = false := by
  have h0 : manifestHasDependency (reactCssFramework a (reactBase a)) k = false := by
    apply reactCss_keys
    simp [stateManagementPackages] at hk
    rcases hk with h | h | h | h | h | h | h <;> subst h <;> decide
  have h1 : ("react-router-dom" == k) = false := by
    simp [stateManagementPackages] at hk
    rcases hk with h | h | h | h | h | h | h <;> subst h <;> decide
  unfold manifestHasDependency at h0
  simp only [Bool.or_eq_false_iff] at h0
  rw [dependencies_reactRouting _ _ _ (isObj_reactCss a), h0.1, h1]
  simp

/-- Which records make the manifests list a state-management package. -/
theorem hasStateManagementDependency_iff (a : Answers) :
    (hasStateManagementDependency (getReactPackageJson a) = true ↔
        a.includeStateManagement = some true ∧
          (a.stateManager = some "redux" ∨ a.stateManager = some "zustand" ∨
            a.stateManager = some "recoil")) ∧
    (hasStateManagementDependency (getVuePackageJson a) = true ↔
        a.includeStateManagement = some true) := by
  constructor
  · unfold hasStateManagementDependency stateManagementPackages
    simp only [List.any_cons, List.any_nil, react_manifestHasDependency]
    rw [reactCss_keys a _ (by decide), reactCss_keys a _ (by decide),
      reactCss_keys a _ (by decide), reactCss_keys a _ (by decide),
      reactCss_keys a _ (by decide), reactCss_keys a _ (by decide),
      reactCss_keys a _ (by decide)]
    rw [← truthy_eq_true_iff]
    unfold reactStateKeys
    split_ifs with h1 h2 h3 h4 <;> simp_all
  · unfold hasStateManagementDependency stateManagementPackages
    simp only [List.any_cons, List.any_nil, vue_manifestHasDependency]
    rw [vueCss_keys a _ (by decide), vueCss_keys a _ (by decide),
      vueCss_keys a _ (by decide), vueCss_keys a _ (by decide),
      vueCss_keys a _ (by decide), vueCss_keys a _ (by decide),
      vueCss_keys a _ (by decide)]
    rw [← truthy_eq_true_iff]
    simp


/-- The Vue manifest lists a state-management package exactly when
`includeStateManagement` is true, whatever the sub-choice; the React manifest lists
none when `includeStateManagement` is not true, and lists one when it is true and
`stateManager` is `redux`, `zustand` or `recoil`. -/
theorem state_management_dependency (a : Answers) :
    (hasStateManagementDependency (getVuePackageJson a) = true ↔
        a.includeStateManagement = some true) ∧
    (a.includeStateManagement ≠ some true →
        hasStateManagementDependency (getReactPackageJson a) = false) ∧
    (a.includeStateManagement = some true →
      (a.stateManager = some "redux" ∨ a.stateManager = some "zustand" ∨
        a.stateManager = some "recoil") →
        hasStateManagementDependency (getReactPackageJson a) = true) := by
  have h := hasStateManagementDependency_iff a
  refine ⟨h.2, fun hn => ?_, fun hs hm => h.1.mpr ⟨hs, hm⟩⟩
  cases hd : hasStateManagementDependency (getReactPackageJson a)
  · rfl
  · exact absurd (h.1.mp hd).1 hn

/-- The React record with the `redux` choice, and the same record with the flag
turned off. -/
theorem state_management_dependency_witness :
    reactWithRedux.includeStateManagement = some true ∧
    reactWithRedux.stateManager = some "redux" ∧
    hasStateManagementDependency (getReactPackageJson reactWithRedux) = true ∧
    hasStateManagementDependency
      (getReactPackageJson { reactWithRedux with includeStateManagement := some false }) =
        false :=
  ⟨rfl, rfl,
    (state_management_dependency reactWithRedux).2.2 rfl (Or.inl rfl),
    (state_management_dependency
      { reactWithRedux with includeStateManagement := some false }).2.1 (by decide)⟩

/-- C2: the state-management question offers four libraries to every user who
asked for state management, and `getReactPackageJson` has a branch for three of
them.  The record the wizard builds from the replies of a React user who picks
`Vuex/Pinia` has `includeStateManagement` true and `stateManager` `vuex`, and its
manifest lists no state-management package: it is the manifest of the same record
with the flag false, while the same replies with Vue as framework give a manifest
that lists one.  The same holds for every record with the flag true and the choice
`vuex`. -/
theorem react_vuex_adds_no_state_management :
    collectAnswers reactVuexReplies = reactWithVuex ∧
    reactWithVuex.includeStateManagement = some true ∧
    reactWithVuex.stateManager = some "vuex" ∧
    stateManagerChoices.contains "vuex" = true ∧
    hasStateManagementDependency (getReactPackageJson reactWithVuex) = false ∧
    getReactPackageJson reactWithVuex =
      getReactPackageJson { reactWithVuex with includeStateManagement := some false } ∧
    hasStateManagementDependency
      (getVuePackageJson (collectAnswers { reactVuexReplies with frontendFramework := "vue" }))
        = true ∧
    (∀ a : Answers,
      hasStateManagementDependency
        (getReactPackageJson
          { a with includeStateManagement := some true, stateManager := some "vuex" })
        = false) := by
  refine ⟨by decide, rfl, rfl, by decide, by decide, by decide, by decide, ?_⟩
  intro a
  cases h : hasStateManagementDependency
      (getReactPackageJson
        { a with includeStateManagement := some true, stateManager := some "vuex" })
  · rfl
  · have h2 := ((hasStateManagementDependency_iff _).1.mp h).2
    simp at h2

theorem setProp_of_not_hasKey (o : Props) (k v : String) (h : hasKey o k = false) :
    setProp o k v = o ++ [(k, v)] := by
  induction o with
  | nil => rfl
  | cons p rest ih =>
    obtain ⟨k0, v0⟩ := p
    rw [hasKey_cons] at h
    simp only [Bool.or_eq_false_iff] at h
    simp [setProp, h.1, ih h.2]

theorem stateManagementEntries_eq_nil (o : Props)
    (h : ∀ k ∈ stateManagementPackages, hasKey o k = false) :
    stateManagementEntries o = [] := by
  unfold stateManagementEntries
  rw [List.filter_eq_nil_iff]
  intro p hp hc
  have hk : p.1 ∈ stateManagementPackages := by simpa using hc
  have := h p.1 hk
  unfold hasKey at this
  rw [List.any_eq_false] at this
  exact this p hp (by simp)

/-- C3 (amended): with `includeStateManagement` true and `stateManager` equal to
`redux`, the state-management entries of the React manifest are exactly
`@reduxjs/toolkit` and `react-redux`, and there is no entry for `zustand` or
`recoil`. -/
theorem redux_adds_toolkit_and_binding (a : Answers)
    (hs : a.includeStateManagement = some true)
    (hm : a.stateManager = some "redux") :
    stateManagementEntries (dependencies (getReactPackageJson a)) =
      [("@reduxjs/toolkit", "^1.9.0"), ("react-redux", "^8.1.0")] ∧
    hasKey (dependencies (getReactPackageJson a)) "zustand" = false ∧
    hasKey (dependencies (getReactPackageJson a)) "recoil" = false := by
  have hobj : isObj (reactRouting a (reactCssFramework a (reactBase a))) "dependencies" = true := by
    rw [isObj_reactRouting]; exact isObj_reactCss a
  have hpre := react_prestate_key a
  have hdeps : dependencies (getReactPackageJson a) =
      dependencies (reactRouting a (reactCssFramework a (reactBase a))) ++
        [("@reduxjs/toolkit", "^1.9.0"), ("react-redux", "^8.1.0")] := by
    unfold getReactPackageJson reactStateManagement
    simp only [hs, hm, truthy, beq_self_eq_true, if_true]
    rw [dependencies_setIn _ _ _ (by rw [isObj_setIn]; exact hobj),
      dependencies_setIn _ _ _ hobj,
      setProp_of_not_hasKey _ "@reduxjs/toolkit" _ (hpre _ (by decide)),
      setProp_of_not_hasKey _ "react-redux" _ (by
        rw [← setProp_of_not_hasKey _ "@reduxjs/toolkit" _ (hpre _ (by decide)),
          hasKey_setProp, hpre _ (by decide)]
        decide)]
    simp
  refine ⟨?_, ?_, ?_⟩
  · rw [hdeps]
    unfold stateManagementEntries
    rw [List.filter_append]
    have := stateManagementEntries_eq_nil _ hpre
    unfold stateManagementEntries at this
    rw [this]
    decide
  · rw [hdeps]
    unfold hasKey
    rw [List.any_append]
    have := hpre "zustand" (by decide)
    unfold hasKey at this
    rw [this]
    decide
  · rw [hdeps]
    unfold hasKey
    rw [List.any_append]
    have := hpre "recoil" (by decide)
    unfold hasKey at this
    rw [this]
    decide

/-- C3 witness: the React record with the `redux` choice. -/
theorem redux_adds_toolkit_and_binding_witness :
    stateManagementEntries (dependencies (getReactPackageJson reactWithRedux)) =
      [("@reduxjs/toolkit", "^1.9.0"), ("react-redux", "^8.1.0")] ∧
    hasKey (dependencies (getReactPackageJson reactWithRedux)) "zustand" = false ∧
    hasKey (dependencies (getReactPackageJson reactWithRedux)) "recoil" = false :=
  redux_adds_toolkit_and_binding reactWithRedux rfl rfl

/-- C3 counterexample: for the React record with the `redux` choice the manifest
holds two state-management entries, `react-redux` among them, two more
dependencies than without state management. -/
theorem redux_adds_two_state_management_entries :
    reactWithRedux.frontendFramework = "react" ∧
    reactWithRedux.includeStateManagement = some true ∧
    reactWithRedux.stateManager = some "redux" ∧
    (stateManagementEntries (dependencies (getReactPackageJson reactWithRedux))).length = 2 ∧
    hasKey (dependencies (getReactPackageJson reactWithRedux)) "react-redux" = true ∧
    (dependencies (getReactPackageJson reactWithRedux)).length =
      (dependencies (getReactPackageJson
        { reactWithRedux with includeStateManagement := some false })).length + 2 := by
  decide


/-! ## Project generation -/

theorem exec_no_failure (env : Env) (h : env.fsFailure = none) (cmds : List Cmd) (n : Nat) :
    exec env cmds n = (cmds.map (eventOf env), false) := by
  induction cmds generalizing n with
  | nil => rfl
  | cons c rest ih =>
    cases c <;> simp [exec, h, ih, eventOf]
    split_ifs <;> rfl

theorem writtenPaths_map_eventOf (env : Env) (cmds : List Cmd) :
    writtenPaths (cmds.map (eventOf env)) = cmdWritePaths cmds := by
  induction cmds with
  | nil => rfl
  | cons c rest ih =>
    cases c <;> simp [eventOf, writtenPaths, cmdWritePaths, ih]
    split_ifs <;> simp [writtenPaths, ih]

theorem writtenTo_map_eventOf (env : Env) (path : Path) (cmds : List Cmd) :
    writtenTo path (cmds.map (eventOf env)) = cmdWritesTo path cmds := by
  induction cmds with
  | nil => rfl
  | cons c rest ih =>
    cases c <;> simp [eventOf, writtenTo, cmdWritesTo, ih]
    split_ifs <;> simp [writtenTo, ih]

theorem writtenPaths_exec_subset (env : Env) (cmds : List Cmd) (n : Nat) (p : Path)
    (h : p ∈ writtenPaths (exec env cmds n).1) : p ∈ cmdWritePaths cmds := by
  induction cmds generalizing n with
  | nil => simp [exec, writtenPaths] at h
  | cons c rest ih =>
    cases c with
    | npmInstall cwd =>
      simp only [exec] at h
      split_ifs at h <;> simp only [writtenPaths] at h <;> simpa [cmdWritePaths] using ih _ h
    | rmSync q =>
      simp only [exec] at h
      split_ifs at h
      · simp [writtenPaths] at h
      · simp only [writtenPaths] at h
        simpa [cmdWritePaths] using ih _ h
    | mkdirSync q =>
      simp only [exec] at h
      split_ifs at h
      · simp [writtenPaths] at h
      · simp only [writtenPaths] at h
        simpa [cmdWritePaths] using ih _ h
    | writeFileSync q c =>
      simp only [exec] at h
      split_ifs at h
      · simp [writtenPaths] at h
      · simp only [writtenPaths, List.mem_cons] at h
        rcases h with h | h
        · simp [cmdWritePaths, h]
        · simp [cmdWritePaths, ih _ h]

theorem generateProject_of_declined (env : Env) (a : Answers)
    (he : env.destinationExists = true) (ho : env.overwrite = false) :
    generateProject env a = ([.cancelledNotice], .exitedZero) := by
  simp [generateProject, he, ho]

theorem generateProject_of_clean (env : Env) (a : Answers)
    (hgo : env.destinationExists = true → env.overwrite = true)
    (hok : env.fsFailure = none) :
    generateProject env a = ((generateProjectCmds env a).map (eventOf env), .returned) := by
  unfold generateProject
  rw [exec_no_failure env hok]
  cases he : env.destinationExists
  · simp
  · simp [hgo he]

theorem writtenPaths_generateProject_subset (env : Env) (a : Answers) (p : Path)
    (h : p ∈ writtenPaths (generateProject env a).1) :
    p ∈ cmdWritePaths (generateProjectCmds env a) := by
  unfold generateProject at h
  split_ifs at h
  · simp [writtenPaths] at h
  · exact writtenPaths_exec_subset env _ 0 p h

theorem generateVanillaProject_eq (a : Answers) (p : Path) :
    generateVanillaProject a p =
      [ .mkdirSync (p ++ ["css"]), .mkdirSync (p ++ ["js"]), .mkdirSync (p ++ ["images"]),
        .mkdirSync (p ++ ["assets"]),
        .writeFileSync (p ++ ["index.html"]) (.template "getVanillaIndexHtml"),
        .writeFileSync (p ++ ["css"] ++ ["main.css"]) (.template "getVanillaMainCss"),
        .writeFileSync (p ++ ["js"] ++ ["main.js"]) (.template "getVanillaMainJs") ]
      ++ generateVanillaPages a p := rfl

theorem generateReactProject_eq (a : Answers) (p : Path) :
    generateReactProject a p =
      [ .writeFileSync (p ++ ["package.json"]) (.json (getReactPackageJson a)),
        .mkdirSync (p ++ ["src"]), .mkdirSync (p ++ ["src"] ++ ["components"]),
        .mkdirSync (p ++ ["src"] ++ ["pages"]), .mkdirSync (p ++ ["src"] ++ ["styles"]),
        .mkdirSync (p ++ ["src"] ++ ["assets"]), .mkdirSync (p ++ ["public"]),
        .writeFileSync (p ++ ["src"] ++ ["App.js"]) (.template "getReactAppComponent"),
        .writeFileSync (p ++ ["src"] ++ ["index.js"]) (.template "getReactIndexFile"),
        .writeFileSync (p ++ ["src"] ++ ["components"] ++ ["Header.js"])
          (.template "headerComponent"),
        .writeFileSync (p ++ ["src"] ++ ["App.css"]) (.template "getMainStyles"),
        .writeFileSync (p ++ ["src"] ++ ["index.css"]) (.template "indexCss"),
        .writeFileSync (p ++ ["public"] ++ ["index.html"]) (.template "getReactIndexHtml"),
        .npmInstall p ] := rfl

theorem generateVueProject_eq (a : Answers) (p : Path) :
    generateVueProject a p =
      [ .writeFileSync (p ++ ["package.json"]) (.json (getVuePackageJson a)),
        .mkdirSync (p ++ ["src"]), .mkdirSync (p ++ ["src"] ++ ["components"]),
        .mkdirSync (p ++ ["src"] ++ ["views"]), .mkdirSync (p ++ ["src"] ++ ["assets"]),
        .mkdirSync (p ++ ["src"] ++ ["styles"]), .mkdirSync (p ++ ["public"]),
        .writeFileSync (p ++ ["src"] ++ ["App.vue"]) (.template "getVueAppComponent"),
        .writeFileSync (p ++ ["src"] ++ ["main.js"]) (.template "getVueMainFile"),
        .writeFileSync (p ++ ["src"] ++ ["components"] ++ ["Header.vue"])
          (.template "headerComponent"),
        .writeFileSync (p ++ ["src"] ++ ["style.css"]) (.template "getMainStyles"),
        .writeFileSync (p ++ ["public"] ++ ["index.html"]) (.template "getVueIndexHtml"),
        .writeFileSync (p ++ ["vite.config.js"]) (.template "getViteConfig"),
        .npmInstall p ] := rfl

theorem generateSvelteProject_eq (a : Answers) (p : Path) :
    generateSvelteProject a p =
      [ .writeFileSync (p ++ ["package.json"]) (.json (getSveltePackageJson a)),
        .mkdirSync (p ++ ["src"]), .mkdirSync (p ++ ["src"] ++ ["components"]),
        .mkdirSync (p ++ ["src"] ++ ["routes"]), .mkdirSync (p ++ ["src"] ++ ["lib"]),
        .mkdirSync (p ++ ["static"]),
        .writeFileSync (p ++ ["src"] ++ ["App.svelte"]) (.template "getSvelteAppComponent"),
        .writeFileSync (p ++ ["src"] ++ ["main.js"]) (.template "getSvelteMainFile"),
        .writeFileSync (p ++ ["src"] ++ ["components"] ++ ["Header.svelte"])
          (.template "headerComponent"),
        .writeFileSync (p ++ ["src"] ++ ["app.css"]) (.template "getMainStyles"),
        .writeFileSync (p ++ ["src"] ++ ["app.html"]) (.template "getSvelteIndexHtml"),
        .writeFileSync (p ++ ["vite.config.js"]) (.template "getSvelteViteConfig"),
        .npmInstall p ] := rfl

theorem generateVanillaPages_eq (a : Answers) (p : Path) :
    generateVanillaPages a p =
      if a.uiType = "landing" then
        [.writeFileSync (p ++ ["about.html"]) (.template "aboutHtml")]
      else [] := by
  unfold generateVanillaPages
  by_cases h : a.uiType = "landing"
  · simp [h]; rfl
  · simp [h]

theorem generateReadme_eq (p : Path) :
    generateReadme p = [.writeFileSync (p ++ ["README.md"]) (.template "readme")] := rfl

theorem generateGitignore_eq (p : Path) :
    generateGitignore p = [.writeFileSync (p ++ [".gitignore"]) (.template "gitignore")] := rfl

theorem pathJoin_file (p : Path) :
    pathJoin p "package.json" = p ++ ["package.json"] ∧
    pathJoin p "index.html" = p ++ ["index.html"] ∧
    pathJoin p "css/main.css" = p ++ ["css"] ++ ["main.css"] ∧
    pathJoin p "js/main.js" = p ++ ["js"] ++ ["main.js"] ∧
    pathJoin p "public/index.html" = p ++ ["public"] ++ ["index.html"] ∧
    pathJoin p "src/app.html" = p ++ ["src"] ++ ["app.html"] ∧
    pathJoin p "src/index.js" = p ++ ["src"] ++ ["index.js"] ∧
    pathJoin p "src/main.js" = p ++ ["src"] ++ ["main.js"] :=
  ⟨rfl, rfl, rfl, rfl, rfl, rfl, rfl, rfl⟩

theorem jsonStringify_ne_empty (m : Manifest) : jsonStringify m ≠ "" := by
  intro h
  have hl := congrArg String.length h
  unfold jsonStringify at hl
  split_ifs at hl
  · exact absurd hl (by decide)
  · simp only [String.length_append] at hl
    have h2 : "\n\x7d".length = 2 := by decide
    have h0 : "".length = 0 := by decide
    omega

/-- The commands of a vanilla project, with every path spelled out. -/
theorem generateProjectCmds_vanilla (env : Env) (a : Answers)
    (hf : a.frontendFramework = "vanilla") :
    generateProjectCmds env a =
      (if env.destinationExists then [Cmd.rmSync (projectPathOf env a)] else [])
      ++ [ .mkdirSync (projectPathOf env a),
           .mkdirSync (projectPathOf env a ++ ["css"]),
           .mkdirSync (projectPathOf env a ++ ["js"]),
           .mkdirSync (projectPathOf env a ++ ["images"]),
           .mkdirSync (projectPathOf env a ++ ["assets"]),
           .writeFileSync (projectPathOf env a ++ ["index.html"])
             (.template "getVanillaIndexHtml"),
           .writeFileSync (projectPathOf env a ++ ["css"] ++ ["main.css"])
             (.template "getVanillaMainCss"),
           .writeFileSync (projectPathOf env a ++ ["js"] ++ ["main.js"])
             (.template "getVanillaMainJs") ]
      ++ (if a.uiType = "landing" then
            [.writeFileSync (projectPathOf env a ++ ["about.html"]) (.template "aboutHtml")]
          else [])
      ++ [ .writeFileSync (projectPathOf env a ++ ["README.md"]) (.template "readme"),
           .writeFileSync (projectPathOf env a ++ [".gitignore"]) (.template "gitignore") ] := by
  unfold generateProjectCmds generateFramework
  simp only [hf, generateVanillaProject_eq, generateVanillaPages_eq, generateReadme_eq,
    generateGitignore_eq]
  simp


/-- C5: for every record whose framework is `vanilla`, no run writes
`package.json`, and every run that is not cancelled and meets no file-system error
writes `index.html`, `css/main.css` and `js/main.js`, all files lying under the
project directory. -/
theorem vanilla_project_files (a : Answers) (hf : a.frontendFramework = "vanilla") :
    (∀ env : Env,
      pathJoin (projectPathOf env a) "package.json" ∉ writtenPaths (generateProject env a).1) ∧
    (∀ env : Env, (env.destinationExists = true → env.overwrite = true) →
      env.fsFailure = none →
        pathJoin (projectPathOf env a) "index.html" ∈ writtenPaths (generateProject env a).1 ∧
        pathJoin (projectPathOf env a) "css/main.css" ∈
          writtenPaths (generateProject env a).1 ∧
        pathJoin (projectPathOf env a) "js/main.js" ∈ writtenPaths (generateProject env a).1 ∧
        ∀ p ∈ writtenPaths (generateProject env a).1, projectPathOf env a <+: p) := by
  constructor
  · intro env h
    have h2 := writtenPaths_generateProject_subset env a _ h
    rw [generateProjectCmds_vanilla env a hf, (pathJoin_file _).1] at h2
    cases he : env.destinationExists <;> by_cases hu : a.uiType = "landing" <;>
      simp [cmdWritePaths, hu, he] at h2
  · intro env hgo hok
    rw [generateProject_of_clean env a hgo hok, generateProjectCmds_vanilla env a hf,
      (pathJoin_file _).2.1, (pathJoin_file _).2.2.1, (pathJoin_file _).2.2.2.1]
    cases he : env.destinationExists <;> by_cases hu : a.uiType = "landing" <;>
      simp [writtenPaths, eventOf, hu]


/-- C5 witness: Scenario A, the record with framework `vanilla`, theme `dark` and
project name `demo`, run in an empty working directory. -/
theorem vanilla_project_files_witness :
    vanillaDemo.frontendFramework = "vanilla" ∧
    ["home", "user", "demo", "package.json"] ∉
      writtenPaths (generateProject freshEnv vanillaDemo).1 ∧
    ["home", "user", "demo", "index.html"] ∈
      writtenPaths (generateProject freshEnv vanillaDemo).1 ∧
    ["home", "user", "demo", "css", "main.css"] ∈
      writtenPaths (generateProject freshEnv vanillaDemo).1 ∧
    ["home", "user", "demo", "js", "main.js"] ∈
      writtenPaths (generateProject freshEnv vanillaDemo).1 :=
  ⟨rfl, (vanilla_project_files vanillaDemo rfl).1 freshEnv,
    ((vanilla_project_files vanillaDemo rfl).2 freshEnv (by decide) rfl).1,
    ((vanilla_project_files vanillaDemo rfl).2 freshEnv (by decide) rfl).2.1,
    ((vanilla_project_files vanillaDemo rfl).2 freshEnv (by decide) rfl).2.2.1⟩

theorem isObj_reactStateManagement (a : Answers) (m : Manifest) (f : String) :
    isObj (reactStateManagement a m) f = isObj m f := by
  unfold reactStateManagement
  split_ifs <;> simp [isObj_setIn]

theorem isObj_vueStateManagement (a : Answers) (m : Manifest) (f : String) :
    isObj (vueStateManagement a m) f = isObj m f := by
  unfold vueStateManagement
  split_ifs <;> simp [isObj_setIn]

theorem isObj_getReactPackageJson (a : Answers) :
    isObj (getReactPackageJson a) "dependencies" = true := by
  unfold getReactPackageJson
  rw [isObj_reactStateManagement, isObj_reactRouting]
  exact isObj_reactCss a

theorem isObj_getVuePackageJson (a : Answers) :
    isObj (getVuePackageJson a) "dependencies" = true := by
  unfold getVuePackageJson
  rw [isObj_vueStateManagement, isObj_vueRouting, isObj_vueCss]
  exact isObj_vueBase_dependencies a

theorem isObj_getSveltePackageJson (a : Answers) :
    isObj (getSveltePackageJson a) "dependencies" = true := by
  unfold getSveltePackageJson
  split_ifs <;> simp [isObj]

/-- C4 counterexample: the valid record of Scenario A yields a bundle without
`package.json`. -/
theorem vanilla_bundle_has_no_manifest :
    isValidAnswers vanillaDemo = true ∧
    (generateProject freshEnv vanillaDemo).2 = .returned ∧
    writtenTo ["home", "user", "demo", "package.json"]
      (generateProject freshEnv vanillaDemo).1 = [] ∧
    ["home", "user", "demo", "package.json"] ∉
      writtenPaths (generateProject freshEnv vanillaDemo).1 := by
  decide

/-- C4 (amended): for every valid record, a run that is not cancelled and meets no
file-system error writes the entry points of the chosen framework; it writes
`package.json` exactly once, with a non-empty JSON text that declares a
`dependencies` object, when the framework is `react`, `vue` or `svelte`, and it
writes no `package.json` when the framework is `vanilla`. -/
theorem bundle_manifest_and_entry_points (env : Env) (a : Answers)
    (hv : isValidAnswers a = true)
    (hgo : env.destinationExists = true → env.overwrite = true)
    (hok : env.fsFailure = none) :
    (a.frontendFramework ≠ "vanilla" →
      ∃ m : Manifest,
        writtenTo (pathJoin (projectPathOf env a) "package.json")
          (generateProject env a).1 = [.json m] ∧
        (Content.json m).text? = some (jsonStringify m) ∧
        jsonStringify m ≠ "" ∧ isObj m "dependencies" = true ∧
        m ∈ [getReactPackageJson a, getVuePackageJson a, getSveltePackageJson a]) ∧
    (a.frontendFramework = "vanilla" →
      writtenTo (pathJoin (projectPathOf env a) "package.json")
        (generateProject env a).1 = []) ∧
    entryPoints a.frontendFramework ≠ [] ∧
    (∀ e ∈ entryPoints a.frontendFramework,
      pathJoin (projectPathOf env a) e ∈ writtenPaths (generateProject env a).1) := by
  have hfw : a.frontendFramework ∈ frontendFrameworkChoices := by
    simp only [isValidAnswers, Bool.and_eq_true, decide_eq_true_eq] at hv
    simpa using hv.1.1.2
  rw [generateProject_of_clean env a hgo hok, (pathJoin_file _).1]
  simp only [writtenTo_map_eventOf, writtenPaths_map_eventOf]
  simp only [frontendFrameworkChoices, List.mem_cons, List.mem_singleton,
    List.not_mem_nil, or_false] at hfw
  rcases hfw with hf | hf | hf | hf
  · refine ⟨fun _ => ⟨getReactPackageJson a, ?_, rfl, jsonStringify_ne_empty _,
      isObj_getReactPackageJson a, by simp⟩, fun h => ?_, ?_, ?_⟩
    · unfold generateProjectCmds generateFramework
      simp only [hf, generateReactProject_eq, generateReadme_eq, generateGitignore_eq]
      cases he : env.destinationExists <;> simp [cmdWritesTo]
    · rw [hf] at h; exact absurd h (by decide)
    · rw [hf]; decide
    · rw [hf]
      intro e he
      simp only [entryPoints] at he
      simp at he
      unfold generateProjectCmds generateFramework
      simp only [hf, generateReactProject_eq, generateReadme_eq, generateGitignore_eq]
      rcases he with he | he <;> subst he
      · rw [(pathJoin_file _).2.2.2.2.1]
        cases he : env.destinationExists <;> simp [cmdWritePaths]
      · rw [(pathJoin_file _).2.2.2.2.2.2.1]
        cases he : env.destinationExists <;> simp [cmdWritePaths]
  · refine ⟨fun _ => ⟨getVuePackageJson a, ?_, rfl, jsonStringify_ne_empty _,
      isObj_getVuePackageJson a, by simp⟩, fun h => ?_, ?_, ?_⟩
    · unfold generateProjectCmds generateFramework
      simp only [hf, generateVueProject_eq, generateReadme_eq, generateGitignore_eq]
      cases he : env.destinationExists <;> simp [cmdWritesTo]
    · rw [hf] at h; exact absurd h (by decide)
    · rw [hf]; decide
    · rw [hf]
      intro e he
      simp only [entryPoints] at he
      simp at he
      unfold generateProjectCmds generateFramework
      simp only [hf, generateVueProject_eq, generateReadme_eq, generateGitignore_eq]
      rcases he with he | he <;> subst he
      · rw [(pathJoin_file _).2.2.2.2.1]
        cases he : env.destinationExists <;> simp [cmdWritePaths]
      · rw [(pathJoin_file _).2.2.2.2.2.2.2]
        cases he : env.destinationExists <;> simp [cmdWritePaths]
  · refine ⟨fun _ => ⟨getSveltePackageJson a, ?_, rfl, jsonStringify_ne_empty _,
      isObj_getSveltePackageJson a, by simp⟩, fun h => ?_, ?_, ?_⟩
    · unfold generateProjectCmds generateFramework
      simp only [hf, generateSvelteProject_eq, generateReadme_eq, generateGitignore_eq]
      cases he : env.destinationExists <;> simp [cmdWritesTo]
    · rw [hf] at h; exact absurd h (by decide)
    · rw [hf]; decide
    · rw [hf]
      intro e he
      simp only [entryPoints] at he
      simp at he
      unfold generateProjectCmds generateFramework
      simp only [hf, generateSvelteProject_eq, generateReadme_eq, generateGitignore_eq]
      rcases he with he | he <;> subst he
      · rw [(pathJoin_file _).2.2.2.2.2.1]
        cases he : env.destinationExists <;> simp [cmdWritePaths]
      · rw [(pathJoin_file _).2.2.2.2.2.2.2]
        cases he : env.destinationExists <;> simp [cmdWritePaths]
  · refine ⟨fun h => absurd hf h, fun _ => ?_, ?_, ?_⟩
    · rw [generateProjectCmds_vanilla env a hf]
      cases he : env.destinationExists <;> by_cases hu : a.uiType = "landing" <;>
        simp [cmdWritesTo, hu]
    · rw [hf]; decide
    · rw [hf]
      intro e he
      simp only [entryPoints] at he
      simp at he
      rw [generateProjectCmds_vanilla env a hf]
      rcases he with he | he <;> subst he
      · rw [(pathJoin_file _).2.1]
        cases he : env.destinationExists <;> by_cases hu : a.uiType = "landing" <;>
          simp [cmdWritePaths, hu]
      · rw [(pathJoin_file _).2.2.2.1]
        cases he : env.destinationExists <;> by_cases hu : a.uiType = "landing" <;>
          simp [cmdWritePaths, hu]


/-- C4 witness: the React record with the `redux` choice, run in an empty working
directory. -/
theorem bundle_manifest_and_entry_points_witness :
    isValidAnswers reactWithRedux = true ∧
    (reactWithRedux.frontendFramework ≠ "vanilla" →
      ∃ m : Manifest,
        writtenTo (pathJoin (projectPathOf freshEnv reactWithRedux) "package.json")
          (generateProject freshEnv reactWithRedux).1 = [.json m] ∧
        (Content.json m).text? = some (jsonStringify m) ∧
        jsonStringify m ≠ "" ∧ isObj m "dependencies" = true ∧
        m ∈ [getReactPackageJson reactWithRedux, getVuePackageJson reactWithRedux,
          getSveltePackageJson reactWithRedux]) ∧
    entryPoints reactWithRedux.frontendFramework ≠ [] :=
  ⟨by decide,
    (bundle_manifest_and_entry_points freshEnv reactWithRedux (by decide) (by decide) rfl).1,
    (bundle_manifest_and_entry_points freshEnv reactWithRedux (by decide) (by decide)
      rfl).2.2.1⟩

/-- C6: when the destination exists and the overwrite is declined,
`generateProject` leaves no file-system mutation and ends in `process.exit(0)`, and
the run ends cancelled with exit status 0, not failed with exit status 1. -/
theorem declined_overwrite_cancels (env : Env) (a : Answers)
    (he : env.destinationExists = true) (ho : env.overwrite = false) :
    (∀ e ∈ (generateProject env a).1, e.isFsMutation = false) ∧
    (generateProject env a).2 = .exitedZero ∧
    (∀ e ∈ (run env a).1, e.isFsMutation = false) ∧
    (run env a).2 = .cancelled ∧
    exitStatus (run env a).2 = 0 ∧
    exitStatus (run env a).2 ≠ exitStatus .failure := by
  have hg := generateProject_of_declined env a he ho
  have hr : run env a = ([.cancelledNotice], .cancelled) := by
    unfold run
    cases hp : env.proceed
    · simp
    · simp [hg]
  rw [hg, hr]
  simp [Event.isFsMutation, exitStatus]

/-- C6 witness: the record of Scenario A when `demo/` exists and the overwrite is
declined. -/
theorem declined_overwrite_cancels_witness :
    declinedEnv.destinationExists = true ∧ declinedEnv.overwrite = false ∧
    (∀ e ∈ (run declinedEnv vanillaDemo).1, e.isFsMutation = false) ∧
    (run declinedEnv vanillaDemo).2 = .cancelled ∧
    exitStatus (run declinedEnv vanillaDemo).2 = 0 :=
  ⟨rfl, rfl, (declined_overwrite_cancels declinedEnv vanillaDemo rfl rfl).2.2.1,
    (declined_overwrite_cancels declinedEnv vanillaDemo rfl rfl).2.2.2.1,
    (declined_overwrite_cancels declinedEnv vanillaDemo rfl rfl).2.2.2.2.1⟩

/-! ## Recommendation lookups -/

theorem lookup_eq_none_of_not_mem {α : Type} (table : List (String × α)) (key : String)
    (h : key ∉ table.map Prod.fst) : table.lookup key = none := by
  induction table with
  | nil => rfl
  | cons p rest ih =>
    obtain ⟨k, v⟩ := p
    simp only [List.map_cons, List.mem_cons, not_or] at h
    have hk : (key == k) = false := by simpa using h.1
    simp [List.lookup, hk, ih h.2]

/-- A tag that is neither a key of the table nor a member of `Object.prototype`
reads as `undefined`. -/
theorem lookupProperty_undefined {α : Type} (table : List (String × α)) (key : String)
    (h1 : key ∉ table.map Prod.fst) (h2 : key ∉ objectPrototypeKeys) :
    lookupProperty table key = .undefined := by
  have h3 : objectPrototypeKeys.contains key = false := by simpa using h2
  simp only [lookupProperty, lookup_eq_none_of_not_mem table key h1, h3]
  rfl

/-- For a tag outside the tables and outside `Object.prototype` the three lookups
return their generic text. -/
theorem lookups_fall_back (d : ProjectData)
    (h1 : propertyKey d.interfaceType ∉ recommendationsTable.map Prod.fst)
    (h2 : propertyKey d.interfaceType ∉ objectPrototypeKeys) :
    getDesignRecommendations d = .ok (joinLines recommendationsFallback) ∧
    getImplementationSuggestions d = .ok (joinLines suggestionsFallback) ∧
    (propertyKey d.interfaceType ∉ templatesTable.map Prod.fst →
      generateWireframeTemplate d = .diagram (joinLines genericTemplateLines)) := by
  have h1s : propertyKey d.interfaceType ∉ suggestionsTable.map Prod.fst := h1
  refine ⟨?_, ?_, fun h3 => ?_⟩
  · simp only [getDesignRecommendations, lookupProperty_undefined _ _ h1 h2]
  · simp only [getImplementationSuggestions, lookupProperty_undefined _ _ h1s h2]
  · simp only [generateWireframeTemplate, lookupProperty_undefined _ _ h3 h2]

/-- C7: with the tag `constructor`, which is not a key of the tables, both lookups
throw instead of returning the generic lines. -/
theorem recommendations_throw_on_prototype_member :
    constructorTagged.interfaceType = some "constructor" ∧
    "constructor" ∉ recommendationsTable.map Prod.fst ∧
    "constructor" ∉ suggestionsTable.map Prod.fst ∧
    getDesignRecommendations constructorTagged =
      .error "TypeError: typeRecommendations.join is not a function" ∧
    getImplementationSuggestions constructorTagged =
      .error "TypeError: typeSuggestions.join is not a function" :=
  ⟨rfl, by decide, by decide, rfl, rfl⟩

/-- C8: with the tag `constructor`, which is not a key of the template table,
`generateWireframeTemplate` returns a member of `Object.prototype`, not the generic
diagram. -/
theorem wireframe_of_prototype_member :
    constructorTagged.interfaceType = some "constructor" ∧
    "constructor" ∉ templatesTable.map Prod.fst ∧
    generateWireframeTemplate constructorTagged = .prototypeMember "constructor" ∧
    generateWireframeTemplate constructorTagged ≠ .diagram (joinLines genericTemplateLines) :=
  ⟨rfl, by decide, rfl, by simp [show generateWireframeTemplate constructorTagged = .prototypeMember "constructor" from rfl]⟩


/-- C9 counterexample: for `Mobile Application` the first line of the returned
recommendations is the platform-guidelines line, which does not mention touch
targets. -/
theorem mobile_recommendations_first_line :
    ∃ s : String, getDesignRecommendations mobileData = .ok s ∧
      (textLines s).head? =
        some "• Follow platform-specific guidelines (Material Design/Human Interface)" ∧
      (textLines s).head? ≠ some "• Use thumb-friendly touch targets (minimum 44px)" ∧
      containsText
        "• Follow platform-specific guidelines (Material Design/Human Interface)"
        "touch" = false :=
  ⟨_, rfl, by decide, by decide, by decide⟩

/-- C9 (amended): for `Mobile Application` the returned recommendations are four
lines; the first is the platform-guidelines line and the second is the line on
thumb-friendly touch targets of at least 44px. -/
theorem mobile_recommendations_lines :
    ∃ s : String, getDesignRecommendations mobileData = .ok s ∧
      textLines s =
        [ "• Follow platform-specific guidelines (Material Design/Human Interface)",
          "• Use thumb-friendly touch targets (minimum 44px)",
          "• Implement intuitive gesture controls",
          "• Consider offline functionality" ] ∧
      containsText "• Use thumb-friendly touch targets (minimum 44px)"
        "touch targets (minimum 44px)" = true :=
  ⟨_, rfl, by decide, by decide⟩

/-- C10: for `Mobile Application`, `generateWireframeTemplate` returns the mobile
template, which has a `Status Bar` row and a `Tab Navigation` row and differs from
the generic diagram. -/
theorem mobile_wireframe_template :
    generateWireframeTemplate mobileData = .diagram (joinLines mobileTemplateLines) ∧
    "│   Status Bar    │" ∈ textLines (joinLines mobileTemplateLines) ∧
    "│ Tab Navigation  │" ∈ textLines (joinLines mobileTemplateLines) ∧
    containsText (joinLines mobileTemplateLines) "Status Bar" = true ∧
    containsText (joinLines mobileTemplateLines) "Tab Navigation" = true ∧
    joinLines mobileTemplateLines ≠ joinLines genericTemplateLines ∧
    generateWireframeTemplate mobileData ≠ .diagram (joinLines genericTemplateLines) := by
  decide

/-! ## Order of the file-system calls -/

theorem exec_events_initial (env : Env) (cmds : List Cmd) (n : Nat) :
    (exec env cmds n).1 <+: cmds.map (eventOf env) := by
  induction cmds generalizing n with
  | nil => simp [exec]
  | cons c rest ih =>
    cases c with
    | npmInstall cwd =>
      simp only [exec, List.map_cons, eventOf]
      split_ifs
      · exact (List.prefix_cons_inj _).mpr (ih n)
      · exact (List.prefix_cons_inj _).mpr (ih n)
    | rmSync q =>
      simp only [exec, List.map_cons, eventOf]
      split_ifs
      · exact List.nil_prefix
      · exact (List.prefix_cons_inj _).mpr (ih (n + 1))
    | mkdirSync q =>
      simp only [exec, List.map_cons, eventOf]
      split_ifs
      · exact List.nil_prefix
      · exact (List.prefix_cons_inj _).mpr (ih (n + 1))
    | writeFileSync q c =>
      simp only [exec, List.map_cons, eventOf]
      split_ifs
      · exact List.nil_prefix
      · exact (List.prefix_cons_inj _).mpr (ih (n + 1))

theorem dirsBeforeWrites_append_left (w : Bool) (l1 l2 : List Event)
    (h : dirsBeforeWrites w (l1 ++ l2) = true) : dirsBeforeWrites w l1 = true := by
  induction l1 generalizing w with
  | nil => rfl
  | cons e rest ih =>
    cases e with
    | did c =>
      cases c with
      | rmSync q => exact ih w (by simpa [dirsBeforeWrites] using h)
      | mkdirSync q =>
        simp only [List.cons_append, dirsBeforeWrites, Bool.and_eq_true] at h ⊢
        exact ⟨h.1, ih w h.2⟩
      | writeFileSync q c => exact ih true (by simpa [dirsBeforeWrites] using h)
      | npmInstall cwd => exact ih w (by simpa [dirsBeforeWrites] using h)
    | installWarning => exact ih w (by simpa [dirsBeforeWrites] using h)
    | cancelledNotice => exact ih w (by simpa [dirsBeforeWrites] using h)
    | successMessage => exact ih w (by simpa [dirsBeforeWrites] using h)
    | errorReport => exact ih w (by simpa [dirsBeforeWrites] using h)

theorem writesFollowDirs_append_left (created : List Path) (l1 l2 : List Event)
    (h : writesFollowDirs created (l1 ++ l2) = true) : writesFollowDirs created l1 = true := by
  induction l1 generalizing created with
  | nil => rfl
  | cons e rest ih =>
    cases e with
    | did c =>
      cases c with
      | rmSync q => exact ih _ (by simpa [writesFollowDirs] using h)
      | mkdirSync q => exact ih _ (by simpa [writesFollowDirs] using h)
      | writeFileSync q c =>
        simp only [List.cons_append, writesFollowDirs, Bool.and_eq_true] at h ⊢
        exact ⟨h.1, ih _ h.2⟩
      | npmInstall cwd => exact ih _ (by simpa [writesFollowDirs] using h)
    | installWarning => exact ih _ (by simpa [writesFollowDirs] using h)
    | cancelledNotice => exact ih _ (by simpa [writesFollowDirs] using h)
    | successMessage => exact ih _ (by simpa [writesFollowDirs] using h)
    | errorReport => exact ih _ (by simpa [writesFollowDirs] using h)

theorem withoutWritesTo_append (path : Path) (l1 l2 : List Event) :
    withoutWritesTo path (l1 ++ l2) = withoutWritesTo path l1 ++ withoutWritesTo path l2 := by
  induction l1 with
  | nil => rfl
  | cons e rest ih =>
    cases e with
    | did c =>
      cases c <;> simp [withoutWritesTo, ih]
      split_ifs <;> simp
    | installWarning => simp [withoutWritesTo, ih]
    | cancelledNotice => simp [withoutWritesTo, ih]
    | successMessage => simp [withoutWritesTo, ih]
    | errorReport => simp [withoutWritesTo, ih]

theorem generateProjectCmds_cases (env : Env) (a : Answers) :
    generateProjectCmds env a =
      (if env.destinationExists then [Cmd.rmSync (projectPathOf env a)] else [])
      ++ [.mkdirSync (projectPathOf env a)]
      ++ (if a.frontendFramework = "react" then
            generateReactProject a (projectPathOf env a)
          else if a.frontendFramework = "vue" then
            generateVueProject a (projectPathOf env a)
          else if a.frontendFramework = "svelte" then
            generateSvelteProject a (projectPathOf env a)
          else if a.frontendFramework = "vanilla" then
            generateVanillaProject a (projectPathOf env a)
          else [])
      ++ [ .writeFileSync (projectPathOf env a ++ ["README.md"]) (.template "readme"),
           .writeFileSync (projectPathOf env a ++ [".gitignore"]) (.template "gitignore") ] := by
  unfold generateProjectCmds generateFramework
  simp only [generateReadme_eq, generateGitignore_eq, beq_iff_eq, List.append_assoc,
    List.singleton_append, List.cons_append, List.nil_append]

theorem full_trace_order (env : Env) (a : Answers) :
    writesFollowDirs [] ((generateProjectCmds env a).map (eventOf env)) = true ∧
    dirsBeforeWrites false
      (withoutWritesTo (projectPathOf env a ++ ["package.json"])
        ((generateProjectCmds env a).map (eventOf env))) = true ∧
    (a.frontendFramework = "vanilla" →
      dirsBeforeWrites false ((generateProjectCmds env a).map (eventOf env)) = true) := by
  rw [generateProjectCmds_cases]
  by_cases h1 : a.frontendFramework = "react"
  · simp only [h1, if_true, generateReactProject_eq]
    cases env.destinationExists <;> cases hi : env.installFails <;>
      simp [writesFollowDirs, dirsBeforeWrites, withoutWritesTo, eventOf, hi]
  · by_cases h2 : a.frontendFramework = "vue"
    · simp only [h2, if_true, generateVueProject_eq]
      cases env.destinationExists <;> cases hi : env.installFails <;>
        simp [writesFollowDirs, dirsBeforeWrites, withoutWritesTo, eventOf, hi]
    · by_cases h3 : a.frontendFramework = "svelte"
      · simp only [h3, if_true, generateSvelteProject_eq]
        cases env.destinationExists <;> cases hi : env.installFails <;>
          simp [writesFollowDirs, dirsBeforeWrites, withoutWritesTo, eventOf, hi]
      · by_cases h4 : a.frontendFramework = "vanilla"
        · simp only [h4, if_true, generateVanillaProject_eq, generateVanillaPages_eq]
          cases env.destinationExists <;> by_cases hu : a.uiType = "landing" <;>
            simp [writesFollowDirs, dirsBeforeWrites, withoutWritesTo, eventOf, hu]
        · simp only [h1, h2, h3, h4, if_false]
          cases env.destinationExists <;>
            simp [writesFollowDirs, dirsBeforeWrites, withoutWritesTo, eventOf]

theorem generateProject_trace_initial (env : Env) (a : Answers) :
    (generateProject env a).1 = [.cancelledNotice] ∨
    ∃ later, (generateProjectCmds env a).map (eventOf env) = (generateProject env a).1 ++ later := by
  unfold generateProject
  split_ifs
  · exact Or.inl rfl
  · right
    obtain ⟨later, h⟩ := exec_events_initial env (generateProjectCmds env a) 0
    exact ⟨later, h.symm⟩

/-- C19 counterexample: in the run of the React record the write of `package.json`
is the second file-system call and the creation of `src` the third, so a file
write precedes a directory creation. -/
theorem react_writes_manifest_before_directories :
    (generateProject freshEnv reactWithRedux).1.take 3 =
      [ .did (.mkdirSync ["home", "user", "demo"]),
        .did (.writeFileSync ["home", "user", "demo", "package.json"]
          (.json (getReactPackageJson reactWithRedux))),
        .did (.mkdirSync ["home", "user", "demo", "src"]) ] ∧
    dirsBeforeWrites false (generateProject freshEnv reactWithRedux).1 = false := by
  decide

/-- C19 (amended): in every run of `generateProject`, every file is written into a
directory that an earlier call of the trace created, and apart from the write of
`package.json` no file write precedes a directory creation; for the framework
`vanilla` no file write at all precedes a directory creation. -/
theorem writes_follow_directory_creation (env : Env) (a : Answers) :
    writesFollowDirs [] (generateProject env a).1 = true ∧
    dirsBeforeWrites false
      (withoutWritesTo (pathJoin (projectPathOf env a) "package.json")
        (generateProject env a).1) = true ∧
    (a.frontendFramework = "vanilla" →
      dirsBeforeWrites false (generateProject env a).1 = true) := by
  have hfull := full_trace_order env a
  rw [(pathJoin_file _).1]
  rcases generateProject_trace_initial env a with h | ⟨later, h⟩
  · rw [h]
    exact ⟨rfl, rfl, fun _ => rfl⟩
  · rw [h] at hfull
    refine ⟨writesFollowDirs_append_left _ _ _ hfull.1, ?_, fun hv => ?_⟩
    · have h2 := hfull.2.1
      rw [withoutWritesTo_append] at h2
      exact dirsBeforeWrites_append_left _ _ _ h2
    · exact dirsBeforeWrites_append_left _ _ _ (hfull.2.2 hv)

/-- C19 witness: the vanilla record of Scenario A in an empty working directory. -/
theorem writes_follow_directory_creation_witness :
    vanillaDemo.frontendFramework = "vanilla" ∧
    writesFollowDirs [] (generateProject freshEnv vanillaDemo).1 = true ∧
    dirsBeforeWrites false (generateProject freshEnv vanillaDemo).1 = true :=
  ⟨rfl, (writes_follow_directory_creation freshEnv vanillaDemo).1,
    (writes_follow_directory_creation freshEnv vanillaDemo).2.2 rfl⟩

theorem generateFramework_no_removal (a : Answers) (p q : Path) :
    Cmd.rmSync q ∉ generateFramework a p := by
  unfold generateFramework
  simp only [beq_iff_eq]
  split_ifs with h1 h2 h3 h4
  · simp [generateReactProject_eq]
  · simp [generateVueProject_eq]
  · simp [generateSvelteProject_eq]
  · rw [generateVanillaProject_eq, generateVanillaPages_eq]
    split_ifs <;> simp
  · simp

theorem eventOf_isRemoval (env : Env) (c : Cmd) :
    (eventOf env c).isRemoval = true ↔ ∃ q, c = .rmSync q := by
  cases c with
  | rmSync q => simp [eventOf, Event.isRemoval]
  | mkdirSync q => simp [eventOf, Event.isRemoval]
  | writeFileSync q c => simp [eventOf, Event.isRemoval]
  | npmInstall cwd =>
    simp only [eventOf]
    split_ifs <;> simp [Event.isRemoval]

theorem exec_no_removal (env : Env) (cmds : List Cmd) (n : Nat)
    (h : ∀ q, Cmd.rmSync q ∉ cmds) :
    ∀ e ∈ (exec env cmds n).1, e.isRemoval = false := by
  intro e he
  have hmem := (exec_events_initial env cmds n).subset he
  obtain ⟨c, hc, rfl⟩ := List.mem_map.mp hmem
  cases hr : (eventOf env c).isRemoval
  · rfl
  · obtain ⟨q, rfl⟩ := (eventOf_isRemoval env c).mp hr
    exact absurd hc (h q)

/-- C20: when the destination exists and the overwrite is confirmed, the removal of
the destination is the first event of the trace, before the creation of the project
directory and before every write, and no later event is a removal; when the removal
call itself throws, nothing has been changed. -/
theorem overwrite_removes_destination_first (env : Env) (a : Answers)
    (he : env.destinationExists = true) (ho : env.overwrite = true) :
    (env.fsFailure = some 0 → (generateProject env a).1 = []) ∧
    (env.fsFailure ≠ some 0 →
      ∃ rest, (generateProject env a).1 = .did (.rmSync (projectPathOf env a)) :: rest ∧
        (∀ e ∈ rest, e.isRemoval = false) ∧
        ((generateProject env a).1.filter Event.isFsMutation).head? =
          some (.did (.rmSync (projectPathOf env a))) ∧
        ((generateProject env a).1.filter Event.isRemoval).length = 1) := by
  have hcmds : generateProjectCmds env a =
      .rmSync (projectPathOf env a) ::
        ([.mkdirSync (projectPathOf env a)] ++ generateFramework a (projectPathOf env a)
          ++ generateReadme (projectPathOf env a) ++ generateGitignore (projectPathOf env a)) := by
    simp [generateProjectCmds, he]
  have hgen : generateProject env a =
      ((exec env (generateProjectCmds env a) 0).1,
        if (exec env (generateProjectCmds env a) 0).2 then .threw else .returned) := by
    simp [generateProject, he, ho]
  rw [hgen, hcmds]
  constructor
  · intro hf
    simp [exec, hf]
  · intro hf
    have hrest := exec_no_removal env
      ([.mkdirSync (projectPathOf env a)] ++ generateFramework a (projectPathOf env a)
        ++ generateReadme (projectPathOf env a) ++ generateGitignore (projectPathOf env a)) 1
      (by
        intro q hq
        simp only [List.mem_append, List.mem_singleton, generateReadme_eq,
          generateGitignore_eq] at hq
        rcases hq with ((hq | hq) | hq) | hq
        · cases hq
        · exact generateFramework_no_removal a _ q hq
        · cases hq
        · cases hq)
    refine ⟨_, ?_, hrest, ?_, ?_⟩
    · simp [exec, hf]
    · simp [exec, hf, Event.isFsMutation]
    · simp only [exec, hf, if_false]
      rw [List.filter_cons_of_pos (by rfl), List.length_cons,
        List.filter_eq_nil_iff.mpr (fun e he => by simp [hrest e he])]
      rfl

/-- C20 witness: the React record when `demo/` exists and the overwrite is
confirmed. -/
theorem overwrite_removes_destination_first_witness :
    overwriteEnv.destinationExists = true ∧ overwriteEnv.overwrite = true ∧
    ∃ rest, (generateProject overwriteEnv reactWithRedux).1 =
        .did (.rmSync ["home", "user", "demo"]) :: rest ∧
      (∀ e ∈ rest, e.isRemoval = false) ∧
      ((generateProject overwriteEnv reactWithRedux).1.filter Event.isFsMutation).head? =
        some (.did (.rmSync ["home", "user", "demo"])) ∧
      ((generateProject overwriteEnv reactWithRedux).1.filter Event.isRemoval).length = 1 :=
  ⟨rfl, rfl,
    (overwrite_removes_destination_first overwriteEnv reactWithRedux rfl rfl).2 (by decide)⟩

/-! ## Trimming and the project-name validator -/

theorem jsTrim_toList (s : String) :
    (jsTrim s).toList = (s.toList.dropWhile isJsWhitespace).rdropWhile isJsWhitespace := rfl

theorem head?_of_initial {α : Type} (l1 l2 : List α) (h : l1 <+: l2) (hne : l1 ≠ []) :
    l1.head? = l2.head? := by
  obtain ⟨t, rfl⟩ := h
  cases l1 with
  | nil => exact absurd rfl hne
  | cons x xs => rfl

theorem startsWithWhitespace_jsTrim (s : String) : startsWithWhitespace (jsTrim s) = false := by
  unfold startsWithWhitespace
  rw [jsTrim_toList]
  by_cases hne : (s.toList.dropWhile isJsWhitespace).rdropWhile isJsWhitespace = []
  · rw [hne]; rfl
  · rw [head?_of_initial _ _ (List.rdropWhile_prefix isJsWhitespace _) hne]
    have h := List.head?_dropWhile_not isJsWhitespace s.toList
    cases hh : (s.toList.dropWhile isJsWhitespace).head? with
    | none => rfl
    | some c =>
      rw [hh] at h
      simpa using h

theorem endsWithWhitespace_jsTrim (s : String) : endsWithWhitespace (jsTrim s) = false := by
  unfold endsWithWhitespace
  rw [jsTrim_toList]
  by_cases hne : (s.toList.dropWhile isJsWhitespace).rdropWhile isJsWhitespace = []
  · rw [hne]; rfl
  · rw [List.getLast?_eq_getLast _ hne]
    have h := List.rdropWhile_last_not isJsWhitespace _ hne
    simpa using h

theorem jsTrim_of_clean (l : List Char)
    (h1 : ∀ c, l.head? = some c → isJsWhitespace c = false)
    (h2 : ∀ c, l.getLast? = some c → isJsWhitespace c = false) :
    (l.dropWhile isJsWhitespace).rdropWhile isJsWhitespace = l := by
  have hd : l.dropWhile isJsWhitespace = l := by
    rw [List.dropWhile_eq_self_iff]
    intro hl
    have : l.head? = some (l.get ⟨0, hl⟩) := by
      cases l with
      | nil => simp at hl
      | cons x xs => rfl
    have h3 := h1 _ this
    simpa using h3
  rw [hd, List.rdropWhile_eq_self_iff]
  intro hl
  simp [h2 _ (List.getLast?_eq_getLast l hl)]

theorem jsTrim_idempotent (s : String) : jsTrim (jsTrim s) = jsTrim s := by
  have h1 := startsWithWhitespace_jsTrim s
  have h2 := endsWithWhitespace_jsTrim s
  unfold startsWithWhitespace at h1
  unfold endsWithWhitespace at h2
  have key : ((jsTrim s).toList.dropWhile isJsWhitespace).rdropWhile isJsWhitespace =
      (jsTrim s).toList := by
    apply jsTrim_of_clean
    · intro c hc; rw [hc] at h1; exact h1
    · intro c hc; rw [hc] at h2; exact h2
  show String.mk (((jsTrim s).toList.dropWhile isJsWhitespace).rdropWhile isJsWhitespace) = _
  rw [key]
  rfl

theorem jsTrim_of_whitespace (s : String) (h : s.toList.all isJsWhitespace = true) :
    jsTrim s = "" := by
  have hd : s.toList.dropWhile isJsWhitespace = [] := by
    rw [List.dropWhile_eq_nil_iff]
    simpa using h
  show String.mk ((s.toList.dropWhile isJsWhitespace).rdropWhile isJsWhitespace) = ""
  rw [hd]
  rfl

theorem jsTrim_decomposition (s : String) :
    ∃ before after : List Char,
      s.toList = before ++ (jsTrim s).toList ++ after ∧
      before.all isJsWhitespace = true ∧ after.all isJsWhitespace = true := by
  refine ⟨s.toList.takeWhile isJsWhitespace,
    (s.toList.dropWhile isJsWhitespace).rtakeWhile isJsWhitespace, ?_, ?_, ?_⟩
  · rw [jsTrim_toList, List.append_assoc]
    have h2 : (s.toList.dropWhile isJsWhitespace).rdropWhile isJsWhitespace ++
        (s.toList.dropWhile isJsWhitespace).rtakeWhile isJsWhitespace =
        s.toList.dropWhile isJsWhitespace := by
      simp [List.rdropWhile, List.rtakeWhile, ← List.reverse_append]
    rw [h2, List.takeWhile_append_dropWhile]
  · rw [List.all_eq_true]
    intro c hc
    exact List.mem_takeWhile_imp hc
  · rw [List.all_eq_true]
    intro c hc
    exact List.mem_rtakeWhile_imp hc

theorem char_le_iff (a b : Char) : a ≤ b ↔ a.toNat ≤ b.toNat := by
  rw [Char.le_def]
  exact Iff.rfl

theorem isNameChar_toNat (c : Char) :
    isNameChar c = true ↔
      (97 ≤ c.toNat ∧ c.toNat ≤ 122) ∨ (65 ≤ c.toNat ∧ c.toNat ≤ 90) ∨
      (48 ≤ c.toNat ∧ c.toNat ≤ 57) ∨ c.toNat = 45 ∨ c.toNat = 95 := by
  have e1 : c = '-' ↔ c.toNat = 45 := by
    constructor
    · rintro rfl; rfl
    · intro h; rw [← Char.ofNat_toNat c, h]
  have e2 : c = '_' ↔ c.toNat = 95 := by
    constructor
    · rintro rfl; rfl
    · intro h; rw [← Char.ofNat_toNat c, h]
  simp only [isNameChar, Bool.or_eq_true, Bool.and_eq_true, decide_eq_true_eq, char_le_iff, e1, e2]
  have : ('a' : Char).toNat = 97 := rfl
  have : ('z' : Char).toNat = 122 := rfl
  have : ('A' : Char).toNat = 65 := rfl
  have : ('Z' : Char).toNat = 90 := rfl
  have : ('0' : Char).toNat = 48 := rfl
  have : ('9' : Char).toNat = 57 := rfl
  omega

theorem not_whitespace_of_nameChar (c : Char) (h : isNameChar c = true) :
    isJsWhitespace c = false := by
  rw [isNameChar_toNat] at h
  simp only [isJsWhitespace, Bool.or_eq_false_iff, Bool.and_eq_false_iff, decide_eq_false_iff_not]
  omega

theorem jsTrim_eq_empty_iff (s : String) :
    jsTrim s = "" ↔ s.toList.all isJsWhitespace = true := by
  constructor
  · intro h
    have h1 : (s.toList.dropWhile isJsWhitespace).rdropWhile isJsWhitespace = [] := by
      have := congrArg String.toList h
      rw [jsTrim_toList] at this
      exact this
    rw [List.rdropWhile_eq_nil_iff] at h1
    have h2 := List.head?_dropWhile_not isJsWhitespace s.toList
    have h3 : s.toList.dropWhile isJsWhitespace = [] := by
      cases hd : s.toList.dropWhile isJsWhitespace with
      | nil => rfl
      | cons x xs =>
        rw [hd] at h1 h2
        have hx := h1 x (List.mem_cons_self _ _)
        simp [hx] at h2
    rw [List.dropWhile_eq_nil_iff] at h3
    simpa using h3
  · exact jsTrim_of_whitespace s

theorem isEmpty_jsTrim (s : String) :
    (jsTrim s).isEmpty = s.toList.all isJsWhitespace := by
  have h := jsTrim_eq_empty_iff s
  cases hw : s.toList.all isJsWhitespace
  · cases he : (jsTrim s).isEmpty
    · rfl
    · have : jsTrim s = "" := by simpa [String.isEmpty_iff] using he
      rw [h.mp this] at hw
      exact absurd hw (by decide)
  · rw [h.mpr hw]
    rfl

/-- C17: `askQuestion` accepts every line without asking again and resolves with
the line stripped of its leading and trailing white space; the result starts and
ends with no white space, is empty for an empty or white-space-only line, and is
left unchanged by a second trimming. -/
theorem askQuestion_trims (question : String) (s : Session) (answer : String)
    (rest : List String) :
    (askQuestion question s (answer :: rest)).settled = .resolved (jsTrim answer) ∧
    (askQuestion question s (answer :: rest)).rest = rest ∧
    (askQuestion question s (answer :: rest)).session.output =
      s.output ++ [.asked question] ∧
    (∃ before after : List Char,
      answer.toList = before ++ (jsTrim answer).toList ++ after ∧
      before.all isJsWhitespace = true ∧ after.all isJsWhitespace = true) ∧
    startsWithWhitespace (jsTrim answer) = false ∧
    endsWithWhitespace (jsTrim answer) = false ∧
    (answer.toList.all isJsWhitespace = true → jsTrim answer = "") ∧
    jsTrim (jsTrim answer) = jsTrim answer :=
  ⟨rfl, rfl, rfl, jsTrim_decomposition answer, startsWithWhitespace_jsTrim answer,
    endsWithWhitespace_jsTrim answer, jsTrim_of_whitespace answer, jsTrim_idempotent answer⟩

/-- C17 witness: a line of blanks and tabs resolves to the empty string, and a
padded line to its inner text. -/
theorem askQuestion_trims_witness :
    (askQuestion "Any color preferences? (optional) " freshSession [" \t  "]).settled =
      .resolved "" ∧
    (askQuestion "Who are your target users? " freshSession ["  busy parents \t"]).settled =
      .resolved "busy parents" :=
  ⟨((askQuestion_trims "Any color preferences? (optional) " freshSession " \t  " []).1).trans
      (congrArg Settled.resolved
        ((askQuestion_trims "Any color preferences? (optional) " freshSession " \t  "
          []).2.2.2.2.2.2.1 (by decide))),
    (askQuestion_trims "Who are your target users? " freshSession "  busy parents \t" []).1⟩

/-- C18: the validator accepts exactly the non-empty inputs made of letters,
digits, hyphens and underscores; it rejects an empty or white-space-only input
with `Project name cannot be empty` and every other input that holds a different
character with the message on permitted characters. -/
theorem validateProjectName_spec (input : String) :
    (validateProjectName input = .accepted ↔
      input ≠ "" ∧ input.toList.all isNameChar = true) ∧
    (input.toList.all isJsWhitespace = true →
      validateProjectName input = .rejected "Project name cannot be empty") ∧
    (input.toList.all isJsWhitespace = false → input.toList.all isNameChar = false →
      validateProjectName input =
        .rejected
          "Project name can only contain letters, numbers, hyphens, and underscores") := by
  have hne : input ≠ "" ↔ input.toList ≠ [] := by
    constructor
    · intro h hl
      exact h (String.ext (by simpa using hl))
    · rintro h rfl
      exact h rfl
  refine ⟨?_, ?_, ?_⟩
  · unfold validateProjectName
    rw [isEmpty_jsTrim]
    cases hw : input.toList.all isJsWhitespace
    · cases hn : input.toList.all isNameChar
      · simp [hn]
      · have hl : input.toList ≠ [] := by
          intro hl
          rw [hl] at hw
          exact absurd hw (by decide)
        simp [hn, hne, hl]
    · simp only [if_true]
      constructor
      · intro h; cases h
      · rintro ⟨h1, h2⟩
        exfalso
        rw [hne] at h1
        cases hl : input.toList with
        | nil => exact h1 hl
        | cons c cs =>
          rw [hl] at hw h2
          simp only [List.all_cons, Bool.and_eq_true] at hw h2
          have := not_whitespace_of_nameChar c h2.1
          rw [hw.1] at this
          exact absurd this (by decide)
  · intro hw
    unfold validateProjectName
    rw [isEmpty_jsTrim, hw]
    rfl
  · intro hw hn
    unfold validateProjectName
    rw [isEmpty_jsTrim, hw, hn]
    simp

/-- C18 witness: an accepted name, a blank input, and a name with a leading
space. -/
theorem validateProjectName_spec_witness :
    validateProjectName "my-ui_project9" = .accepted ∧
    validateProjectName "   " = .rejected "Project name cannot be empty" ∧
    validateProjectName " demo" =
      .rejected "Project name can only contain letters, numbers, hyphens, and underscores" :=
  ⟨(validateProjectName_spec "my-ui_project9").1.mpr (by decide),
    (validateProjectName_spec "   ").2.1 (by decide),
    (validateProjectName_spec " demo").2.2 (by decide) (by decide)⟩

/-! ## Numbered prompts -/

theorem lookupChoice_none (table : List (Int × String)) (choice : Int)
    (h : ∀ p ∈ table, p.1 ≠ choice) : lookupChoice table choice = none := by
  unfold lookupChoice
  induction table with
  | nil => rfl
  | cons p rest ih =>
    obtain ⟨k, v⟩ := p
    have hk : (choice == k) = false := by
      have := h (k, v) (List.mem_cons_self _ _)
      simpa using fun e => this e.symm
    simp only [List.lookup, hk]
    exact ih (fun q hq => h q (List.mem_cons_of_mem _ hq))

/-- C12: `getInterfaceTypeFromChoice` gives a non-empty label for every choice from
1 to 6 and `getDesignStyleFromChoice` for every choice from 1 to 8; distinct choices
get distinct labels, and an integer outside the range gets no label. -/
theorem choice_labels (c : Int) :
    (1 ≤ c → c ≤ 6 →
      ∃ label, getInterfaceTypeFromChoice c = some label ∧ label ≠ "") ∧
    (1 ≤ c → c ≤ 8 →
      ∃ label, getDesignStyleFromChoice c = some label ∧ label ≠ "") ∧
    (∀ c2 : Int, 1 ≤ c → c ≤ 6 → 1 ≤ c2 → c2 ≤ 6 →
      getInterfaceTypeFromChoice c = getInterfaceTypeFromChoice c2 → c = c2) ∧
    (∀ c2 : Int, 1 ≤ c → c ≤ 8 → 1 ≤ c2 → c2 ≤ 8 →
      getDesignStyleFromChoice c = getDesignStyleFromChoice c2 → c = c2) ∧
    (c < 1 ∨ 6 < c → getInterfaceTypeFromChoice c = none) ∧
    (c < 1 ∨ 8 < c → getDesignStyleFromChoice c = none) := by
  refine ⟨?_, ?_, ?_, ?_, ?_, ?_⟩
  · intro h1 h2
    interval_cases c <;> exact ⟨_, rfl, by decide⟩
  · intro h1 h2
    interval_cases c <;> exact ⟨_, rfl, by decide⟩
  · intro c2 h1 h2 h3 h4
    interval_cases c <;> interval_cases c2 <;> decide
  · intro c2 h1 h2 h3 h4
    interval_cases c <;> interval_cases c2 <;> decide
  · intro h
    apply lookupChoice_none
    intro p hp
    simp only [interfaceTypes, List.mem_cons, List.mem_singleton, List.not_mem_nil,
      or_false] at hp
    rcases hp with rfl | rfl | rfl | rfl | rfl | rfl <;> simp <;> omega
  · intro h
    apply lookupChoice_none
    intro p hp
    simp only [designStyles, List.mem_cons, List.mem_singleton, List.not_mem_nil,
      or_false] at hp
    rcases hp with rfl | rfl | rfl | rfl | rfl | rfl | rfl | rfl <;> simp <;> omega

/-- C12 witness: choice 2 of the interface types, choice 8 of the design styles,
and the integers just outside the ranges. -/
theorem choice_labels_witness :
    (∃ label, getInterfaceTypeFromChoice 2 = some label ∧ label ≠ "") ∧
    (∃ label, getDesignStyleFromChoice 8 = some label ∧ label ≠ "") ∧
    getInterfaceTypeFromChoice 7 = none ∧
    getDesignStyleFromChoice 0 = none :=
  ⟨(choice_labels 2).1 (by decide) (by decide),
    (choice_labels 8).2.1 (by decide) (by decide),
    (choice_labels 7).2.2.2.2.1 (Or.inr (by decide)),
    (choice_labels 0).2.2.2.2.2 (Or.inl (by decide))⟩

/-- C13: for every choice from 1 to 6, with the interface type set to the label of the
choice, the wireframe template, the design recommendations and the implementation
suggestions are each a non-empty string and none of the calls throws. -/
theorem lookups_succeed_for_offered_types (c : Int) (d : ProjectData)
    (h1 : 1 ≤ c) (h2 : c ≤ 6) (hd : d.interfaceType = getInterfaceTypeFromChoice c) :
    (∃ text, generateWireframeTemplate d = .diagram text ∧ text ≠ "") ∧
    (∃ text, getDesignRecommendations d = .ok text ∧ text ≠ "") ∧
    (∃ text, getImplementationSuggestions d = .ok text ∧ text ≠ "") := by
  have e1 : generateWireframeTemplate d =
      generateWireframeTemplate { interfaceType := d.interfaceType } := rfl
  have e2 : getDesignRecommendations d =
      getDesignRecommendations { interfaceType := d.interfaceType } := rfl
  have e3 : getImplementationSuggestions d =
      getImplementationSuggestions { interfaceType := d.interfaceType } := rfl
  rw [e1, e2, e3, hd]
  interval_cases c <;>
    exact ⟨⟨_, rfl, by decide⟩, ⟨_, rfl, by decide⟩, ⟨_, rfl, by decide⟩⟩

/-- C13 witness: the record of the test, whose interface type is the label of
choice 1. -/
theorem lookups_succeed_for_offered_types_witness :
    (∃ text,
      generateWireframeTemplate { interfaceType := some "Web Application" } =
        .diagram text ∧ text ≠ "") ∧
    (∃ text,
      getDesignRecommendations { interfaceType := some "Web Application" } = .ok text ∧
        text ≠ "") ∧
    (∃ text,
      getImplementationSuggestions { interfaceType := some "Web Application" } =
        .ok text ∧ text ≠ "") :=
  lookups_succeed_for_offered_types 1 { interfaceType := some "Web Application" }
    (by decide) (by decide) rfl

theorem selectInterfaceType_invalid (s : Session) (answer : String) (rest : List String)
    (h : choiceInRange 6 (parseInt answer) = false) :
    selectInterfaceType s (answer :: rest) =
      selectInterfaceType
        ((s.display interfaceTypeMenu).display [.printed "Invalid choice. Please select 1-6."])
        rest := by
  rw [selectInterfaceType, if_neg (by simp [h])]

theorem selectDesignStyle_invalid (s : Session) (answer : String) (rest : List String)
    (h : choiceInRange 8 (parseInt answer) = false) :
    selectDesignStyle s (answer :: rest) =
      selectDesignStyle
        ((s.display designStyleMenu).display [.printed "Invalid choice. Please select 1-8."])
        rest := by
  rw [selectDesignStyle, if_neg (by simp [h])]

theorem selectWebsiteColorScheme_invalid (s : Session) (answer : String)
    (rest : List String) (h : choiceInRange 7 (parseInt answer) = false) :
    selectWebsiteColorScheme s (answer :: rest) =
      selectWebsiteColorScheme
        ((s.display colorSchemeMenu).display [.printed "Invalid choice. Please select 1-7."])
        rest := by
  rw [selectWebsiteColorScheme, if_neg (by simp [h])]

/-- C11: an answer whose integer parse is outside the range of a numbered prompt
is not accepted.  The prompt shows its error line and runs again on the remaining
input with the fields of the session unchanged; when no further line arrives it
has asked its question again and is waiting, still with the fields unchanged. -/
theorem invalid_choice_asks_again (s : Session) (answer : String) (rest : List String) :
    (choiceInRange 6 (parseInt answer) = false →
      selectInterfaceType s (answer :: rest) =
        selectInterfaceType
          ((s.display interfaceTypeMenu).display [.printed "Invalid choice. Please select 1-6."])
          rest ∧
      selectInterfaceType s [answer] =
        ⟨{ s with output := s.output ++ interfaceTypeMenu
            ++ [.printed "Invalid choice. Please select 1-6."] ++ interfaceTypeMenu },
          [], .waiting⟩) ∧
    (choiceInRange 8 (parseInt answer) = false →
      selectDesignStyle s (answer :: rest) =
        selectDesignStyle
          ((s.display designStyleMenu).display [.printed "Invalid choice. Please select 1-8."])
          rest ∧
      selectDesignStyle s [answer] =
        ⟨{ s with output := s.output ++ designStyleMenu
            ++ [.printed "Invalid choice. Please select 1-8."] ++ designStyleMenu },
          [], .waiting⟩) ∧
    (choiceInRange 7 (parseInt answer) = false →
      selectWebsiteColorScheme s (answer :: rest) =
        selectWebsiteColorScheme
          ((s.display colorSchemeMenu).display [.printed "Invalid choice. Please select 1-7."])
          rest ∧
      selectWebsiteColorScheme s [answer] =
        ⟨{ s with output := s.output ++ colorSchemeMenu
            ++ [.printed "Invalid choice. Please select 1-7."] ++ colorSchemeMenu },
          [], .waiting⟩) := by
  refine ⟨fun h => ⟨selectInterfaceType_invalid s answer rest h, ?_⟩,
    fun h => ⟨selectDesignStyle_invalid s answer rest h, ?_⟩,
    fun h => ⟨selectWebsiteColorScheme_invalid s answer rest h, ?_⟩⟩
  · rw [selectInterfaceType_invalid s answer [] h]
    simp [selectInterfaceType, Session.display, List.append_assoc]
  · rw [selectDesignStyle_invalid s answer [] h]
    simp [selectDesignStyle, Session.display, List.append_assoc]
  · rw [selectWebsiteColorScheme_invalid s answer [] h]
    simp [selectWebsiteColorScheme, Session.display, List.append_assoc]

/-- C11 witness: the answers `0`, `9` and the empty line. -/
theorem invalid_choice_asks_again_witness :
    parseInt "0" = some 0 ∧ parseInt "9" = some 9 ∧ parseInt "" = none ∧
    selectInterfaceType freshSession ["0"] =
      ⟨{ freshSession with output := freshSession.output ++ interfaceTypeMenu
          ++ [.printed "Invalid choice. Please select 1-6."] ++ interfaceTypeMenu },
        [], .waiting⟩ ∧
    selectDesignStyle freshSession ["9"] =
      ⟨{ freshSession with output := freshSession.output ++ designStyleMenu
          ++ [.printed "Invalid choice. Please select 1-8."] ++ designStyleMenu },
        [], .waiting⟩ ∧
    selectWebsiteColorScheme freshSession [""] =
      ⟨{ freshSession with output := freshSession.output ++ colorSchemeMenu
          ++ [.printed "Invalid choice. Please select 1-7."] ++ colorSchemeMenu },
        [], .waiting⟩ :=
  ⟨by decide, by decide, by decide,
    ((invalid_choice_asks_again freshSession "0" []).1 (by decide)).2,
    ((invalid_choice_asks_again freshSession "9" []).2.1 (by decide)).2,
    ((invalid_choice_asks_again freshSession "" []).2.2 (by decide)).2⟩

/-! ## Colour variables -/

/-- For a theme of the table the block holds the fragment of that theme. -/
theorem getColorVariables_of_table_theme (a : Answers) (fragment : String)
    (h : colorThemes.lookup a.colorTheme = some fragment) :
    getColorVariables a = ":root \x7b" ++ fragment ++ "\n\x7d" := by
  simp [getColorVariables, colorVariablesOf, lookupProperty, propertyKey, h, interpolate]

/-- C14: for the colour theme `solarized`, which is not in the theme table, and for
an absent colour theme, `getColorVariables` yields a block that holds the text
`undefined` instead of a default set of colour variables, while the sibling read
`getColorThemeLabel` falls back to `Default`. -/
theorem colorVariables_have_no_default :
    "solarized" ∉ colorThemes.map Prod.fst ∧
    getColorVariables solarizedAnswers = ":root \x7bundefined\n\x7d" ∧
    colorVariablesOf none = ":root \x7bundefined\n\x7d" ∧
    getColorThemeLabel (some "solarized") = "Default" := by
  decide

/-! ## The question list -/

theorem prompt_questions (u : Replies) :
    prompt u questions [] =
      [ ("uiType", .str u.uiType), ("colorTheme", .str u.colorTheme),
        ("designStyle", .str u.designStyle),
        ("frontendFramework", .str u.frontendFramework),
        ("cssFramework", .str u.cssFramework), ("projectName", .str u.projectName) ]
      ++ (if u.frontendFramework = "vanilla" then []
          else [("includeRouter", Answer.bool u.includeRouter)])
      ++ (if u.frontendFramework = "react" ∨ u.frontendFramework = "vue" then
            [("includeStateManagement", Answer.bool u.includeStateManagement)]
          else [])
      ++ (if (u.frontendFramework = "react" ∨ u.frontendFramework = "vue") ∧
              u.includeStateManagement = true then
            [("stateManager", Answer.str u.stateManager)]
          else []) := by
  by_cases h1 : u.frontendFramework = "vanilla"
  · simp [prompt, questions, whenIncludeRouter, whenIncludeStateManagement, whenStateManager,
      Hash.set, Hash.get, List.lookup, Replies.answerTo, h1]
  · by_cases h2 : u.frontendFramework = "react"
    · cases h3 : u.includeStateManagement <;>
      simp [prompt, questions, whenIncludeRouter, whenIncludeStateManagement, whenStateManager,
        Hash.set, Hash.get, List.lookup, Replies.answerTo, h2, h3, Answer.truthy]
    · by_cases h4 : u.frontendFramework = "vue"
      · cases h3 : u.includeStateManagement <;>
        simp [prompt, questions, whenIncludeRouter, whenIncludeStateManagement, whenStateManager,
          Hash.set, Hash.get, List.lookup, Replies.answerTo, h4, h3, Answer.truthy]
      · simp [prompt, questions, whenIncludeRouter, whenIncludeStateManagement, whenStateManager,
          Hash.set, Hash.get, List.lookup, Replies.answerTo, h1, h2, h4, Answer.truthy]

/-- C15: a question whose `when` function returns false stores nothing.  In the
record gathered from any replies, `includeRouter` is present exactly when the
framework is not `vanilla`, `includeStateManagement` exactly when the framework is
`react` or `vue`, and `stateManager` exactly when `includeStateManagement` was
answered true; so a present `stateManager` implies that `includeStateManagement` is
true and that the framework is `react` or `vue`. -/
theorem conditional_answers_present (u : Replies) :
    (collectAnswers u).frontendFramework = u.frontendFramework ∧
    (((prompt u questions []).get "includeRouter").isSome = true ↔
      u.frontendFramework ≠ "vanilla") ∧
    (((prompt u questions []).get "includeStateManagement").isSome = true ↔
      (u.frontendFramework = "react" ∨ u.frontendFramework = "vue")) ∧
    (((prompt u questions []).get "stateManager").isSome = true ↔
      (prompt u questions []).get "includeStateManagement" = some (.bool true)) ∧
    ((collectAnswers u).includeRouter.isSome = true ↔
      (collectAnswers u).frontendFramework ≠ "vanilla") ∧
    ((collectAnswers u).includeStateManagement.isSome = true ↔
      ((collectAnswers u).frontendFramework = "react" ∨
        (collectAnswers u).frontendFramework = "vue")) ∧
    ((collectAnswers u).stateManager.isSome = true ↔
      (collectAnswers u).includeStateManagement = some true) ∧
    ((collectAnswers u).stateManager.isSome = true →
      (collectAnswers u).includeStateManagement = some true ∧
      ((collectAnswers u).frontendFramework = "react" ∨
        (collectAnswers u).frontendFramework = "vue")) := by
  unfold collectAnswers
  rw [prompt_questions]
  by_cases h1 : u.frontendFramework = "vanilla"
  · simp [Hash.toAnswers, Hash.str, Hash.str?, Hash.bool?, Hash.get, List.lookup, h1]
  · by_cases h2 : u.frontendFramework = "react"
    · cases h3 : u.includeStateManagement <;>
        simp [Hash.toAnswers, Hash.str, Hash.str?, Hash.bool?, Hash.get, List.lookup, h2, h3]
    · by_cases h4 : u.frontendFramework = "vue"
      · cases h3 : u.includeStateManagement <;>
          simp [Hash.toAnswers, Hash.str, Hash.str?, Hash.bool?, Hash.get, List.lookup, h4, h3]
      · simp [Hash.toAnswers, Hash.str, Hash.str?, Hash.bool?, Hash.get, List.lookup, h1, h2,
          h4]

/-- C15 witness: the replies of a user who picks React with Redux. -/
theorem conditional_answers_present_witness :
    (collectAnswers reduxReplies).stateManager.isSome = true ∧
    (collectAnswers reduxReplies).includeStateManagement = some true ∧
    ((collectAnswers reduxReplies).frontendFramework = "react" ∨
      (collectAnswers reduxReplies).frontendFramework = "vue") :=
  ⟨by decide,
    ((conditional_answers_present reduxReplies).2.2.2.2.2.2.2 (by decide)).1,
    ((conditional_answers_present reduxReplies).2.2.2.2.2.2.2 (by decide)).2⟩

/-- C16: no `when` function of the question list reads a later answer.  For two
hashes that agree on the answers to all questions declared before a question, the
`when` function of that question gives the same result; those of `includeRouter`
and `includeStateManagement` depend on `frontendFramework` only, that of
`stateManager` on `includeStateManagement` only. -/
theorem when_reads_earlier_answers (h1 h2 : Hash) :
    (∀ (i : Nat) (q : Question) (visible : Hash → Bool),
      questions[i]? = some q → q.when = some visible → agreeBefore i h1 h2 = true →
        visible h1 = visible h2) ∧
    (h1.get "frontendFramework" = h2.get "frontendFramework" →
      whenIncludeRouter h1 = whenIncludeRouter h2 ∧
      whenIncludeStateManagement h1 = whenIncludeStateManagement h2) ∧
    (h1.get "includeStateManagement" = h2.get "includeStateManagement" →
      whenStateManager h1 = whenStateManager h2) := by
  have hfw : h1.get "frontendFramework" = h2.get "frontendFramework" →
      whenIncludeRouter h1 = whenIncludeRouter h2 ∧
      whenIncludeStateManagement h1 = whenIncludeStateManagement h2 := by
    intro h
    simp [whenIncludeRouter, whenIncludeStateManagement, h]
  have hsm : h1.get "includeStateManagement" = h2.get "includeStateManagement" →
      whenStateManager h1 = whenStateManager h2 := by
    intro h
    simp [whenStateManager, h]
  refine ⟨?_, hfw, hsm⟩
  intro i q visible hq hw hag
  have hi : i < 9 := by
    by_contra hge
    have : questions[i]? = none := by
      apply List.getElem?_eq_none
      simp [questions]
      omega
    rw [this] at hq
    cases hq
  interval_cases i <;> simp [questions] at hq <;> subst hq <;> simp at hw
  · subst hw
    simp [agreeBefore, questions] at hag
    exact (hfw hag.2.2.2.1).1
  · subst hw
    simp [agreeBefore, questions] at hag
    exact (hfw hag.2.2.2.1).2
  · subst hw
    simp [agreeBefore, questions] at hag
    exact hsm hag.2.2.2.2.2.2.2

/-- C16 witness: the hash of the React and Redux replies and the same hash with
another `stateManager` give the same result for the `when` function of
`stateManager`, the ninth question. -/
theorem when_reads_earlier_answers_witness :
    agreeBefore 8 (prompt reduxReplies questions [])
      ((prompt reduxReplies questions []).set "stateManager" (.str "zustand")) = true ∧
    whenStateManager (prompt reduxReplies questions []) =
      whenStateManager
        ((prompt reduxReplies questions []).set "stateManager" (.str "zustand")) :=
  ⟨by decide,
    (when_reads_earlier_answers (prompt reduxReplies questions [])
      ((prompt reduxReplies questions []).set "stateManager" (.str "zustand"))).1 8
      { type := .list stateManagerChoices, name := "stateManager",
        when := some whenStateManager }
      whenStateManager rfl rfl (by decide)⟩

/-! ## Cancellation, installation and the base dependencies -/

/-- C21: when the final confirmation is declined, the run shows the cancellation
notice and ends cancelled with exit status 0; its trace holds no call at all, so
`generateProject` has not run and nothing has been done to the file system. -/
theorem declined_proceed_cancels (env : Env) (a : Answers) (hp : env.proceed = false) :
    run env a = ([.cancelledNotice], .cancelled) ∧
    exitStatus (run env a).2 = 0 ∧
    (run env a).2 ≠ .failure ∧
    (∀ e ∈ (run env a).1, e.isFsMutation = false ∧ ∀ c, e ≠ .did c) ∧
    (∀ u : Replies, run env (collectAnswers u) = ([.cancelledNotice], .cancelled)) := by
  have h : ∀ b : Answers, run env b = ([.cancelledNotice], .cancelled) := by
    intro b
    simp [run, hp]
  refine ⟨h a, ?_, ?_, ?_, fun u => h _⟩
  · rw [h a]; rfl
  · rw [h a]; decide
  · rw [h a]
    intro e he
    simp only [List.mem_singleton] at he
    subst he
    exact ⟨rfl, fun c hc => by cases hc⟩

/-- C21 witness: the React record when the final confirmation is declined. -/
theorem declined_proceed_cancels_witness :
    declinedProceedEnv.proceed = false ∧
    run declinedProceedEnv reactWithRedux = ([.cancelledNotice], .cancelled) ∧
    exitStatus (run declinedProceedEnv reactWithRedux).2 = 0 :=
  ⟨rfl, (declined_proceed_cancels declinedProceedEnv reactWithRedux rfl).1,
    (declined_proceed_cancels declinedProceedEnv reactWithRedux rfl).2.1⟩

theorem run_of_clean (env : Env) (a : Answers) (hp : env.proceed = true)
    (hgo : env.destinationExists = true → env.overwrite = true)
    (hok : env.fsFailure = none) :
    run env a =
      ((generateProjectCmds env a).map (eventOf env) ++ [.successMessage], .success) := by
  unfold run
  rw [generateProject_of_clean env a hgo hok]
  simp [hp]

theorem generateProjectCmds_with_install (env : Env) (a : Answers)
    (hfw : a.frontendFramework = "react" ∨ a.frontendFramework = "vue" ∨
      a.frontendFramework = "svelte") :
    ∃ before : List Cmd,
      generateProjectCmds env a =
        before ++
          [ .npmInstall (projectPathOf env a),
            .writeFileSync (projectPathOf env a ++ ["README.md"]) (.template "readme"),
            .writeFileSync (projectPathOf env a ++ [".gitignore"]) (.template "gitignore") ] ∧
      (∀ c ∈ before, ∀ cwd, c ≠ .npmInstall cwd) ∧
      cmdWritePaths before = cmdWritePaths (generateFramework a (projectPathOf env a)) := by
  rw [generateProjectCmds_cases]
  rcases hfw with h | h | h
  · refine ⟨(if env.destinationExists then [Cmd.rmSync (projectPathOf env a)] else [])
      ++ [.mkdirSync (projectPathOf env a)]
      ++ (generateReactProject a (projectPathOf env a)).dropLast, ?_, ?_, ?_⟩
    · simp [h, generateReactProject_eq]
    · intro c hc cwd hcc
      subst hcc
      simp [generateReactProject_eq] at hc
    · have hg : generateFramework a (projectPathOf env a) =
          generateReactProject a (projectPathOf env a) := by
        simp [generateFramework, h]
      rw [hg, generateReactProject_eq]
      cases env.destinationExists <;> simp [cmdWritePaths]
  · refine ⟨(if env.destinationExists then [Cmd.rmSync (projectPathOf env a)] else [])
      ++ [.mkdirSync (projectPathOf env a)]
      ++ (generateVueProject a (projectPathOf env a)).dropLast, ?_, ?_, ?_⟩
    · simp [h, generateVueProject_eq]
    · intro c hc cwd hcc
      subst hcc
      simp [generateVueProject_eq] at hc
    · have hg : generateFramework a (projectPathOf env a) =
          generateVueProject a (projectPathOf env a) := by
        simp [generateFramework, h]
      rw [hg, generateVueProject_eq]
      cases env.destinationExists <;> simp [cmdWritePaths]
  · refine ⟨(if env.destinationExists then [Cmd.rmSync (projectPathOf env a)] else [])
      ++ [.mkdirSync (projectPathOf env a)]
      ++ (generateSvelteProject a (projectPathOf env a)).dropLast, ?_, ?_, ?_⟩
    · simp [h, generateSvelteProject_eq]
    · intro c hc cwd hcc
      subst hcc
      simp [generateSvelteProject_eq] at hc
    · have hg : generateFramework a (projectPathOf env a) =
          generateSvelteProject a (projectPathOf env a) := by
        simp [generateFramework, h]
      rw [hg, generateSvelteProject_eq]
      cases env.destinationExists <;> simp [cmdWritePaths]

theorem eventOf_isInstall (env : Env) (c : Cmd) (h : ∀ cwd, c ≠ .npmInstall cwd) :
    (eventOf env c).isInstall = false := by
  cases c with
  | rmSync q => rfl
  | mkdirSync q => rfl
  | writeFileSync q t => rfl
  | npmInstall cwd => exact absurd rfl (h cwd)

theorem generateProjectCmds_vanilla_no_install (env : Env) (a : Answers)
    (hf : a.frontendFramework = "vanilla") :
    ∀ c ∈ generateProjectCmds env a, ∀ cwd, c ≠ .npmInstall cwd := by
  intro c hc cwd hcc
  subst hcc
  rw [generateProjectCmds_vanilla env a hf] at hc
  cases env.destinationExists <;> by_cases hu : a.uiType = "landing" <;> simp [hu] at hc

/-- C22: for `react`, `vue` and `svelte`, in a run that is not cancelled and meets
no file-system error, a failing installation leaves only a warning: the warning
comes after every file of the framework has been written, `README.md` and
`.gitignore` are written after it, and the run ends with the success message and
exit status 0.  For `vanilla` no run holds an installation or its warning. -/
theorem install_failure_is_not_fatal (env : Env) (a : Answers) :
    ((a.frontendFramework = "react" ∨ a.frontendFramework = "vue" ∨
        a.frontendFramework = "svelte") →
      env.proceed = true → (env.destinationExists = true → env.overwrite = true) →
      env.fsFailure = none → env.installFails = true →
      ∃ before : List Event,
        (run env a).1 =
          before ++
            [ .installWarning,
              .did (.writeFileSync (pathJoin (projectPathOf env a) "README.md")
                (.template "readme")),
              .did (.writeFileSync (pathJoin (projectPathOf env a) ".gitignore")
                (.template "gitignore")),
              .successMessage ] ∧
        (∀ e ∈ before, e.isInstall = false) ∧
        writtenPaths before = cmdWritePaths (generateFramework a (projectPathOf env a)) ∧
        (run env a).2 = .success ∧
        exitStatus (run env a).2 = 0) ∧
    (a.frontendFramework = "vanilla" → ∀ e ∈ (run env a).1, e.isInstall = false) := by
  constructor
  · intro hfw hp hgo hok hi
    obtain ⟨before, hcmds, hno, hpaths⟩ := generateProjectCmds_with_install env a hfw
    rw [run_of_clean env a hp hgo hok, hcmds]
    refine ⟨before.map (eventOf env), ?_, ?_, ?_, rfl, rfl⟩
    · simp [eventOf, hi]
      constructor <;> rfl
    · intro e he
      obtain ⟨c, hc, rfl⟩ := List.mem_map.mp he
      exact eventOf_isInstall env c (hno c hc)
    · rw [writtenPaths_map_eventOf, hpaths]
  · intro hf e he
    have hcmd : ∀ e ∈ (generateProject env a).1, e.isInstall = false := by
      intro e he
      rcases generateProject_trace_initial env a with h | ⟨later, h⟩
      · rw [h] at he
        simp only [List.mem_singleton] at he
        subst he
        rfl
      · have hmem : e ∈ (generateProjectCmds env a).map (eventOf env) := by
          rw [h]
          exact List.mem_append_left _ he
        obtain ⟨c, hc, rfl⟩ := List.mem_map.mp hmem
        exact eventOf_isInstall env c (generateProjectCmds_vanilla_no_install env a hf c hc)
    unfold run at he
    split_ifs at he
    · simp only [List.mem_singleton] at he
      subst he
      rfl
    · split at he
      · rename_i es heq
        have hes : es = (generateProject env a).1 := by rw [heq]
        rw [List.mem_append] at he
        rcases he with he | he
        · exact hcmd e (hes ▸ he)
        · simp only [List.mem_singleton] at he
          subst he
          rfl
      · rename_i es heq
        have hes : es = (generateProject env a).1 := by rw [heq]
        exact hcmd e (hes ▸ he)
      · rename_i es heq
        have hes : es = (generateProject env a).1 := by rw [heq]
        rw [List.mem_append] at he
        rcases he with he | he
        · exact hcmd e (hes ▸ he)
        · simp only [List.mem_singleton] at he
          subst he
          rfl

/-- C22 witness: the React record in an empty working directory where the
installation fails. -/
theorem install_failure_is_not_fatal_witness :
    (∃ before : List Event,
      (run failedInstallEnv reactWithRedux).1 =
        before ++
          [ .installWarning,
            .did (.writeFileSync
              (pathJoin (projectPathOf failedInstallEnv reactWithRedux) "README.md")
              (.template "readme")),
            .did (.writeFileSync
              (pathJoin (projectPathOf failedInstallEnv reactWithRedux) ".gitignore")
              (.template "gitignore")),
            .successMessage ] ∧
      (∀ e ∈ before, e.isInstall = false) ∧
      writtenPaths before =
        cmdWritePaths
          (generateFramework reactWithRedux (projectPathOf failedInstallEnv reactWithRedux)) ∧
      (run failedInstallEnv reactWithRedux).2 = .success ∧
      exitStatus (run failedInstallEnv reactWithRedux).2 = 0) ∧
    (∀ e ∈ (run failedInstallEnv vanillaDemo).1, e.isInstall = false) :=
  ⟨(install_failure_is_not_fatal failedInstallEnv reactWithRedux).1 (Or.inl rfl) rfl
      (by decide) rfl rfl,
    (install_failure_is_not_fatal failedInstallEnv vanillaDemo).2 rfl⟩

theorem getStr_setIn (m : Manifest) (f k v g : String) :
    getStr (setIn m f k v) g = getStr m g := by
  induction m with
  | nil => rfl
  | cons p rest ih =>
    obtain ⟨k0, v0⟩ := p
    by_cases h1 : k0 = f
    · subst h1
      by_cases h2 : k0 = g
      · subst h2
        cases v0 <;> simp [setIn, getStr]
      · cases v0 <;> simp [setIn, getStr, h2]
    · by_cases h2 : k0 = g
      · subst h2
        simp [setIn, getStr, h1]
      · simp [setIn, getStr, h1, h2, ih]

theorem getStr_setField_other (m : Manifest) (f g : String) (x : Field) (h : f ≠ g) :
    getStr (setField m f x) g = getStr m g := by
  induction m with
  | nil => simp [setField, getStr, h]
  | cons p rest ih =>
    obtain ⟨k0, v0⟩ := p
    by_cases h1 : k0 = f
    · subst h1
      simp [setField, getStr, h]
    · by_cases h2 : k0 = g
      · subst h2
        simp [setField, getStr, h1]
      · simp [setField, getStr, h1, h2, ih]

theorem name_getReactPackageJson (a : Answers) :
    getStr (getReactPackageJson a) "name" = some a.projectName := by
  have h0 : getStr (reactBase a) "name" = some a.projectName := by
    simp [reactBase, getStr]
  have h1 : getStr (reactCssFramework a (reactBase a)) "name" = some a.projectName := by
    unfold reactCssFramework
    split_ifs <;> simp [getStr_setIn, getStr_setField_other, h0]
  have h2 : getStr (reactRouting a (reactCssFramework a (reactBase a))) "name" =
      some a.projectName := by
    unfold reactRouting
    split_ifs <;> simp [getStr_setIn, h1]
  unfold getReactPackageJson reactStateManagement
  split_ifs <;> simp [getStr_setIn, h2]

theorem name_getVuePackageJson (a : Answers) :
    getStr (getVuePackageJson a) "name" = some a.projectName := by
  have h0 : getStr (vueBase a) "name" = some a.projectName := by
    simp [vueBase, getStr]
  have h1 : getStr (vueCssFramework a (vueBase a)) "name" = some a.projectName := by
    unfold vueCssFramework
    split_ifs <;> simp [getStr_setIn, h0]
  have h2 : getStr (vueRouting a (vueCssFramework a (vueBase a))) "name" =
      some a.projectName := by
    unfold vueRouting
    split_ifs <;> simp [getStr_setIn, h1]
  unfold getVuePackageJson vueStateManagement
  split_ifs <;> simp [getStr_setIn, h2]

theorem reactCss_base_keys (a : Answers) (k : String)
    (hk : k ∈ ["react", "react-dom", "react-scripts"]) :
    hasKey (dependencies (reactCssFramework a (reactBase a))) k = true := by
  simp only [List.mem_cons, List.mem_singleton, List.not_mem_nil, or_false] at hk
  unfold reactCssFramework
  rcases hk with rfl | rfl | rfl <;> split_ifs <;>
    simp [dependencies, reactBase, setIn, setField, setProp, getObj, hasKey_cons, hasKey_nil]

theorem react_base_dependency (a : Answers) (k : String)
    (hk : k ∈ ["react", "react-dom", "react-scripts"]) :
    hasKey (dependencies (getReactPackageJson a)) k = true := by
  unfold getReactPackageJson
  rw [dependencies_reactStateManagement _ _ _
      (by rw [isObj_reactRouting]; exact isObj_reactCss a),
    dependencies_reactRouting _ _ _ (isObj_reactCss a), reactCss_base_keys a k hk]
  rfl

theorem vue_base_dependency (a : Answers) :
    hasKey (dependencies (getVuePackageJson a)) "vue" = true := by
  have h0 : isObj (vueCssFramework a (vueBase a)) "dependencies" = true := by
    rw [isObj_vueCss]; exact isObj_vueBase_dependencies a
  have h1 : hasKey (dependencies (vueCssFramework a (vueBase a))) "vue" = true := by
    unfold vueCssFramework
    split_ifs <;>
      simp [dependencies, vueBase, setIn, setField, setProp, getObj, hasKey_cons, hasKey_nil]
  unfold getVuePackageJson
  rw [dependencies_vueStateManagement _ _ _ (by rw [isObj_vueRouting]; exact h0),
    dependencies_vueRouting _ _ _ h0, h1]
  rfl

/-- C23 counterexample: the manifest of a Svelte record has no `svelte` entry in
its `dependencies` field, which is empty; the entry is in `devDependencies`. -/
theorem svelte_runtime_is_a_dev_dependency :
    svelteWithRouter.frontendFramework = "svelte" ∧
    hasKey (dependencies (getSveltePackageJson svelteWithRouter)) "svelte" = false ∧
    dependencies (getSveltePackageJson svelteWithRouter) = [] ∧
    hasKey (devDependencies (getSveltePackageJson svelteWithRouter)) "svelte" = true := by
  decide

/-- C23 (amended): for every answer record the `dependencies` field of the React
manifest lists `react`, `react-dom` and `react-scripts` and that of the Vue
manifest lists `vue`; the Svelte manifest lists `svelte` in `devDependencies` and
never in `dependencies`; the `name` field of each manifest is the project name. -/
theorem base_runtime_dependency (a : Answers) :
    hasKey (dependencies (getReactPackageJson a)) "react" = true ∧
    hasKey (dependencies (getReactPackageJson a)) "react-dom" = true ∧
    hasKey (dependencies (getReactPackageJson a)) "react-scripts" = true ∧
    hasKey (dependencies (getVuePackageJson a)) "vue" = true ∧
    hasKey (devDependencies (getSveltePackageJson a)) "svelte" = true ∧
    hasKey (dependencies (getSveltePackageJson a)) "svelte" = false ∧
    getStr (getReactPackageJson a) "name" = some a.projectName ∧
    getStr (getVuePackageJson a) "name" = some a.projectName ∧
    getStr (getSveltePackageJson a) "name" = some a.projectName := by
  refine ⟨react_base_dependency a _ (by decide), react_base_dependency a _ (by decide),
    react_base_dependency a _ (by decide), vue_base_dependency a, ?_, ?_,
    name_getReactPackageJson a, name_getVuePackageJson a, ?_⟩
  · simp [getSveltePackageJson, devDependencies, getObj, hasKey_cons, hasKey_nil]
  · unfold getSveltePackageJson
    split_ifs <;> simp [dependencies, getObj, hasKey_cons, hasKey_nil]
  · simp [getSveltePackageJson, getStr]

/-! ## Accepted project names and the destination path -/

theorem splitOnChar_of_not_mem (sep : Char) (l : List Char) (h : sep ∉ l) :
    splitOnChar sep l = [l] := by
  induction l with
  | nil => rfl
  | cons c cs ih =>
    have hc : c ≠ sep := fun e => h (e ▸ List.mem_cons_self _ _)
    have hcs : sep ∉ cs := fun e => h (List.mem_cons_of_mem _ e)
    simp [splitOnChar, hc, ih hcs]

theorem pathJoin_segment (base : Path) (name : String) (h1 : '/' ∉ name.toList)
    (h2 : name ≠ "") (h3 : name ≠ ".") (h4 : name ≠ "..") :
    pathJoin base name = base ++ [name] := by
  unfold pathJoin
  rw [splitOnChar_of_not_mem _ _ h1]
  simp [pathStep, h2, h3, h4]

theorem removal_targets_projectPath (env : Env) (a : Answers) (q : Path)
    (h : Event.did (.rmSync q) ∈ (generateProject env a).1) : q = projectPathOf env a := by
  rcases generateProject_trace_initial env a with h1 | ⟨later, h1⟩
  · rw [h1] at h
    simp at h
  · have hmem : Event.did (.rmSync q) ∈ (generateProjectCmds env a).map (eventOf env) := by
      rw [h1]
      exact List.mem_append_left _ h
    obtain ⟨c, hc, hce⟩ := List.mem_map.mp hmem
    have hcq : c = .rmSync q := by
      cases c with
      | rmSync q2 => simpa [eventOf] using hce
      | mkdirSync q2 => simp [eventOf] at hce
      | writeFileSync q2 t => simp [eventOf] at hce
      | npmInstall cwd =>
        simp only [eventOf] at hce
        split_ifs at hce
        cases hce
    subst hcq
    unfold generateProjectCmds at hc
    simp only [List.mem_append, generateReadme_eq, generateGitignore_eq,
      List.mem_singleton] at hc
    rcases hc with (((hc | hc) | hc) | hc) | hc
    · split_ifs at hc
      · simpa using hc
      · simp at hc
    · cases hc
    · exact absurd hc (generateFramework_no_removal a _ q)
    · cases hc
    · cases hc

/-- C30: a project name accepted by the validator holds no `/`, no backslash, no
`.` and no white space, so it is one path segment other than `.` and `..`; the
destination path built from it is the working directory extended by that one
segment, and every removal of a run targets exactly that path. -/
theorem accepted_name_is_direct_child (name : String)
    (h : validateProjectName name = .accepted) :
    '/' ∉ name.toList ∧ '\\' ∉ name.toList ∧ '.' ∉ name.toList ∧
    (∀ c ∈ name.toList, isJsWhitespace c = false) ∧
    name ≠ "" ∧ name ≠ "." ∧ name ≠ ".." ∧
    (∀ cwd : Path, pathJoin cwd name = cwd ++ [name]) ∧
    (∀ (env : Env) (a : Answers), a.projectName = name →
      projectPathOf env a = env.cwd ++ [name] ∧
      ∀ q, Event.did (.rmSync q) ∈ (generateProject env a).1 → q = env.cwd ++ [name]) := by
  obtain ⟨hne, hall⟩ := (validateProjectName_spec name).1.mp h
  rw [List.all_eq_true] at hall
  have hnot : ∀ c : Char, isNameChar c = false → c ∉ name.toList := by
    intro c hc hmem
    rw [hall c hmem] at hc
    exact absurd hc (by decide)
  have hslash : '/' ∉ name.toList := hnot _ (by decide)
  have hdot : '.' ∉ name.toList := hnot _ (by decide)
  have h1 : name ≠ "." := by
    rintro rfl
    exact hdot (by decide)
  have h2 : name ≠ ".." := by
    rintro rfl
    exact hdot (by decide)
  have hjoin : ∀ cwd : Path, pathJoin cwd name = cwd ++ [name] :=
    fun cwd => pathJoin_segment cwd name hslash hne h1 h2
  refine ⟨hslash, hnot _ (by decide), hdot, fun c hc => not_whitespace_of_nameChar c (hall c hc),
    hne, h1, h2, hjoin, ?_⟩
  intro env a ha
  have hp : projectPathOf env a = env.cwd ++ [name] := by
    unfold projectPathOf
    rw [ha]
    exact hjoin _
  exact ⟨hp, fun q hq => (removal_targets_projectPath env a q hq).trans hp⟩

/-- C30 witness: the accepted name `demo` and the run that overwrites `demo/`. -/
theorem accepted_name_is_direct_child_witness :
    validateProjectName "demo" = .accepted ∧
    pathJoin ["home", "user"] "demo" = ["home", "user", "demo"] ∧
    (∀ q, Event.did (.rmSync q) ∈ (generateProject overwriteEnv reactWithRedux).1 →
      q = ["home", "user", "demo"]) :=
  ⟨by decide, (accepted_name_is_direct_child "demo" (by decide)).2.2.2.2.2.2.2.1 _,
    ((accepted_name_is_direct_child "demo" (by decide)).2.2.2.2.2.2.2.2 overwriteEnv
      reactWithRedux rfl).2⟩

/-! ## Termination of the interface-type prompt -/

theorem selectInterfaceType_valid (s : Session) (answer : String) (rest : List String)
    (h : choiceInRange 6 (parseInt answer) = true) :
    selectInterfaceType s (answer :: rest) =
      ⟨{ s.display interfaceTypeMenu with
          projectData :=
            { s.projectData with
              interfaceType := getInterfaceTypeFromChoice ((parseInt answer).getD 0) } },
        rest, .resolved ()⟩ := by
  rw [selectInterfaceType, if_pos h]

theorem selectInterfaceType_run (s : Session) (invalid : List String) (valid : String)
    (rest : List String)
    (hinv : ∀ x ∈ invalid, choiceInRange 6 (parseInt x) = false)
    (hval : choiceInRange 6 (parseInt valid) = true) :
    selectInterfaceType s (invalid ++ valid :: rest) =
      ⟨{ projectData :=
            { s.projectData with
              interfaceType := getInterfaceTypeFromChoice ((parseInt valid).getD 0) },
          websiteData := s.websiteData,
          output := s.output
            ++ repeatEvents invalid.length
                (interfaceTypeMenu ++ [.printed "Invalid choice. Please select 1-6."])
            ++ interfaceTypeMenu },
        rest, .resolved ()⟩ := by
  induction invalid generalizing s with
  | nil =>
    rw [List.nil_append, selectInterfaceType_valid s valid rest hval]
    simp [Session.display, repeatEvents]
  | cons x xs ih =>
    rw [List.cons_append,
      selectInterfaceType_invalid s x _ (hinv x (List.mem_cons_self _ _)),
      ih _ (fun y hy => hinv y (List.mem_cons_of_mem _ hy))]
    simp [Session.display, repeatEvents, List.append_assoc]

theorem selectInterfaceType_waits (s : Session) (inputs : List String)
    (hinv : ∀ x ∈ inputs, choiceInRange 6 (parseInt x) = false) :
    (selectInterfaceType s inputs).settled = .waiting ∧
    (selectInterfaceType s inputs).session.projectData = s.projectData := by
  induction inputs generalizing s with
  | nil => exact ⟨rfl, rfl⟩
  | cons x xs ih =>
    rw [selectInterfaceType_invalid s x _ (hinv x (List.mem_cons_self _ _))]
    exact ih _ (fun y hy => hinv y (List.mem_cons_of_mem _ hy))

theorem invalidChoiceLines_repeat (n : Nat) :
    invalidChoiceLines
      (repeatEvents n
        (interfaceTypeMenu ++ [.printed "Invalid choice. Please select 1-6."])) = n := by
  induction n with
  | zero => rfl
  | succ k ih =>
    unfold invalidChoiceLines at ih ⊢
    rw [repeatEvents, List.count_append, ih]
    have : List.count (CliEvent.printed "Invalid choice. Please select 1-6.")
        (interfaceTypeMenu ++ [.printed "Invalid choice. Please select 1-6."]) = 1 := by
      decide
    omega

theorem askedCount_repeat (n : Nat) :
    askedCount
      (repeatEvents n
        (interfaceTypeMenu ++ [.printed "Invalid choice. Please select 1-6."])) = n := by
  induction n with
  | zero => rfl
  | succ k ih =>
    unfold askedCount at ih ⊢
    rw [repeatEvents, List.countP_append, ih]
    have : List.countP (fun e => match e with
        | .asked _ => true
        | .printed _ => false)
        (interfaceTypeMenu ++ [.printed "Invalid choice. Please select 1-6."]) = 1 := by
      decide
    omega

/-- C28: on a finite input that holds invalid answers followed by a first valid
answer, `selectInterfaceType` resolves after reading exactly the answers up to and
including the valid one, stores the label of its parsed integer, and has shown one
error line and one further prompt for each invalid answer; on an input that holds
only invalid answers it never resolves and leaves the record unchanged. -/
theorem selectInterfaceType_terminates (s : Session) (invalid : List String)
    (valid : String) (rest : List String)
    (hinv : ∀ x ∈ invalid, choiceInRange 6 (parseInt x) = false)
    (hval : choiceInRange 6 (parseInt valid) = true) :
    (selectInterfaceType s (invalid ++ valid :: rest)).settled = .resolved () ∧
    (selectInterfaceType s (invalid ++ valid :: rest)).rest = rest ∧
    (∃ c : Int, parseInt valid = some c ∧ 1 ≤ c ∧ c ≤ 6 ∧
      (selectInterfaceType s (invalid ++ valid :: rest)).session.projectData =
        { s.projectData with interfaceType := getInterfaceTypeFromChoice c }) ∧
    (∃ shown : List CliEvent,
      (selectInterfaceType s (invalid ++ valid :: rest)).session.output =
        s.output ++ shown ∧
      invalidChoiceLines shown = invalid.length ∧
      askedCount shown = invalid.length + 1) ∧
    ((selectInterfaceType s invalid).settled = .waiting ∧
      (selectInterfaceType s invalid).session.projectData = s.projectData) := by
  rw [selectInterfaceType_run s invalid valid rest hinv hval]
  refine ⟨rfl, rfl, ?_, ?_, selectInterfaceType_waits s invalid hinv⟩
  · cases hp : parseInt valid with
    | none =>
      rw [hp] at hval
      exact absurd hval (by decide)
    | some c =>
      rw [hp] at hval
      simp only [choiceInRange, Bool.and_eq_true, decide_eq_true_eq] at hval
      exact ⟨c, rfl, hval.1, hval.2, rfl⟩
  · refine ⟨repeatEvents invalid.length
        (interfaceTypeMenu ++ [.printed "Invalid choice. Please select 1-6."])
        ++ interfaceTypeMenu, by simp [List.append_assoc], ?_, ?_⟩
    · unfold invalidChoiceLines
      rw [List.count_append]
      have h1 := invalidChoiceLines_repeat invalid.length
      unfold invalidChoiceLines at h1
      rw [h1]
      have : List.count (CliEvent.printed "Invalid choice. Please select 1-6.")
          interfaceTypeMenu = 0 := by decide
      omega
    · unfold askedCount
      rw [List.countP_append]
      have h1 := askedCount_repeat invalid.length
      unfold askedCount at h1
      rw [h1]
      have : List.countP (fun e => match e with
          | .asked _ => true
          | .printed _ => false) interfaceTypeMenu = 1 := by decide
      omega

/-- C28 witness: the answers `0`, `abc`, `7`, then `2`, then a line that is left
unread. -/
theorem selectInterfaceType_terminates_witness :
    (selectInterfaceType freshSession ["0", "abc", "7", "2", "later"]).settled =
      .resolved () ∧
    (selectInterfaceType freshSession ["0", "abc", "7", "2", "later"]).rest = ["later"] ∧
    (selectInterfaceType freshSession
      ["0", "abc", "7", "2", "later"]).session.projectData.interfaceType =
        some "Mobile Application" :=
  ⟨(selectInterfaceType_terminates freshSession ["0", "abc", "7"] "2" ["later"]
      (by decide) (by decide)).1,
    (selectInterfaceType_terminates freshSession ["0", "abc", "7"] "2" ["later"]
      (by decide) (by decide)).2.1,
    by decide⟩

/-! ## Routing in the React component and manifest -/

theorem getReactImports_router (a : Answers) :
    containsText (getReactImports a) "from \x27react-router-dom\x27" = truthy a.includeRouter := by
  have key : ∀ r m c : Bool,
      containsText
        ((fun imports : String =>
            if m then
              imports ++
                "\nimport \x7b ThemeProvider, createTheme, CssBaseline \x7d from \x27@mui/material\x27;"
            else if c then
              imports ++ "\nimport \x7b ChakraProvider \x7d from \x27@chakra-ui/react\x27;"
            else imports)
          (if r then
            "import React from \x27react\x27;\nimport \x27./App.css\x27;" ++
              "\nimport \x7b BrowserRouter as Router, Routes, Route \x7d from \x27react-router-dom\x27;"
          else "import React from \x27react\x27;\nimport \x27./App.css\x27;"))
        "from \x27react-router-dom\x27" = r := by
    decide
  have h := key (truthy a.includeRouter) (a.cssFramework == "mui") (a.cssFramework == "chakra")
  unfold getReactImports
  simp only [] at h ⊢
  rw [h]

theorem react_router_dependency (a : Answers) :
    manifestHasDependency (getReactPackageJson a) "react-router-dom" = truthy a.includeRouter := by
  rw [react_manifestHasDependency, reactCss_keys a "react-router-dom" (by decide)]
  have hs : (reactStateKeys a).contains "react-router-dom" = false := by
    unfold reactStateKeys
    split_ifs <;> simp
  rw [hs]
  simp

/-- C29: the import text of `getReactImports` contains the import from
`react-router-dom` exactly when the manifest of `getReactPackageJson` lists the
`react-router-dom` dependency, and both hold exactly when `includeRouter` is
present and true; with the flag absent both generators still return, and the
result holds neither the routing import nor the dependency. -/
theorem react_routing_consistent (a : Answers) :
    (containsText (getReactImports a) "from \x27react-router-dom\x27" = true ↔
      manifestHasDependency (getReactPackageJson a) "react-router-dom" = true) ∧
    (manifestHasDependency (getReactPackageJson a) "react-router-dom" = true ↔
      a.includeRouter = some true) ∧
    (a.includeRouter = none →
      containsText (getReactImports a) "from \x27react-router-dom\x27" = false ∧
      manifestHasDependency (getReactPackageJson a) "react-router-dom" = false ∧
      getReactImports a = getReactImports { a with includeRouter := some false } ∧
      getReactPackageJson a = getReactPackageJson { a with includeRouter := some false }) := by
  rw [getReactImports_router, react_router_dependency]
  refine ⟨Iff.rfl, truthy_eq_true_iff _, ?_⟩
  intro h
  refine ⟨by simp [h, truthy], by simp [h, truthy], ?_, ?_⟩
  · simp [getReactImports, h, truthy]
  · simp [getReactPackageJson, reactRouting, reactStateManagement, reactCssFramework,
      reactBase, h, truthy]

/-- C29 witness: the React record whose routing question was never answered. -/
theorem react_routing_consistent_witness :
    containsText (getReactImports reactWithoutRouterFlag) "from \x27react-router-dom\x27" = false ∧
    manifestHasDependency (getReactPackageJson reactWithoutRouterFlag) "react-router-dom" =
      false ∧
    getReactImports reactWithoutRouterFlag =
      getReactImports { reactWithoutRouterFlag with includeRouter := some false } ∧
    getReactPackageJson reactWithoutRouterFlag =
      getReactPackageJson { reactWithoutRouterFlag with includeRouter := some false } :=
  (react_routing_consistent reactWithoutRouterFlag).2.2 rfl

/-! ## The plain-text report -/

theorem optionalField_some (label ending text : String) :
    optionalField label (some text) ending = if text = "" then "" else label ++ text ++ ending := by
  unfold optionalField isTruthyField interpolateField
  by_cases h : text = ""
  · subst h; rfl
  · have : text.isEmpty = false := by
      cases hb : text.isEmpty
      · rfl
      · exact absurd ((String.isEmpty_iff text).mp hb) h
    simp [h, this]

theorem intercalate_go_data (l : List String) (acc : String) :
    (String.intercalate.go acc "\n" l).data =
      acc.data ++ l.flatMap (fun line => '\n' :: line.data) := by
  induction l generalizing acc with
  | nil => simp [String.intercalate.go]
  | cons a rest ih => simp [String.intercalate.go, ih]

theorem joinLines_cons_data (a : String) (rest : List String) :
    (joinLines (a :: rest)).data = a.data ++ rest.flatMap (fun line => '\n' :: line.data) := by
  simp [joinLines, String.intercalate, intercalate_go_data]

theorem joinLines_append_data (before : List String) (a : String) (rest : List String) :
    (joinLines (before ++ a :: rest)).data =
      before.flatMap (fun line => line.data ++ ['\n']) ++ (joinLines (a :: rest)).data := by
  induction before with
  | nil => simp
  | cons b more ih =>
    cases more with
    | nil => simp [joinLines_cons_data]
    | cons c more =>
      have h := joinLines_cons_data c (more ++ a :: rest)
      simp only [List.cons_append] at ih h ⊢
      have e : (b :: c :: more).flatMap (fun line => line.data ++ ['\n'])
            ++ (joinLines (a :: rest)).data =
          (b.data ++ ['\n']) ++ ((c :: more).flatMap (fun line => line.data ++ ['\n'])
            ++ (joinLines (a :: rest)).data) := by
        simp [List.flatMap_cons]
      rw [joinLines_cons_data b, e, ← ih, h]
      simp [List.flatMap_cons]

theorem optionalField_data (label : String) (field : Option String) :
    (optionalField label field "\n").data =
      (optionalLine label field).flatMap (fun line => line.data ++ ['\n']) := by
  cases field with
  | none => rfl
  | some text =>
    rw [optionalField_some]
    by_cases h : text = "" <;> simp [optionalLine, h]

theorem lookupProperty_of_prototypeKey {α : Type} (table : List (String × α)) (key : String)
    (h1 : key ∉ table.map Prod.fst) (h2 : objectPrototypeKeys.contains key = true) :
    lookupProperty table key = .inherited key := by
  simp only [lookupProperty, lookup_eq_none_of_not_mem table key h1, h2]
  rfl

theorem lookupProperty_not_inherited {α : Type} (table : List (String × α)) (key : String)
    (h : objectPrototypeKeys.contains key = false) :
    (∃ v, lookupProperty table key = .own v) ∨ lookupProperty table key = .undefined := by
  unfold lookupProperty
  cases table.lookup key with
  | some v => exact Or.inl ⟨v, rfl⟩
  | none => right; simp only [h]; rfl

theorem prototypeKey_not_in_tables (key : String)
    (h : objectPrototypeKeys.contains key = true) :
    key ∉ recommendationsTable.map Prod.fst ∧ key ∉ suggestionsTable.map Prod.fst := by
  have hm : key ∈ objectPrototypeKeys := by simpa using h
  simp only [objectPrototypeKeys, List.mem_cons, List.mem_singleton, List.not_mem_nil,
    or_false] at hm
  rcases hm with rfl | rfl | rfl | rfl | rfl | rfl | rfl | rfl | rfl | rfl | rfl | rfl <;>
    exact ⟨by decide, by decide⟩

theorem recommendations_ok_iff (d : ProjectData) :
    (∃ recs, getDesignRecommendations d = .ok recs) ↔
      objectPrototypeKeys.contains (propertyKey d.interfaceType) = false := by
  cases h : objectPrototypeKeys.contains (propertyKey d.interfaceType) with
  | true =>
    simp only [getDesignRecommendations,
      lookupProperty_of_prototypeKey _ _ (prototypeKey_not_in_tables _ h).1 h]
    simp
  | false =>
    simp only [getDesignRecommendations]
    rcases lookupProperty_not_inherited recommendationsTable _ h with ⟨v, hv⟩ | hv <;>
      rw [hv] <;> simp

theorem suggestions_ok_iff (d : ProjectData) :
    (∃ sugg, getImplementationSuggestions d = .ok sugg) ↔
      objectPrototypeKeys.contains (propertyKey d.interfaceType) = false := by
  cases h : objectPrototypeKeys.contains (propertyKey d.interfaceType) with
  | true =>
    simp only [getImplementationSuggestions,
      lookupProperty_of_prototypeKey _ _ (prototypeKey_not_in_tables _ h).2 h]
    simp
  | false =>
    simp only [getImplementationSuggestions]
    rcases lookupProperty_not_inherited suggestionsTable _ h with ⟨v, hv⟩ | hv <;>
      rw [hv] <;> simp

theorem wireframe_is_diagram (d : ProjectData)
    (h : objectPrototypeKeys.contains (propertyKey d.interfaceType) = false) :
    ∃ diagram, generateWireframeTemplate d = .diagram diagram := by
  simp only [generateWireframeTemplate]
  rcases lookupProperty_not_inherited templatesTable _ h with ⟨v, hv⟩ | hv
  · rw [hv]
    by_cases e : v.isEmpty
    · exact ⟨_, by simp only [e]; rfl⟩
    · exact ⟨v, by simp only [e]; rfl⟩
  · rw [hv]
    exact ⟨_, rfl⟩

theorem plainText_lines (generatedOn : String) (d : ProjectData) (recs sugg : String)
    (hr : getDesignRecommendations d = .ok recs)
    (hs : getImplementationSuggestions d = .ok sugg) :
    generatePlainTextPrompt generatedOn d = .ok (joinLines (
      [ "UI/UX DESIGN PROMPT", rule 50, "",
        "Project Type: " ++ interpolateField d.interfaceType,
        "Purpose: " ++ interpolateField d.purpose,
        "Target Users: " ++ interpolateField d.targetUsers ]
      ++ optionalLine "Screen Count: " d.screenCount
      ++ [ "Key Features: " ++ interpolateField d.features,
           "Design Style: " ++ interpolateField d.designStyle ]
      ++ optionalLine "Color Preferences: " d.colorPreference
      ++ optionalLine "Additional Requirements: " d.additionalReqs
      ++ [ "", "", "DESIGN RECOMMENDATIONS:", replaceBullets recs,
           "", "IMPLEMENTATION SUGGESTIONS:", replaceBullets sugg,
           "", "WIREFRAME TEMPLATE:", (generateWireframeTemplate d).text,
           "", "Generated on: " ++ generatedOn, "" ])) := by
  unfold generatePlainTextPrompt
  rw [hr, hs]
  refine congrArg Except.ok ?_
  apply String.ext
  rw [joinLines_append_data, joinLines_cons_data]
  simp only [String.data_append, optionalField_data, List.flatMap_append, List.append_assoc]
  simp

theorem replaceBullets_toList (text : String) :
    (replaceBullets text).toList = text.toList.map (fun c => if c = '•' then '-' else c) :=
  rfl

theorem replaceBullets_no_bullet (text : String) : '•' ∉ (replaceBullets text).toList := by
  rw [replaceBullets_toList]
  intro h
  obtain ⟨c, _, hc⟩ := List.mem_map.mp h
  by_cases e : c = '•'
  · rw [if_pos e] at hc
    exact absurd hc (by decide)
  · rw [if_neg e] at hc
    exact e hc

/-- C24: for every answer record on which the two advice generators return, the
report of `generatePlainTextPrompt` is, line by line: the title and a rule; the
lines `Project Type`, `Purpose` and `Target Users`; the line `Screen Count` exactly
when that field holds an answer; the lines `Key Features` and `Design Style`; the
lines `Color Preferences` and `Additional Requirements`, each exactly when its
field holds an answer; then the design recommendations and the implementation
suggestions, each the output of its generator in which every bullet character has
become a hyphen and every other character is kept, so that neither holds a bullet;
then the wireframe diagram of the interface type as its generator returns it; then
the time stamp.  A field holds an answer when it is present and not blank.  The
report is returned for every record on which both generators return, which is
every record whose interface type is not the name of a member of
`Object.prototype`. -/
theorem plain_text_report_sections (generatedOn : String) (d : ProjectData) :
    (∀ recs sugg : String,
      getDesignRecommendations d = .ok recs →
      getImplementationSuggestions d = .ok sugg →
      ∃ diagram advice hints : String,
        generateWireframeTemplate d = .diagram diagram ∧
        advice.toList = recs.toList.map (fun c => if c = '•' then '-' else c) ∧
        hints.toList = sugg.toList.map (fun c => if c = '•' then '-' else c) ∧
        '•' ∉ advice.toList ∧ '•' ∉ hints.toList ∧
        generatePlainTextPrompt generatedOn d = .ok (joinLines (
          [ "UI/UX DESIGN PROMPT", rule 50, "",
            "Project Type: " ++ interpolateField d.interfaceType,
            "Purpose: " ++ interpolateField d.purpose,
            "Target Users: " ++ interpolateField d.targetUsers ]
          ++ optionalLine "Screen Count: " d.screenCount
          ++ [ "Key Features: " ++ interpolateField d.features,
               "Design Style: " ++ interpolateField d.designStyle ]
          ++ optionalLine "Color Preferences: " d.colorPreference
          ++ optionalLine "Additional Requirements: " d.additionalReqs
          ++ [ "", "", "DESIGN RECOMMENDATIONS:", advice,
               "", "IMPLEMENTATION SUGGESTIONS:", hints,
               "", "WIREFRAME TEMPLATE:", diagram,
               "", "Generated on: " ++ generatedOn, "" ]))) ∧
    ((∃ text, generatePlainTextPrompt generatedOn d = .ok text) ↔
      (∃ recs, getDesignRecommendations d = .ok recs) ∧
        (∃ sugg, getImplementationSuggestions d = .ok sugg)) ∧
    (propertyKey d.interfaceType ∉ objectPrototypeKeys →
      ∃ text, generatePlainTextPrompt generatedOn d = .ok text) := by
  have total : (∃ recs, getDesignRecommendations d = .ok recs) →
      (∃ sugg, getImplementationSuggestions d = .ok sugg) →
      ∃ text, generatePlainTextPrompt generatedOn d = .ok text := by
    rintro ⟨recs, hr⟩ ⟨sugg, hs⟩
    exact ⟨_, plainText_lines generatedOn d recs sugg hr hs⟩
  refine ⟨?_, ⟨?_, fun h => total h.1 h.2⟩, ?_⟩
  · intro recs sugg hr hs
    obtain ⟨diagram, hd⟩ := wireframe_is_diagram d ((recommendations_ok_iff d).mp ⟨recs, hr⟩)
    refine ⟨diagram, replaceBullets recs, replaceBullets sugg, hd, replaceBullets_toList recs,
      replaceBullets_toList sugg, replaceBullets_no_bullet recs, replaceBullets_no_bullet sugg,
      ?_⟩
    rw [plainText_lines generatedOn d recs sugg hr hs, hd]
    rfl
  · rintro ⟨text, ht⟩
    unfold generatePlainTextPrompt at ht
    cases hr : getDesignRecommendations d with
    | error e => rw [hr] at ht; cases ht
    | ok recs =>
      cases hs : getImplementationSuggestions d with
      | error e => rw [hr, hs] at ht; cases ht
      | ok sugg => exact ⟨⟨recs, rfl⟩, ⟨sugg, rfl⟩⟩
  · intro h
    have hk : objectPrototypeKeys.contains (propertyKey d.interfaceType) = false := by
      simpa using h
    exact total ((recommendations_ok_iff d).mpr hk) ((suggestions_ok_iff d).mpr hk)

/-- C24 witness: the record of a web application whose colour question was left
blank; the report holds no `Color Preferences` line, and its two advice lists
start every item with a hyphen. -/
theorem plain_text_report_sections_witness :
    ∃ diagram : String,
      generateWireframeTemplate webData = .diagram diagram ∧
      generatePlainTextPrompt "today" webData = .ok (joinLines (
        [ "UI/UX DESIGN PROMPT", rule 50, "",
          "Project Type: Web Application", "Purpose: shop", "Target Users: adults",
          "Screen Count: 5", "Key Features: cart", "Design Style: Minimal & Clean",
          "Additional Requirements: offline use",
          "", "", "DESIGN RECOMMENDATIONS:",
          joinLines
            [ "- Use responsive grid layout (12-column system)",
              "- Implement consistent navigation patterns",
              "- Focus on accessibility (WCAG guidelines)",
              "- Optimize for both desktop and mobile views" ],
          "", "IMPLEMENTATION SUGGESTIONS:",
          joinLines
            [ "- Framework: React, Vue.js, or Angular",
              "- CSS Framework: Tailwind CSS, Bootstrap, or Material-UI",
              "- Tools: Figma for design, Storybook for components" ],
          "", "WIREFRAME TEMPLATE:", diagram,
          "", "Generated on: today", "" ])) := by
  obtain ⟨diagram, advice, hints, hd, ha, hh, _, _, ht⟩ :=
    (plain_text_report_sections "today" webData).1 _ _ rfl rfl
  have ea : advice = joinLines
      [ "- Use responsive grid layout (12-column system)",
        "- Implement consistent navigation patterns",
        "- Focus on accessibility (WCAG guidelines)",
        "- Optimize for both desktop and mobile views" ] :=
    String.ext (ha.trans (by decide))
  have eh : hints = joinLines
      [ "- Framework: React, Vue.js, or Angular",
        "- CSS Framework: Tailwind CSS, Bootstrap, or Material-UI",
        "- Tools: Figma for design, Storybook for components" ] :=
    String.ext (hh.trans (by decide))
  subst ea eh
  exact ⟨diagram, hd, ht⟩

/-! ## Saving the report -/

theorem char_eq_iff_toNat (c : Char) (n : Nat) (k : Char) (hk : k.toNat = n) (hk2 : Char.ofNat n = k) :
    c = k ↔ c.toNat = n := by
  constructor
  · rintro rfl; exact hk
  · intro h; rw [← Char.ofNat_toNat c, h, hk2]

theorem toLower_toNat (c : Char) :
    c.toLower.toNat = if 65 ≤ c.toNat ∧ c.toNat ≤ 90 then c.toNat + 32 else c.toNat := by
  unfold Char.toLower
  by_cases h : 65 ≤ c.toNat ∧ c.toNat ≤ 90
  · have h2 : c.toNat ≥ 65 ∧ c.toNat ≤ 90 := h
    simp only [h2, and_self, if_true, h]
    obtain ⟨h3, h4⟩ := h
    generalize c.toNat = n at h3 h4 ⊢
    interval_cases n <;> rfl
  · have h2 : ¬ (c.toNat ≥ 65 ∧ c.toNat ≤ 90) := h
    simp only [h2, if_false, h]

theorem toLower_eq_y (c : Char) : c.toLower = 'y' ↔ c = 'y' ∨ c = 'Y' := by
  rw [char_eq_iff_toNat c.toLower 121 'y' rfl rfl, char_eq_iff_toNat c 121 'y' rfl rfl,
    char_eq_iff_toNat c 89 'Y' rfl rfl, toLower_toNat]
  split_ifs <;> omega

theorem toLower_eq_e (c : Char) : c.toLower = 'e' ↔ c = 'e' ∨ c = 'E' := by
  rw [char_eq_iff_toNat c.toLower 101 'e' rfl rfl, char_eq_iff_toNat c 101 'e' rfl rfl,
    char_eq_iff_toNat c 69 'E' rfl rfl, toLower_toNat]
  split_ifs <;> omega

theorem toLower_eq_s (c : Char) : c.toLower = 's' ↔ c = 's' ∨ c = 'S' := by
  rw [char_eq_iff_toNat c.toLower 115 's' rfl rfl, char_eq_iff_toNat c 115 's' rfl rfl,
    char_eq_iff_toNat c 83 'S' rfl rfl, toLower_toNat]
  split_ifs <;> omega

theorem toLowerCase_eq_y (text : String) :
    toLowerCase text = "y" ↔ text ∈ ["y", "Y"] := by
  obtain ⟨cs⟩ := text
  simp only [toLowerCase, String.toList, String.ext_iff]
  rcases cs with _ | ⟨a, _ | ⟨b, cs⟩⟩
  · simp
  · simp [toLower_eq_y, String.ext_iff]
  · simp [String.ext_iff]

theorem toLowerCase_eq_yes (text : String) :
    toLowerCase text = "yes" ↔
      text ∈ ["yes", "yeS", "yEs", "yES", "Yes", "YeS", "YEs", "YES"] := by
  obtain ⟨cs⟩ := text
  simp only [toLowerCase, String.toList, String.ext_iff]
  rcases cs with _ | ⟨a, _ | ⟨b, _ | ⟨c, _ | ⟨d, cs⟩⟩⟩⟩
  · simp
  · simp [String.ext_iff]
  · simp [String.ext_iff]
  · simp only [List.map_cons, List.map_nil, List.mem_cons, List.mem_singleton,
      List.not_mem_nil, or_false, String.ext_iff]
    simp [toLower_eq_y, toLower_eq_e, toLower_eq_s]
    tauto
  · simp [String.ext_iff]

theorem digitValue_digitChar (k : Nat) (h : k < 10) : digitValue (Nat.digitChar k) = some k := by
  interval_cases k <;> rfl

theorem digitChar_ne_slash (k : Nat) (h : k < 10) : Nat.digitChar k ≠ '/' := by
  interval_cases k <;> decide

theorem foldl_toDigitsCore (fuel n : Nat) (acc : List Char) (h : n < fuel) :
    (Nat.toDigitsCore 10 fuel n acc).foldl
        (fun value c => value * 10 + (digitValue c).getD 0) 0 =
      acc.foldl (fun value c => value * 10 + (digitValue c).getD 0) n := by
  induction fuel generalizing n acc with
  | zero => omega
  | succ fuel ih =>
    unfold Nat.toDigitsCore
    have hd : digitValue (Nat.digitChar (n % 10)) = some (n % 10) :=
      digitValue_digitChar _ (Nat.mod_lt _ (by decide))
    by_cases h0 : n / 10 = 0
    · simp only [h0, if_true, List.foldl_cons, hd, Option.getD_some]
      congr 1
      omega
    · simp only [h0, if_false]
      rw [ih (n / 10) _ (by omega)]
      simp only [List.foldl_cons, hd, Option.getD_some]
      congr 1
      omega

theorem toDigitsCore_no_slash (fuel n : Nat) (acc : List Char) (h : '/' ∉ acc) :
    '/' ∉ Nat.toDigitsCore 10 fuel n acc := by
  induction fuel generalizing n acc with
  | zero => simpa [Nat.toDigitsCore] using h
  | succ fuel ih =>
    unfold Nat.toDigitsCore
    have hd : '/' ∉ Nat.digitChar (n % 10) :: acc := by
      simp only [List.mem_cons, not_or]
      exact ⟨(digitChar_ne_slash _ (Nat.mod_lt _ (by decide))).symm, h⟩
    by_cases h0 : n / 10 = 0
    · simpa only [h0, if_true] using hd
    · simp only [h0, if_false]
      exact ih _ _ hd

theorem repr_value (n : Nat) : digitsValue 10 (Nat.repr n).toList = n := by
  unfold digitsValue Nat.repr Nat.toDigits
  simp only [String.toList, List.asString]
  rw [foldl_toDigitsCore _ _ _ (Nat.lt_succ_self n)]
  rfl

theorem repr_injective (n m : Nat) (h : Nat.repr n = Nat.repr m) : n = m := by
  rw [← repr_value n, ← repr_value m, h]

theorem repr_no_slash (n : Nat) : '/' ∉ (Nat.repr n).toList := by
  unfold Nat.repr Nat.toDigits
  simp only [String.toList, List.asString]
  exact toDigitsCore_no_slash _ _ _ (by simp)

theorem saveFileName_injective (n m : Nat) (h : saveFileName n = saveFileName m) : n = m := by
  apply repr_injective
  unfold saveFileName at h
  have h2 := congrArg String.data h
  simp only [String.data_append] at h2
  have h3 := List.append_cancel_right h2
  have h4 := List.append_cancel_left h3
  exact String.ext h4

theorem saveFileName_segment (n : Nat) :
    '/' ∉ (saveFileName n).toList ∧ saveFileName n ≠ "" ∧ saveFileName n ≠ "." ∧
      saveFileName n ≠ ".." := by
  have hd : (saveFileName n).data = "ui-design-prompt-".data ++ (Nat.repr n).data ++ ".txt".data := by
    simp [saveFileName, String.data_append]
  refine ⟨?_, ?_, ?_, ?_⟩
  · have := repr_no_slash n
    simp only [String.toList] at this ⊢
    rw [hd]
    simp [this]
  · intro h; rw [h] at hd; simp at hd
  · intro h; rw [h] at hd; simp at hd
  · intro h; rw [h] at hd; simp at hd

theorem saveChoice_confirms (text : String) :
    (toLowerCase text == "y" || toLowerCase text == "yes") = true ↔ text ∈ confirmations := by
  simp only [Bool.or_eq_true, beq_iff_eq, toLowerCase_eq_y, toLowerCase_eq_yes, confirmations,
    List.mem_cons, List.mem_singleton, List.not_mem_nil, or_false]
  tauto

theorem saveFile_path (cwd : Path) (n : Nat) :
    pathJoin cwd (saveFileName n) = cwd ++ [saveFileName n] :=
  pathJoin_segment cwd _ (saveFileName_segment n).1 (saveFileName_segment n).2.1
    (saveFileName_segment n).2.2.1 (saveFileName_segment n).2.2.2

/-- C25: `saveResults` writes a file only when the trimmed answer is `y` or `yes`
up to the case of its letters, and, when the report renders and the write does not
fail, it then writes exactly one file: the rendered report, under the name
`ui-design-prompt-` followed by the decimal time value and `.txt`, directly in the
working directory; otherwise it writes nothing.  File names built at different
time values differ. -/
theorem saveResults_writes_on_confirmation (env : CliEnv) (s : Session) (answer : String)
    (rest : List String) :
    ((saveResults env s (answer :: rest)).written ≠ [] → jsTrim answer ∈ confirmations) ∧
    (∀ content : String,
      generatePlainTextPrompt env.localeTime s.projectData = .ok content →
      env.writeFails = false →
      (jsTrim answer ∈ confirmations →
        (saveResults env s (answer :: rest)).written =
          [(env.cwd ++ ["ui-design-prompt-" ++ Nat.repr env.now ++ ".txt"], content)]) ∧
      (jsTrim answer ∉ confirmations → (saveResults env s (answer :: rest)).written = [])) ∧
    (saveResults env s []).written = [] ∧
    (∀ n m : Nat, n ≠ m → saveFileName n ≠ saveFileName m) := by
  refine ⟨?_, ?_, rfl, fun n m h e => h (saveFileName_injective n m e)⟩
  · intro hw
    by_contra hn
    have hb : (toLowerCase (jsTrim answer) == "y" || toLowerCase (jsTrim answer) == "yes")
        = false := by
      rw [← Bool.not_eq_true, saveChoice_confirms]
      exact hn
    apply hw
    simp only [saveResults, askQuestion, hb]
    rfl
  · intro content hc hf
    constructor
    · intro hy
      have hb := (saveChoice_confirms (jsTrim answer)).mpr hy
      have hp : (s.display
          [.asked "\n💾 Would you like to save this design prompt to a file? (y/n): "]).projectData
            = s.projectData := rfl
      simp only [saveResults, askQuestion, hb, hp, hc, hf, saveFile_path]
      rfl
    · intro hn
      have hb : (toLowerCase (jsTrim answer) == "y" || toLowerCase (jsTrim answer) == "yes")
          = false := by
        rw [← Bool.not_eq_true, saveChoice_confirms]
        exact hn
      simp only [saveResults, askQuestion, hb]
      rfl

/-- C25 witness: the answer ` YeS ` in the session of a web application. -/
theorem saveResults_writes_on_confirmation_witness :
    (saveResults demoCliEnv { projectData := webData } [" YeS "]).written =
      [(["home", "user", "ui-design-prompt-1700000000000.txt"],
        (generatePlainTextPrompt demoCliEnv.localeTime webData).toOption.getD "")] :=
  ((saveResults_writes_on_confirmation demoCliEnv { projectData := webData } " YeS " []).2.1
    _ rfl rfl).1 (by decide)

/-! ## The menu of the design-prompt wizard -/

theorem sameData_bind {α β : Type} (r1 r2 : Step α)
    (f : α → Session → List String → Step β) (h : SameData r1 r2)
    (hf : ∀ v s1 s2 inputs, s1.projectData = s2.projectData →
      SameData (f v s1 inputs) (f v s2 inputs)) :
    SameData (r1.bind f) (r2.bind f) := by
  obtain ⟨hd, hr, hs⟩ := h
  unfold Step.bind
  rw [← hs]
  cases r1.settled with
  | resolved v => rw [← hr]; exact hf v _ _ _ hd
  | waiting => exact ⟨hd, hr, rfl⟩
  | threw m => exact ⟨hd, hr, rfl⟩

theorem sameData_askQuestion (q : String) (s1 s2 : Session) (inputs : List String)
    (h : s1.projectData = s2.projectData) :
    SameData (askQuestion q s1 inputs) (askQuestion q s2 inputs) := by
  cases inputs with
  | nil => exact ⟨h, rfl, rfl⟩
  | cons a rest => exact ⟨h, rfl, rfl⟩

theorem sameData_selectInterfaceType (s1 s2 : Session) (inputs : List String)
    (h : s1.projectData = s2.projectData) :
    SameData (selectInterfaceType s1 inputs) (selectInterfaceType s2 inputs) := by
  induction inputs generalizing s1 s2 with
  | nil => exact ⟨h, rfl, rfl⟩
  | cons a rest ih =>
    unfold selectInterfaceType
    by_cases hc : choiceInRange 6 (parseInt a) = true
    · simp only [hc, if_true]
      exact ⟨by simp only [h], rfl, rfl⟩
    · simp only [hc]
      exact ih _ _ h

theorem sameData_selectDesignStyle (s1 s2 : Session) (inputs : List String)
    (h : s1.projectData = s2.projectData) :
    SameData (selectDesignStyle s1 inputs) (selectDesignStyle s2 inputs) := by
  induction inputs generalizing s1 s2 with
  | nil => exact ⟨h, rfl, rfl⟩
  | cons a rest ih =>
    unfold selectDesignStyle
    by_cases hc : choiceInRange 8 (parseInt a) = true
    · simp only [hc, if_true]
      exact ⟨by simp only [h], rfl, rfl⟩
    · simp only [hc]
      exact ih _ _ h

theorem sameData_askScreenCount (s1 s2 : Session) (inputs : List String)
    (h : s1.projectData = s2.projectData) :
    SameData (askScreenCount s1 inputs) (askScreenCount s2 inputs) := by
  unfold askScreenCount
  rw [h]
  split_ifs
  · refine sameData_bind _ _ _ (sameData_askQuestion _ _ _ _ h) ?_
    intro v t1 t2 inputs ht
    exact ⟨by simp only [Session.withData, ht], rfl, rfl⟩
  · exact ⟨h, rfl, rfl⟩

theorem sameData_collectProjectDetails (s1 s2 : Session) (inputs : List String)
    (h : s1.projectData = s2.projectData) :
    SameData (collectProjectDetails s1 inputs) (collectProjectDetails s2 inputs) := by
  unfold collectProjectDetails
  refine sameData_bind _ _ _ (sameData_askQuestion _ _ _ _ h) ?_
  intro _ t1 t2 inputs ht
  refine sameData_bind _ _ _
    (sameData_askQuestion _ _ _ _ (by simp only [Session.withData, ht])) ?_
  intro _ t1 t2 inputs ht
  refine sameData_bind _ _ _
    (sameData_askScreenCount _ _ _ (by simp only [Session.withData, ht])) ?_
  intro _ t1 t2 inputs ht
  refine sameData_bind _ _ _ (sameData_askQuestion _ _ _ _ ht) ?_
  intro _ t1 t2 inputs ht
  refine sameData_bind _ _ _
    (sameData_selectDesignStyle _ _ _ (by simp only [Session.withData, ht])) ?_
  intro _ t1 t2 inputs ht
  refine sameData_bind _ _ _ (sameData_askQuestion _ _ _ _ ht) ?_
  intro _ t1 t2 inputs ht
  refine sameData_bind _ _ _
    (sameData_askQuestion _ _ _ _ (by simp only [Session.withData, ht])) ?_
  intro _ t1 t2 inputs ht
  exact ⟨by simp only [Session.withData, ht], rfl, rfl⟩

theorem sameData_generateDesignPrompt (s1 s2 : Session) (inputs : List String)
    (h : s1.projectData = s2.projectData) :
    SameData (generateDesignPrompt s1 inputs) (generateDesignPrompt s2 inputs) := by
  unfold generateDesignPrompt
  rw [h]
  cases designPromptText s2.projectData with
  | ok prompt => exact ⟨h, rfl, rfl⟩
  | error e => exact ⟨h, rfl, rfl⟩

theorem sameData_createAnotherDesign (env : CliEnv) (s1 s2 : Session)
    (inputs : List String) :
    SameData (createAnotherDesign env s1 inputs) (createAnotherDesign env s2 inputs) := by
  unfold createAnotherDesign
  refine sameData_bind _ _ _ (sameData_selectInterfaceType _ _ _ rfl) ?_
  intro _ t1 t2 inputs ht
  refine sameData_bind _ _ _ (sameData_collectProjectDetails _ _ _ ht) ?_
  intro _ t1 t2 inputs ht
  refine sameData_bind _ _ _ (sameData_generateDesignPrompt _ _ _ ht) ?_
  intro _ t1 t2 inputs ht
  exact ⟨ht, rfl, rfl⟩

theorem bind_session_invariant {α β : Type} (P Q : Session → Prop) (r : Step α)
    (f : α → Session → List String → Step β) (hr : P r.session) (hpq : ∀ s, P s → Q s)
    (hf : ∀ v s inputs, P s → Q (f v s inputs).session) :
    Q (r.bind f).session := by
  unfold Step.bind
  cases r.settled with
  | resolved v => exact hf v _ _ hr
  | waiting => exact hpq _ hr
  | threw m => exact hpq _ hr

theorem askQuestion_projectData (q : String) (s : Session) (inputs : List String) :
    (askQuestion q s inputs).session.projectData = s.projectData := by
  cases inputs <;> rfl

theorem selectInterfaceType_frame (s : Session) (inputs : List String) :
    (selectInterfaceType s inputs).session.projectData =
      { s.projectData with
        interfaceType := (selectInterfaceType s inputs).session.projectData.interfaceType } := by
  induction inputs generalizing s with
  | nil => rfl
  | cons a rest ih =>
    unfold selectInterfaceType
    by_cases hc : choiceInRange 6 (parseInt a) = true
    · simp only [hc, if_true]
    · simp only [hc]
      exact ih _

theorem selectDesignStyle_frame (s : Session) (inputs : List String) :
    (selectDesignStyle s inputs).session.projectData =
      { s.projectData with
        designStyle := (selectDesignStyle s inputs).session.projectData.designStyle } := by
  induction inputs generalizing s with
  | nil => rfl
  | cons a rest ih =>
    unfold selectDesignStyle
    by_cases hc : choiceInRange 8 (parseInt a) = true
    · simp only [hc, if_true]
    · simp only [hc]
      exact ih _

theorem askQuestion_keeps (P : Session → Prop) (q : String) (s : Session)
    (inputs : List String) (hP : ∀ s1 s2 : Session, s1.projectData = s2.projectData → P s1 → P s2)
    (h : P s) : P (askQuestion q s inputs).session :=
  hP _ _ (askQuestion_projectData q s inputs).symm h

theorem toolHasNoScreenCount_congr (s1 s2 : Session) (h : s1.projectData = s2.projectData)
    (h1 : ToolHasNoScreenCount s1) : ToolHasNoScreenCount s2 := by
  unfold ToolHasNoScreenCount at *
  rw [← h]; exact h1

theorem noScreenCount_congr (s1 s2 : Session) (h : s1.projectData = s2.projectData)
    (h1 : NoScreenCount s1) : NoScreenCount s2 := by
  unfold NoScreenCount at *
  rw [← h]; exact h1

theorem askScreenCount_tool (s : Session) (inputs : List String) (h : NoScreenCount s) :
    ToolHasNoScreenCount (askScreenCount s inputs).session := by
  unfold askScreenCount
  by_cases ht : s.projectData.interfaceType = some "Command Line Tool"
  · simp only [ht, bne_self_eq_false, Bool.false_eq_true, if_false]
    exact fun _ => h
  · have hb : (s.projectData.interfaceType != some "Command Line Tool") = true := by
      simpa using ht
    simp only [hb, if_true]
    have hq : ∀ t : Session, t.projectData.interfaceType ≠ some "Command Line Tool" →
        ToolHasNoScreenCount t := fun t h1 h2 => absurd h2 h1
    refine bind_session_invariant
      (fun t => t.projectData.interfaceType ≠ some "Command Line Tool") _ _ _ ?_ hq ?_
    · show (askQuestion _ s inputs).session.projectData.interfaceType ≠ _
      rw [askQuestion_projectData]; exact ht
    · intro v t inputs h1
      exact hq _ h1

theorem collectProjectDetails_tool (s : Session) (inputs : List String)
    (h : NoScreenCount s) : ToolHasNoScreenCount (collectProjectDetails s inputs).session := by
  have hRQ : ∀ t, NoScreenCount t → ToolHasNoScreenCount t := fun t h1 _ => h1
  unfold collectProjectDetails
  refine bind_session_invariant NoScreenCount _ _ _
    (askQuestion_keeps _ _ _ _ noScreenCount_congr h) hRQ ?_
  intro _ t inputs ht
  refine bind_session_invariant NoScreenCount _ _ _
    (askQuestion_keeps _ _ _ _ noScreenCount_congr ht) hRQ ?_
  intro _ t inputs ht
  refine bind_session_invariant ToolHasNoScreenCount _ _ _
    (askScreenCount_tool _ _ ht) (fun _ h1 => h1) ?_
  intro _ t inputs ht
  refine bind_session_invariant ToolHasNoScreenCount _ _ _
    (askQuestion_keeps _ _ _ _ toolHasNoScreenCount_congr ht) (fun _ h1 => h1) ?_
  intro _ t inputs ht
  refine bind_session_invariant ToolHasNoScreenCount _ _ _ ?_ (fun _ h1 => h1) ?_
  · unfold ToolHasNoScreenCount at ht ⊢
    rw [selectDesignStyle_frame]
    exact ht
  intro _ t inputs ht
  refine bind_session_invariant ToolHasNoScreenCount _ _ _
    (askQuestion_keeps _ _ _ _ toolHasNoScreenCount_congr ht) (fun _ h1 => h1) ?_
  intro _ t inputs ht
  refine bind_session_invariant ToolHasNoScreenCount _ _ _
    (askQuestion_keeps _ _ _ _ toolHasNoScreenCount_congr ht) (fun _ h1 => h1) ?_
  intro _ t inputs ht
  exact ht

theorem generateDesignPrompt_projectData (s : Session) (inputs : List String) :
    (generateDesignPrompt s inputs).session.projectData = s.projectData := by
  unfold generateDesignPrompt
  cases designPromptText s.projectData <;> rfl

theorem createAnotherDesign_tool (env : CliEnv) (s : Session) (inputs : List String) :
    ToolHasNoScreenCount (createAnotherDesign env s inputs).session := by
  have hRQ : ∀ t, NoScreenCount t → ToolHasNoScreenCount t := fun t h1 _ => h1
  unfold createAnotherDesign
  refine bind_session_invariant NoScreenCount _ _ _ ?_ hRQ ?_
  · unfold NoScreenCount
    rw [selectInterfaceType_frame]
    rfl
  intro _ t inputs ht
  refine bind_session_invariant ToolHasNoScreenCount _ _ _
    (collectProjectDetails_tool _ _ ht) (fun _ h1 => h1) ?_
  intro _ t inputs ht
  refine bind_session_invariant ToolHasNoScreenCount _ _ _ ?_ (fun _ h1 => h1) ?_
  · exact toolHasNoScreenCount_congr _ _ (generateDesignPrompt_projectData t inputs).symm ht
  intro _ t inputs ht
  exact ht

theorem bind_continue_session {α : Type} (r : Step α) (b : Bool) :
    (r.bind fun _ s inputs => ⟨s, inputs, .resolved b⟩).session = r.session := by
  unfold Step.bind
  cases r.settled <;> rfl

theorem saveResults_projectData (env : CliEnv) (s : Session) (inputs : List String) :
    (saveResults env s inputs).step.session.projectData = s.projectData := by
  cases inputs with
  | nil => rfl
  | cons a rest =>
    simp only [saveResults, askQuestion]
    repeat' split
    all_goals rfl

theorem showColorPalettes_projectData (s : Session) (inputs : List String) :
    (showColorPalettes s inputs).session.projectData = s.projectData := by
  unfold showColorPalettes
  cases lookupProperty palettesTable (propertyKey s.projectData.designStyle) <;> rfl

theorem menuTurn_one (env : CliEnv) (websiteDesign : Session → List String → Outcome Unit)
    (s : Session) (answer : String) (rest : List String) (h : parseInt answer = some 1) :
    (menuTurn env websiteDesign s (answer :: rest)).step =
      (createAnotherDesign env (s.display optionsMenu) rest).bind
        fun _ s inputs => ⟨s, inputs, .resolved true⟩ := by
  simp only [menuTurn, showOptionsMenu, h, if_true]

theorem menuTurn_frame (env : CliEnv) (websiteDesign : Session → List String → Outcome Unit)
    (s : Session) (inputs : List String)
    (h : ∀ answer rest, inputs = answer :: rest →
      parseInt answer ≠ some 1 ∧ parseInt answer ≠ some 6) :
    (menuTurn env websiteDesign s inputs).step.session.projectData = s.projectData := by
  cases inputs with
  | nil => rfl
  | cons answer rest =>
    obtain ⟨h1, h6⟩ := h answer rest rfl
    simp only [menuTurn, showOptionsMenu, h1, h6, if_false]
    split_ifs
    · rw [bind_continue_session, saveResults_projectData]; rfl
    · rw [bind_continue_session, showColorPalettes_projectData]; rfl
    · rfl
    · rfl
    · rfl
    · rfl

/-- C26: when the menu answer is option 1, the answer record is emptied before the
first new question (with only the menu answer typed, the wizard waits at that
question with an empty record), the record the turn leaves is the same whatever the
record held before, and a record it leaves for a `Command Line Tool` holds no
`screenCount`.  A menu answer other than options 1 and 6, which covers options 2
to 5, option 7 and every invalid answer, leaves `projectData` unchanged, and so
does a menu that is still waiting for its answer. -/
theorem create_another_design_resets (env : CliEnv)
    (websiteDesign : Session → List String → Outcome Unit) (s : Session) (answer : String)
    (rest : List String) :
    (parseInt answer = some 1 →
      (menuTurn env websiteDesign s [answer]).step.session.projectData = {} ∧
      (menuTurn env websiteDesign s [answer]).step.settled = .waiting ∧
      (∀ before : Session,
        (menuTurn env websiteDesign s (answer :: rest)).step.session.projectData =
          (menuTurn env websiteDesign before (answer :: rest)).step.session.projectData) ∧
      ((menuTurn env websiteDesign s (answer :: rest)).step.session.projectData.interfaceType =
          some "Command Line Tool" →
        (menuTurn env websiteDesign s (answer :: rest)).step.session.projectData.screenCount
          = none)) ∧
    (parseInt answer ≠ some 1 → parseInt answer ≠ some 6 →
      (menuTurn env websiteDesign s (answer :: rest)).step.session.projectData =
        s.projectData) ∧
    (menuTurn env websiteDesign s []).step.session.projectData = s.projectData := by
  refine ⟨fun h => ⟨?_, ?_, ?_, ?_⟩, ?_, rfl⟩
  · rw [menuTurn_one env websiteDesign s answer [] h]
    rfl
  · rw [menuTurn_one env websiteDesign s answer [] h]
    rfl
  · intro before
    rw [menuTurn_one env websiteDesign s answer rest h,
      menuTurn_one env websiteDesign before answer rest h, bind_continue_session,
      bind_continue_session]
    exact (sameData_createAnotherDesign env _ _ rest).1
  · rw [menuTurn_one env websiteDesign s answer rest h, bind_continue_session]
    exact createAnotherDesign_tool env _ rest
  · intro h1 h6
    apply menuTurn_frame
    intro a r e
    cases e
    exact ⟨h1, h6⟩

/-- C26 witness: after a session for a web application with five screens, option 1
followed by the answers of a command line tool leaves a record without
`screenCount`; saving and an unknown menu answer leave the record as it was. -/
theorem create_another_design_resets_witness :
    (menuTurn demoCliEnv websiteDesignReturns { projectData := webData }
        ["1", "4", "backup", "admins", "flags", "1", "", ""]).step.session.projectData =
      { interfaceType := some "Command Line Tool", purpose := some "backup",
        targetUsers := some "admins", screenCount := none, features := some "flags",
        designStyle := some "Minimal & Clean", colorPreference := some "",
        additionalReqs := some "" } ∧
    (menuTurn demoCliEnv websiteDesignReturns { projectData := webData }
        ["1", "4", "backup", "admins", "flags", "1", "", ""]).step.session.projectData.screenCount
      = none ∧
    (menuTurn demoCliEnv websiteDesignReturns { projectData := webData }
        ["2", "n"]).step.session.projectData = webData ∧
    (menuTurn demoCliEnv websiteDesignReturns { projectData := webData }
        ["menu"]).step.session.projectData = webData :=
  ⟨by decide,
    ((create_another_design_resets demoCliEnv websiteDesignReturns { projectData := webData }
      "1" ["4", "backup", "admins", "flags", "1", "", ""]).1 (by decide)).2.2.2 (by decide),
    (create_another_design_resets demoCliEnv websiteDesignReturns { projectData := webData }
      "2" ["n"]).2.1 (by decide) (by decide),
    (create_another_design_resets demoCliEnv websiteDesignReturns { projectData := webData }
      "menu" []).2.1 (by decide) (by decide)⟩

/-! ## The generators on the heap -/

set_option maxHeartbeats 4000000

theorem fresh_getElem? (heap created : Heap) (i : Nat) :
    (heap ++ created)[fresh heap i]? = created[i]? := by
  unfold fresh
  rw [List.getElem?_append_right (Nat.le_add_right _ _)]
  simp

theorem old_getElem? (heap created : Heap) (address : Nat) (o : Obj)
    (h : heap[address]? = some o) : (heap ++ created)[address]? = some o := by
  have hlt : address < heap.length := by
    by_contra hn
    rw [List.getElem?_eq_none (Nat.le_of_not_lt hn)] at h
    cases h
  rw [List.getElem?_append_left hlt]
  exact h

theorem fresh_set (heap created : Heap) (i : Nat) (o : Obj) :
    (heap ++ created).set (fresh heap i) o = heap ++ created.set i o := by
  unfold fresh
  rw [List.set_append_right _ _ (Nat.le_add_right _ _)]
  simp

theorem bind_ok {α β : Type} (value : α) (heap : Heap) (next : α → Heap → Run β) :
    Run.bind (.ok (value, heap)) next = next value heap := rfl

theorem newObject_next (o : Obj) (heap created : Heap) :
    newObject o (heap ++ created) =
      .ok (.ref (fresh heap created.length), heap ++ (created ++ [o])) := by
  simp [newObject, fresh]

theorem readProperty_fresh (heap created : Heap) (i : Nat) (key : String) :
    readProperty (.ref (fresh heap i)) key (heap ++ created) =
      match created[i]? with
      | some o => .ok (o.read key, heap ++ created)
      | none => .error "ReferenceError: no object at the address" := by
  simp only [readProperty, fresh_getElem?]

theorem writeProperty_fresh (heap created : Heap) (i : Nat) (key : String) (v : Value) :
    writeProperty (.ref (fresh heap i)) key v (heap ++ created) =
      match created[i]? with
      | some o => .ok ((), heap ++ created.set i (o.assign key v))
      | none => .error "ReferenceError: no object at the address" := by
  simp only [writeProperty, fresh_getElem?, fresh_set]

theorem readAnswer_next (heap created : Heap) (this record : Nat) (a : Answers)
    (key : String) (h : HoldsRecord heap this record a) :
    readAnswer (.ref this) key (heap ++ created) =
      .ok (a.toObj.read key, heap ++ created) := by
  obtain ⟨⟨builder, hb, ha⟩, hr⟩ := h
  simp only [readAnswer, readProperty, old_getElem? _ created _ _ hb, bind_ok, ha,
    old_getElem? _ created _ _ hr]

theorem toObj_read_string (a : Answers) :
    a.toObj.read "uiType" = .str a.uiType ∧ a.toObj.read "colorTheme" = .str a.colorTheme ∧
    a.toObj.read "cssFramework" = .str a.cssFramework ∧
    a.toObj.read "projectName" = .str a.projectName :=
  ⟨rfl, rfl, rfl, rfl⟩

theorem toObj_read_includeRouter (a : Answers) :
    (a.toObj.read "includeRouter").truthy = truthy a.includeRouter := by
  obtain ⟨_, _, _, _, _, _, r, f, m⟩ := a
  rcases r with _ | _ | _ <;> rcases f with _ | _ | _ <;> rcases m with _ | _ <;> rfl

theorem toObj_read_includeStateManagement (a : Answers) :
    (a.toObj.read "includeStateManagement").truthy = truthy a.includeStateManagement := by
  obtain ⟨_, _, _, _, _, _, r, f, m⟩ := a
  rcases r with _ | _ | _ <;> rcases f with _ | _ | _ <;> rcases m with _ | _ <;> rfl

theorem toObj_read_stateManager_value (a : Answers) :
    a.toObj.read "stateManager" =
      match a.stateManager with
      | some choice => .str choice
      | none => .undefined := by
  obtain ⟨_, _, _, _, _, _, r, f, m⟩ := a
  rcases r with _ | _ | _ <;> rcases f with _ | _ | _ <;> rcases m with _ | _ <;> rfl

theorem toObj_read_stateManager (a : Answers) (choice : String) :
    a.toObj.read "stateManager" = .str choice ↔ a.stateManager = some choice := by
  rw [toObj_read_stateManager_value]
  cases a.stateManager <;> simp

theorem bind_ite {α β : Type} (c : Prop) [Decidable c] (x y : Run α)
    (next : α → Heap → Run β) :
    Run.bind (if c then x else y) next = if c then x.bind next else y.bind next := by
  split_ifs <;> rfl

theorem read_cons (key : String) (v : Value) (rest : Obj) (wanted : String) :
    Obj.read ((key, v) :: rest) wanted = if wanted = key then v else Obj.read rest wanted := by
  unfold Obj.read
  by_cases e : wanted = key
  · simp [List.lookup, e]
  · have : (wanted == key) = false := by simpa using e
    simp [List.lookup, e, this]

theorem read_nil (wanted : String) :
    Obj.read [] wanted =
      if objectPrototypeKeys.contains wanted then .inherited wanted else .undefined := rfl

theorem cssFramework_cases (s : String) :
    s = "tailwind" ∨ (s ≠ "tailwind" ∧ s = "bootstrap") ∨
      (s ≠ "tailwind" ∧ s ≠ "bootstrap" ∧ s = "mui") ∨
      (s ≠ "tailwind" ∧ s ≠ "bootstrap" ∧ s ≠ "mui" ∧ s = "chakra") ∨
      (s ≠ "tailwind" ∧ s ≠ "bootstrap" ∧ s ≠ "mui" ∧ s ≠ "chakra") := by
  by_cases h1 : s = "tailwind"
  · exact Or.inl h1
  by_cases h2 : s = "bootstrap"
  · exact Or.inr (Or.inl ⟨h1, h2⟩)
  by_cases h3 : s = "mui"
  · exact Or.inr (Or.inr (Or.inl ⟨h1, h2, h3⟩))
  by_cases h4 : s = "chakra"
  · exact Or.inr (Or.inr (Or.inr (Or.inl ⟨h1, h2, h3, h4⟩)))
  · exact Or.inr (Or.inr (Or.inr (Or.inr ⟨h1, h2, h3, h4⟩)))

theorem stateManager_cases (s : Option String) :
    s = some "redux" ∨ (s ≠ some "redux" ∧ s = some "zustand") ∨
      (s ≠ some "redux" ∧ s ≠ some "zustand" ∧ s = some "recoil") ∨
      (s ≠ some "redux" ∧ s ≠ some "zustand" ∧ s ≠ some "recoil") := by
  by_cases h1 : s = some "redux"
  · exact Or.inl h1
  by_cases h2 : s = some "zustand"
  · exact Or.inr (Or.inl ⟨h1, h2⟩)
  by_cases h3 : s = some "recoil"
  · exact Or.inr (Or.inr (Or.inl ⟨h1, h2, h3⟩))
  · exact Or.inr (Or.inr (Or.inr ⟨h1, h2, h3⟩))

theorem delivers_ok (heap created : Heap) (manifest : Manifest) (value : Value)
    (h : readManifest (heap ++ created) value = some manifest) :
    Delivers heap manifest (.ok (value, heap ++ created)) :=
  ⟨⟨created, rfl⟩, h⟩

theorem getReactPackageJson_run (heap : Heap) (this record : Nat) (a : Answers)
    (h : HoldsRecord heap this record a) :
    Delivers heap (getReactPackageJson a) (OnHeap.getReactPackageJson (.ref this) heap) := by
  rw [show OnHeap.getReactPackageJson (.ref this) heap =
    OnHeap.getReactPackageJson (.ref this) (heap ++ []) by rw [List.append_nil]]
  simp only [OnHeap.getReactPackageJson, OnHeap.reactCssFramework, OnHeap.reactRouting,
    OnHeap.reactStateManagement, assignIn]
  rcases cssFramework_cases a.cssFramework with c | ⟨c1, c⟩ | ⟨c1, c2, c⟩ | ⟨c1, c2, c3, c⟩ |
      ⟨c1, c2, c3, c4⟩ <;>
    by_cases r : truthy a.includeRouter = true <;>
    by_cases f : truthy a.includeStateManagement = true <;>
    rcases stateManager_cases a.stateManager with m | ⟨m1, m⟩ | ⟨m1, m2, m⟩ | ⟨m1, m2, m3⟩ <;>
    simp [-List.append_nil, readAnswer_next _ _ _ _ _ _ h, bind_ok,
      newObject_next, readProperty_fresh, writeProperty_fresh,
      (toObj_read_string a).1, (toObj_read_string a).2.1, (toObj_read_string a).2.2.1,
      (toObj_read_string a).2.2.2, toObj_read_includeRouter,
      toObj_read_includeStateManagement, toObj_read_stateManager, read_cons, read_nil,
      Obj.assign, *] <;>
    apply delivers_ok <;>
    simp [*, readManifest, fresh_getElem?, readFields, readField, readProps,
      getReactPackageJson, reactStateManagement, reactRouting, reactCssFramework, reactBase,
      setIn, setField, setProp, getObj]

theorem getVuePackageJson_run (heap : Heap) (this record : Nat) (a : Answers)
    (h : HoldsRecord heap this record a) :
    Delivers heap (getVuePackageJson a) (OnHeap.getVuePackageJson (.ref this) heap) := by
  rw [show OnHeap.getVuePackageJson (.ref this) heap =
    OnHeap.getVuePackageJson (.ref this) (heap ++ []) by rw [List.append_nil]]
  simp only [OnHeap.getVuePackageJson, OnHeap.vueCssFramework, OnHeap.vueRouting,
    OnHeap.vueStateManagement, assignIn]
  rcases cssFramework_cases a.cssFramework with c | ⟨c1, c⟩ | ⟨c1, c2, c⟩ | ⟨c1, c2, c3, c⟩ |
      ⟨c1, c2, c3, c4⟩ <;>
    by_cases r : truthy a.includeRouter = true <;>
    by_cases f : truthy a.includeStateManagement = true <;>
    simp [-List.append_nil, readAnswer_next _ _ _ _ _ _ h, bind_ok,
      newObject_next, readProperty_fresh, writeProperty_fresh,
      (toObj_read_string a).1, (toObj_read_string a).2.1, (toObj_read_string a).2.2.1,
      (toObj_read_string a).2.2.2, toObj_read_includeRouter,
      toObj_read_includeStateManagement, read_cons, read_nil, Obj.assign, *] <;>
    apply delivers_ok <;>
    simp [*, readManifest, fresh_getElem?, readFields, readField, readProps,
      getVuePackageJson, vueStateManagement, vueRouting, vueCssFramework, vueBase,
      setIn, setField, setProp, getObj]

theorem getSveltePackageJson_run (heap : Heap) (this record : Nat) (a : Answers)
    (h : HoldsRecord heap this record a) :
    Delivers heap (getSveltePackageJson a) (OnHeap.getSveltePackageJson (.ref this) heap) := by
  rw [show OnHeap.getSveltePackageJson (.ref this) heap =
    OnHeap.getSveltePackageJson (.ref this) (heap ++ []) by rw [List.append_nil]]
  simp only [OnHeap.getSveltePackageJson]
  by_cases c : a.cssFramework = "tailwind" <;>
    simp [-List.append_nil, readAnswer_next _ _ _ _ _ _ h, bind_ok,
      newObject_next, (toObj_read_string a).2.2.1, (toObj_read_string a).2.2.2, *] <;>
    apply delivers_ok <;>
    simp [*, readManifest, fresh_getElem?, readFields, readField, readProps,
      getSveltePackageJson]

theorem holdsRecord_append (heap created : Heap) (this record : Nat) (a : Answers)
    (h : HoldsRecord heap this record a) : HoldsRecord (heap ++ created) this record a := by
  obtain ⟨⟨builder, hb, ha⟩, hr⟩ := h
  exact ⟨⟨builder, old_getElem? _ _ _ _ hb, ha⟩, old_getElem? _ _ _ _ hr⟩

theorem textObject_read (table : List (String × String)) (key : String) :
    (Obj.read (textObject table) key).text = interpolate (lookupProperty table key) ∧
    ((Obj.read (textObject table) key).truthy =
      match lookupProperty table key with
      | .own text => !text.isEmpty
      | .inherited _ => true
      | .undefined => false) ∧
    (∀ text, lookupProperty table key = .own text →
      Obj.read (textObject table) key = .str text) := by
  have hl : (textObject table).lookup key = (table.lookup key).map Value.str := by
    induction table with
    | nil => rfl
    | cons p rest ih =>
      obtain ⟨k, v⟩ := p
      simp only [textObject, List.map_cons, List.lookup] at ih ⊢
      cases key == k
      · exact ih
      · rfl
  unfold Obj.read lookupProperty
  rw [hl]
  cases table.lookup key with
  | some v => exact ⟨rfl, rfl, fun text ht => by cases ht; rfl⟩
  | none =>
    by_cases hp : objectPrototypeKeys.contains key = true
    · simp only [Option.map_none', hp, if_true]
      exact ⟨rfl, rfl, fun text ht => by cases ht⟩
    · simp only [Option.map_none', hp]
      exact ⟨rfl, rfl, fun text ht => by cases ht⟩

theorem text_str (text : String) : (Value.str text).text = text := rfl

theorem readAnswer_held (heap : Heap) (this record : Nat) (a : Answers) (key : String)
    (h : HoldsRecord heap this record a) :
    readAnswer (.ref this) key heap = .ok (a.toObj.read key, heap) := by
  have e := readAnswer_next heap [] this record a key h
  rwa [List.append_nil] at e

theorem getReactImports_run (heap : Heap) (this record : Nat) (a : Answers)
    (h : HoldsRecord heap this record a) :
    OnHeap.getReactImports (.ref this) heap = .ok (.str (getReactImports a), heap) := by
  simp only [OnHeap.getReactImports, readAnswer_held _ _ _ _ _ h, bind_ok,
    (toObj_read_string a).2.2.1, toObj_read_includeRouter, Value.str.injEq, getReactImports,
    beq_iff_eq]
  by_cases r : truthy a.includeRouter = true <;> by_cases c1 : a.cssFramework = "mui" <;>
    by_cases c2 : a.cssFramework = "chakra" <;> simp [r, c1, c2]

theorem getUIContent_run (heap : Heap) (this record : Nat) (a : Answers) (framework : String)
    (h : HoldsRecord heap this record a) :
    ∃ content created,
      OnHeap.getUIContent (.ref this) framework heap = .ok (content, heap ++ created) ∧
      content.text = interpolate (getUIContent a framework) := by
  rw [show OnHeap.getUIContent (.ref this) framework heap =
    OnHeap.getUIContent (.ref this) framework (heap ++ []) by rw [List.append_nil]]
  have hc : Obj.read (textObject (uiTemplates framework)) "custom" =
      .str (getCustomContent framework) := rfl
  obtain ⟨ht, hy, ho⟩ := textObject_read (uiTemplates framework) a.uiType
  simp only [OnHeap.getUIContent, newObject_next, bind_ok, List.nil_append, List.length_nil,
    readAnswer_next _ _ _ _ _ _ h, (toObj_read_string a).1, text_str, readProperty_fresh,
    List.getElem?_cons_zero, hy, hc, getUIContent]
  cases hl : lookupProperty (uiTemplates framework) a.uiType with
  | own text =>
    by_cases e : text.isEmpty = true
    · simp only [e, Bool.not_true, Bool.false_eq_true, if_false, if_true]
      exact ⟨_, _, rfl, rfl⟩
    · simp only [e, Bool.not_eq_true, Bool.not_false, if_true, if_false]
      refine ⟨_, _, rfl, ?_⟩
      rw [ho text hl]
      rfl
  | inherited name =>
    simp only [if_true]
    refine ⟨_, _, rfl, ?_⟩
    rw [ht, hl]
  | undefined =>
    simp only [Bool.false_eq_true, if_false]
    exact ⟨_, _, rfl, rfl⟩

theorem getReactAppComponent_run (heap : Heap) (this record : Nat) (a : Answers)
    (h : HoldsRecord heap this record a) :
    DeliversText heap (getReactAppComponent a) (OnHeap.getReactAppComponent (.ref this) heap) := by
  obtain ⟨content, created, hrun, htext⟩ := getUIContent_run heap this record a "react" h
  refine ⟨created, ?_⟩
  simp only [OnHeap.getReactAppComponent, getReactImports_run heap this record a h, bind_ok,
    hrun, htext, text_str, getReactAppComponent]

theorem getColorVariables_run (heap : Heap) (this record : Nat) (a : Answers)
    (h : HoldsRecord heap this record a) :
    DeliversText heap (getColorVariables a) (OnHeap.getColorVariables (.ref this) heap) := by
  rw [show OnHeap.getColorVariables (.ref this) heap =
    OnHeap.getColorVariables (.ref this) (heap ++ []) by rw [List.append_nil]]
  refine ⟨[textObject colorThemes], ?_⟩
  simp only [OnHeap.getColorVariables, newObject_next, bind_ok, List.nil_append,
    List.length_nil, readAnswer_next _ _ _ _ _ _ h, (toObj_read_string a).2.1, text_str,
    readProperty_fresh, List.getElem?_cons_zero, (textObject_read colorThemes a.colorTheme).1,
    getColorVariables, colorVariablesOf, propertyKey]

theorem getMainStyles_run (heap : Heap) (this record : Nat) (a : Answers)
    (h : HoldsRecord heap this record a) :
    DeliversText heap (getMainStyles a) (OnHeap.getMainStyles (.ref this) heap) := by
  obtain ⟨created, hrun⟩ := getColorVariables_run heap this record a h
  refine ⟨created, ?_⟩
  simp only [OnHeap.getMainStyles, hrun, bind_ok, text_str, getMainStyles]

theorem getVanillaIndexHtml_run (heap : Heap) (this record : Nat) (a : Answers)
    (h : HoldsRecord heap this record a) :
    DeliversText heap (getVanillaIndexHtml a) (OnHeap.getVanillaIndexHtml (.ref this) heap) := by
  obtain ⟨content, created, hrun, htext⟩ := getUIContent_run heap this record a "vanilla" h
  refine ⟨created, ?_⟩
  simp only [OnHeap.getVanillaIndexHtml, hrun, bind_ok, readAnswer_next _ _ _ _ _ _ h,
    (toObj_read_string a).2.2.2, htext, text_str, getVanillaIndexHtml]

theorem keeps_append (heap created : Heap) : Keeps heap (heap ++ created) :=
  fun address o h => old_getElem? heap created address o h

theorem keeps_holdsRecord (heap after : Heap) (this record : Nat) (a : Answers)
    (h : HoldsRecord heap this record a) (k : Keeps heap after) :
    HoldsRecord after this record a := by
  obtain ⟨⟨builder, hb, ha⟩, hr⟩ := h
  exact ⟨⟨builder, k _ _ hb, ha⟩, k _ _ hr⟩

theorem readField_keeps (heap after : Heap) (k : Keeps heap after) (value : Value)
    (field : Field) (h : readField heap value = some field) :
    readField after value = some field := by
  cases value with
  | ref inner =>
    simp only [readField] at h ⊢
    cases hi : heap[inner]? with
    | none => rw [hi] at h; cases h
    | some props =>
      rw [hi] at h
      rw [k _ _ hi]
      exact h
  | str text => exact h
  | bool b => exact h
  | undefined => exact h
  | inherited name => exact h

theorem readFields_keeps (heap after : Heap) (k : Keeps heap after) (o : Obj)
    (manifest : Manifest) (h : readFields heap o = some manifest) :
    readFields after o = some manifest := by
  induction o generalizing manifest with
  | nil => exact h
  | cons p rest ih =>
    obtain ⟨key, value⟩ := p
    simp only [readFields] at h ⊢
    cases hf : readField heap value with
    | none => rw [hf] at h; cases h
    | some field =>
      cases hr : readFields heap rest with
      | none => rw [hf, hr] at h; cases h
      | some fields =>
        rw [hf, hr] at h
        rw [readField_keeps heap after k value field hf, ih fields hr]
        exact h

theorem readManifest_keeps (heap after : Heap) (k : Keeps heap after) (value : Value)
    (manifest : Manifest) (h : readManifest heap value = some manifest) :
    readManifest after value = some manifest := by
  cases value with
  | ref address =>
    simp only [readManifest] at h ⊢
    cases ha : heap[address]? with
    | none => rw [ha] at h; cases h
    | some o =>
      rw [ha] at h
      rw [k _ _ ha]
      exact readFields_keeps heap after k o manifest h
  | str text => cases h
  | bool b => cases h
  | undefined => cases h
  | inherited name => cases h

theorem delivers_elim (heap : Heap) (manifest : Manifest) (run : Run Value)
    (h : Delivers heap manifest run) :
    ∃ value created, run = .ok (value, heap ++ created) ∧
      readManifest (heap ++ created) value = some manifest := by
  cases run with
  | error e => exact absurd h (by simp [Delivers])
  | ok p =>
    obtain ⟨value, after⟩ := p
    obtain ⟨⟨created, hc⟩, hm⟩ := h
    subst hc
    exact ⟨value, created, rfl, hm⟩

theorem twiceManifest_of_delivers (method : Value → Heap → Run Value)
    (manifest : Answers → Manifest)
    (run : ∀ heap this record a, HoldsRecord heap this record a →
      Delivers heap (manifest a) (method (.ref this) heap))
    (heap : Heap) (this record : Nat) (a : Answers) (h : HoldsRecord heap this record a) :
    TwiceManifest heap (.ref this) method (manifest a) := by
  obtain ⟨first, created, h1, m1⟩ := delivers_elim _ _ _ (run heap this record a h)
  obtain ⟨second, created2, h2, m2⟩ :=
    delivers_elim _ _ _ (run (heap ++ created) this record a (holdsRecord_append _ _ _ _ _ h))
  exact ⟨first, _, second, _, h1, h2, keeps_append _ _, keeps_append _ _, m1,
    readManifest_keeps _ _ (keeps_append _ _) _ _ m1, m2⟩

theorem twiceText_of_delivers (method : Value → Heap → Run Value) (text : Answers → String)
    (run : ∀ heap this record a, HoldsRecord heap this record a →
      DeliversText heap (text a) (method (.ref this) heap))
    (heap : Heap) (this record : Nat) (a : Answers) (h : HoldsRecord heap this record a) :
    TwiceText heap (.ref this) method (text a) := by
  obtain ⟨created, h1⟩ := run heap this record a h
  obtain ⟨created2, h2⟩ := run (heap ++ created) this record a (holdsRecord_append _ _ _ _ _ h)
  exact ⟨_, _, h1, h2, keeps_append _ _, keeps_append _ _⟩

/-- C27: on every heap on which the builder's field `answers` refers to the object
of an answer record, each of `getReactPackageJson`, `getVuePackageJson`,
`getSveltePackageJson`, `getReactAppComponent`, `getMainStyles` and
`getVanillaIndexHtml`, run statement by statement and called twice in a row,
returns both times; the two calls return equal results (the same manifest, read
off the returned objects, or the same text), which are the values of the
corresponding functions of the record; and each call keeps every object it found
on the heap, so that the record holds the same fields after each call. -/
theorem generators_repeat_and_keep_the_record (heap : Heap) (this record : Nat)
    (a : Answers) (h : HoldsRecord heap this record a) :
    TwiceManifest heap (.ref this) OnHeap.getReactPackageJson (getReactPackageJson a) ∧
    TwiceManifest heap (.ref this) OnHeap.getVuePackageJson (getVuePackageJson a) ∧
    TwiceManifest heap (.ref this) OnHeap.getSveltePackageJson (getSveltePackageJson a) ∧
    TwiceText heap (.ref this) OnHeap.getReactAppComponent (getReactAppComponent a) ∧
    TwiceText heap (.ref this) OnHeap.getMainStyles (getMainStyles a) ∧
    TwiceText heap (.ref this) OnHeap.getVanillaIndexHtml (getVanillaIndexHtml a) ∧
    (∀ after : Heap, Keeps heap after →
      after[record]? = some a.toObj ∧ HoldsRecord after this record a) :=
  ⟨twiceManifest_of_delivers _ _ getReactPackageJson_run heap this record a h,
    twiceManifest_of_delivers _ _ getVuePackageJson_run heap this record a h,
    twiceManifest_of_delivers _ _ getSveltePackageJson_run heap this record a h,
    twiceText_of_delivers _ _ getReactAppComponent_run heap this record a h,
    twiceText_of_delivers _ _ getMainStyles_run heap this record a h,
    twiceText_of_delivers _ _ getVanillaIndexHtml_run heap this record a h,
    fun after k => ⟨k _ _ h.2, keeps_holdsRecord heap after this record a h k⟩⟩

/-- C27 witness: the heap that holds a builder and the record of a React project
with Redux. -/
theorem generators_repeat_and_keep_the_record_witness :
    HoldsRecord demoHeap 0 1 reactWithRedux ∧
    TwiceManifest demoHeap (.ref 0) OnHeap.getReactPackageJson
      (getReactPackageJson reactWithRedux) ∧
    TwiceText demoHeap (.ref 0) OnHeap.getMainStyles (getMainStyles reactWithRedux) :=
  ⟨⟨⟨_, rfl, rfl⟩, rfl⟩,
    (generators_repeat_and_keep_the_record demoHeap 0 1 reactWithRedux
      ⟨⟨_, rfl, rfl⟩, rfl⟩).1,
    (generators_repeat_and_keep_the_record demoHeap 0 1 reactWithRedux
      ⟨⟨_, rfl, rfl⟩, rfl⟩).2.2.2.2.1⟩

end UiDesigner
